import Mathlib

/-!
# NRest: a shallow embedding of `nrest-api.c`

The handlers of `src/nrest-api.c` are translated into pure functions over an explicit
store value `Db`.  A handler that only reads returns a `Response`; a handler that writes
returns the new store together with its `Response`.

Conventions of the embedding

* A `json_t *` is an `Option Json`; `none` is the NULL pointer.  The jansson accessors keep
  their C names and their behaviour on NULL and on values of the wrong type.
* A nullable SQL column is an `Option`; `none` is SQL NULL.
* A C `int` is an `Int` reduced by `toInt32` wherever the source converts a 64-bit value
  to `int` or computes in `int`.
* A C string is a `String`, one `Char` per byte of the C string.
* A `double` is a `Rat`; the program only stores and reloads such values.
* Library routines whose code is not part of the program (`json_dumps`, `json_loads`,
  the `LIKE` operator of the store) are fields of a parameter `Lib`.
* Statements are assumed to prepare and to step without an input/output failure; the
  constraint failures of the schema (unique keys) are modelled.
* Where the source sets one key of one object in both branches of a conditional, the
  embedding sets the key once, to the value the conditional selects.
* A loop that appends one element per result row is a `List.map` over the rows.
* A text bound to a statement is taken to be intact when the statement is stepped; rows
  that tie under an `ORDER BY` are listed in the order the stable sort of the embedding
  gives them, the source leaving that order to the store.
* A statement text is a `String`; `strcat` appends to it and `snprintf` into a buffer of
  `size` bytes keeps the first `size - 1` bytes of the formatted text.  The bound values
  of a statement are the list of its `sqlite3_bind_*` calls in the order of the parameter
  index.
-/

namespace NRest

/-! ## JSON values and the jansson interface -/

/-- A JSON document, as a jansson `json_t` value. -/
inductive Json where
  | null
  | bool (b : Bool)
  | integer (n : Int)
  | real (r : Rat)
  | string (s : String)
  | array (xs : List Json)
  | object (kvs : List (String × Json))

/-- The library routines used by the handlers whose code is outside the program. -/
structure Lib where
  /-- The call `json_dumps(v, JSON_COMPACT)`; `none` is a NULL result. -/
  json_dumps : Json → Option String
  /-- The call `json_loads(text, 0, &error)`; `none` is a parse failure. -/
  json_loads : String → Option Json
  /-- The store operator `text LIKE pattern` on two non-NULL strings. -/
  like : String → String → Bool

/-- First value bound to `k` in a key/value list. -/
def lookupKey (k : String) : List (String × Json) → Option Json
  | [] => none
  | (k', v) :: rest => if k' = k then some v else lookupKey k rest

/-- Replace the value of `k` if the key is present, append the pair otherwise. -/
def setKey (k : String) (v : Json) : List (String × Json) → List (String × Json)
  | [] => [(k, v)]
  | (k', w) :: rest => if k' = k then (k, v) :: rest else (k', w) :: setKey k v rest

def json_is_object : Option Json → Bool
  | some (.object _) => true
  | _ => false

def json_is_array : Option Json → Bool
  | some (.array _) => true
  | _ => false

def json_is_integer : Option Json → Bool
  | some (.integer _) => true
  | _ => false

def json_is_null : Option Json → Bool
  | some .null => true
  | _ => false

def json_is_true : Option Json → Bool
  | some (.bool true) => true
  | _ => false

/-- The call `json_object_get(obj, key)`: NULL unless `obj` is an object holding `key`. -/
def json_object_get (obj : Option Json) (key : String) : Option Json :=
  match obj with
  | some (.object kvs) => lookupKey key kvs
  | _ => none

/-- The call `json_string_value(j)`: NULL unless `j` is a string. -/
def json_string_value : Option Json → Option String
  | some (.string s) => some s
  | _ => none

/-- The call `json_integer_value(j)`: 0 unless `j` is an integer (a 64-bit `json_int_t`). -/
def json_integer_value : Option Json → Int
  | some (.integer n) => n
  | _ => 0

/-- The call `json_real_value(j)`: 0.0 unless `j` is a real. -/
def json_real_value : Option Json → Rat
  | some (.real r) => r
  | _ => 0

/-- The call `json_string(s)`: NULL when `s` is NULL. -/
def json_string : Option String → Option Json
  | some s => some (.string s)
  | none => none

def json_integer (n : Int) : Option Json := some (.integer n)

def json_real (r : Rat) : Option Json := some (.real r)

/-- The call `json_boolean(n)`: true when `n` is non-zero. -/
def json_boolean (n : Int) : Option Json := some (.bool (n != 0))

def json_null : Option Json := some .null

def json_array : Json := .array []

def json_object : Json := .object []

/-- The call `json_object_set_new(obj, key, value)`: it fails and leaves `obj` as it is
when `value` is NULL. -/
def json_object_set_new (obj : Json) (key : String) (value : Option Json) : Json :=
  match obj, value with
  | .object kvs, some v => .object (setKey key v kvs)
  | o, _ => o

/-- The call `json_array_append_new(arr, value)`. -/
def json_array_append_new (arr : Json) (value : Option Json) : Json :=
  match arr, value with
  | .array xs, some v => .array (xs ++ [v])
  | a, _ => a

/-! ## C integers and `atoi` -/

/-- Conversion of a 64-bit value to a C `int` (two's complement reduction). -/
def toInt32 (x : Int) : Int := (x + 2147483648) % 4294967296 - 2147483648

/-- Saturation of `strtol` to the range of a 64-bit `long`. -/
def clampLong (x : Int) : Int :=
  if x < -9223372036854775808 then -9223372036854775808
  else if x > 9223372036854775807 then 9223372036854775807
  else x

def isspace (c : Char) : Bool :=
  c = ' ' || c = '\t' || c = '\n' || c = '\x0b' || c = '\x0c' || c = '\r'

/-- Value of the leading run of decimal digits, starting from the accumulator `acc`. -/
def digitsValue : List Char → Nat → Nat
  | [], acc => acc
  | c :: cs, acc => if c.isDigit then digitsValue cs (10 * acc + (c.toNat - 48)) else acc

/-- The call `strtol(s, NULL, 10)`. -/
def strtol (s : List Char) : Int :=
  match s.dropWhile isspace with
  | '-' :: cs => clampLong (-(digitsValue cs 0 : Int))
  | '+' :: cs => clampLong (digitsValue cs 0)
  | cs => clampLong (digitsValue cs 0)

/-- The call `atoi(s)`, which is `(int) strtol(s, NULL, 10)`. -/
def atoi (s : String) : Int := toInt32 (strtol s.data)

/-! ## Requests and responses -/

/-- The parts of a ulfius request the handlers read: the URL parameters (`map_url`)
and the decoded JSON body (`none` when `ulfius_get_json_body_request` returns NULL). -/
structure Request where
  map_url : List (String × String)
  json_body : Option Json

/-- The call `u_map_get(map, key)`; `none` is NULL. -/
def u_map_get : List (String × String) → String → Option String
  | [], _ => none
  | (k, v) :: rest, key => if k = key then some v else u_map_get rest key

/-- Body of a response: a JSON document or a plain string. -/
inductive Body where
  | json (j : Json)
  | text (s : String)

structure Response where
  status : Nat
  body : Body

def ulfius_set_json_body_response (status : Nat) (j : Json) : Response := ⟨status, .json j⟩

def ulfius_set_string_body_response (status : Nat) (s : String) : Response := ⟨status, .text s⟩

/-- Utility function of the source: parse an integer parameter with a default. -/
def get_int_param (request : Request) (param_name : String) (default_value : Int) : Int :=
  match u_map_get request.map_url param_name with
  | some param_str =>
    if param_str.length > 0 then
      let value := atoi param_str
      if value > 0 then value else default_value
    else default_value
  | none => default_value

/-! ## The store

Modelled from the spec: the table declarations are not part of the source files.  The spec
gives every entity an autoincrement integer primary key `id`, a unique `username` for
users, a unique `name` for categories, and join relations without duplicate rows.  The
columns are those named by the statements of the source. -/

structure User where
  id : Int
  name : Option String
  username : Option String
  bio : Option String
  verified : Option Int
  links : Option String
  avatar : Option String
deriving DecidableEq

structure Category where
  id : Int
  name : Option String
  icon : Option String
  parent_id : Option Int
deriving DecidableEq

structure Template where
  id : Int
  name : Option String
  description : Option String
  created_at : Option String
  total_views : Option Int
  recent_views : Option Int
  price : Option Rat
  purchase_url : Option String
  user_id : Option Int
  last_updated_by : Option Int
  workflow_data : Option String
  workflow_info : Option String
  nodes_data : Option String
  image_data : Option String
deriving DecidableEq

structure Collection where
  id : Int
  rank : Option Int
  name : Option String
  description : Option String
  total_views : Option Int
  created_at : Option String
deriving DecidableEq

/-- The relational store: four tables and three join relations.  A join row is the pair
of its two columns in the order of the statements: `(template_id, category_id)`,
`(collection_id, category_id)`, `(collection_id, template_id)`. -/
structure Db where
  users : List User
  categories : List Category
  templates : List Template
  collections : List Collection
  template_categories : List (Int × Int)
  collection_categories : List (Int × Int)
  collection_workflows : List (Int × Int)

/-- Modelled from the spec: the identifier the store assigns to a row inserted without
one, one more than the largest identifier in use. -/
def nextRowid (ids : List Int) : Int := ids.foldr max 0 + 1

/-- The call `sqlite3_column_int` on a nullable integer column: 0 for NULL, otherwise the
low 32 bits. -/
def sqlite3_column_int (v : Option Int) : Int :=
  match v with
  | some n => toInt32 n
  | none => 0

/-- The operator `LIKE` with a possibly NULL left operand; NULL is not a match. -/
def likeOpt (E : Lib) (text : Option String) (pattern : String) : Bool :=
  match text with
  | some s => E.like s pattern
  | none => false

/-- Clauses `LIMIT ? OFFSET ?`: a negative offset counts as zero and a negative limit as
no limit. -/
def limitOffset {α : Type} (limit offset : Int) (rows : List α) : List α :=
  let rest := rows.drop offset.toNat
  if limit < 0 then rest else rest.take limit.toNat

/-- Statement `SELECT id FROM users WHERE username = ?;`, first row. -/
def select_user_id (db : Db) (username : String) : Option Int :=
  (db.users.find? (fun u => u.username = some username)).map (fun u => u.id)

/-- Statement `INSERT INTO users (name, username, bio, verified, links, avatar) VALUES
(?, ?, ?, ?, ?, ?);`.  The result is the new store and the row identifier, or `none`
when the unique key on `username` rejects the row. -/
def insert_user (db : Db) (name username bio : String) (verified : Int)
    (links avatar : String) : Option (Db × Int) :=
  if db.users.any (fun u => u.username = some username) then none
  else
    let id := nextRowid (db.users.map (fun u => u.id))
    some ({ db with users := db.users ++
      [⟨id, some name, some username, some bio, some verified, some links, some avatar⟩] }, id)

/-- Statement `SELECT id FROM categories WHERE name = ?;`, first row. -/
def select_category_id (db : Db) (name : String) : Option Int :=
  (db.categories.find? (fun c => c.name = some name)).map (fun c => c.id)

/-- Statement `INSERT INTO categories (name, icon, parent_id) VALUES (?, ?, ?);`.  The
result is `none` when the unique key on `name` rejects the row. -/
def insert_category (db : Db) (name icon : String) (parent_id : Option Int) :
    Option (Db × Int) :=
  if db.categories.any (fun c => c.name = some name) then none
  else
    let id := nextRowid (db.categories.map (fun c => c.id))
    some ({ db with categories := db.categories ++ [⟨id, some name, some icon, parent_id⟩] }, id)

/-- Statement `INSERT OR REPLACE INTO templates (id, ...) VALUES (?, ...);` with an
integer bound to `id`: the row holding that identifier, if any, is deleted and the new
row is stored under the bound identifier, which is also the last inserted row
identifier.  The store assigns an identifier itself only to a NULL `id`, which this
statement never binds. -/
def insert_or_replace_template (db : Db) (row : Template) : Db × Int :=
  ({ db with templates := db.templates.filter (fun t => t.id ≠ row.id) ++ [row] }, row.id)

/-- Statement `INSERT OR IGNORE INTO template_categories (template_id, category_id)
VALUES (?, ?);`. -/
def insert_or_ignore_template_category (db : Db) (template_id category_id : Int) : Db :=
  if (template_id, category_id) ∈ db.template_categories then db
  else { db with template_categories := db.template_categories ++ [(template_id, category_id)] }

/-- Statement `INSERT INTO collections (rank, name, total_views, created_at) VALUES
(?, ?, ?, ?);`. -/
def insert_collection (db : Db) (rank : Int) (name : String) (total_views : Option Int)
    (created_at : String) : Db × Int :=
  let id := nextRowid (db.collections.map (fun c => c.id))
  ({ db with collections := db.collections ++
    [⟨id, some rank, some name, none, total_views, some created_at⟩] }, id)

/-- Statement `INSERT OR IGNORE INTO collection_workflows (collection_id, template_id)
VALUES (?, ?);`, with the number of rows changed. -/
def insert_or_ignore_collection_workflow (db : Db) (collection_id template_id : Int) :
    Db × Int :=
  if (collection_id, template_id) ∈ db.collection_workflows then (db, 0)
  else ({ db with collection_workflows :=
    db.collection_workflows ++ [(collection_id, template_id)] }, 1)

/-! ## Entity resolution -/

/-- Get or create user if user does not exist (`get_or_create_user`).  The store handle
is never NULL in this program. -/
def get_or_create_user (E : Lib) (db : Db) (user_json : Option Json) : Db × Int :=
  if !json_is_object user_json then (db, 0)
  else
    let username := "Default API User"
    let user_id : Int := 1
    match select_user_id db username with
    | some id => (db, toInt32 id)
    | none =>
      let user_name := json_string_value (json_object_get user_json "name")
      let user_bio := json_string_value (json_object_get user_json "bio")
      let verified_json := json_object_get user_json "verified"
      let links_json := json_object_get user_json "links"
      let avatar := json_string_value (json_object_get user_json "avatar")
      let links_str : Option String :=
        match links_json with
        | some l => E.json_dumps l
        | none => none
      match insert_user db (user_name.getD username) username (user_bio.getD "")
          (if json_is_true verified_json then 1 else 0) (links_str.getD "[]")
          (avatar.getD "") with
      | some (db1, rowid) => (db1, toInt32 rowid)
      | none => (db, user_id)

mutual
/-- Body of `get_or_create_category` on a non-NULL document. -/
def get_or_create_category_json : Json → Db → Db × Int
  | .object kvs, db =>
    match json_string_value (lookupKey "name" kvs) with
    | none => (db, 0)
    | some name =>
      if name.length = 0 then (db, 0)
      else
        let category_id : Int :=
          match select_category_id db name with
          | some id => toInt32 id
          | none => 0
        if category_id > 0 then (db, category_id)
        else
          let r := resolve_parent kvs db
          let db1 := r.1
          let parent_id := r.2
          let icon := json_string_value (lookupKey "icon" kvs)
          match insert_category db1 name (icon.getD "ðŸ·ï¸")
              (if parent_id > 0 then some parent_id else none) with
          | some (db2, rowid) => (db2, toInt32 rowid)
          | none =>
            match select_category_id db1 name with
            | some id => (db1, toInt32 id)
            | none => (db1, category_id)
  | _, db => (db, 0)
/-- The lines `parent_json = json_object_get(category_json, "parent")` and, when that
value is an object, `parent_id = get_or_create_category(parent_json)`; 0 otherwise. -/
def resolve_parent : List (String × Json) → Db → Db × Int
  | [], db => (db, 0)
  | (k, v) :: rest, db =>
    if k = "parent" then
      (match v with
       | .object _ => get_or_create_category_json v db
       | _ => (db, 0))
    else resolve_parent rest db
end

/-- Get or create category (`get_or_create_category`). -/
def get_or_create_category (db : Db) (category_json : Option Json) : Db × Int :=
  match category_json with
  | some j => get_or_create_category_json j db
  | none => (db, 0)

/-- Rows of `SELECT c.id, c.name FROM categories c JOIN template_categories tc ON c.id =
tc.category_id WHERE tc.template_id = ?;`. -/
def select_template_categories (db : Db) (template_id : Int) : List Category :=
  db.categories.flatMap (fun c =>
    (db.template_categories.filter (fun tc => tc.2 = c.id ∧ tc.1 = template_id)).map
      (fun _ => c))

/-- Rows of `SELECT c.id, c.name FROM categories c JOIN collection_categories cc ON c.id =
cc.category_id WHERE cc.collection_id = ?;`. -/
def select_collection_categories (db : Db) (collection_id : Int) : List Category :=
  db.categories.flatMap (fun c =>
    (db.collection_categories.filter (fun cc => cc.2 = c.id ∧ cc.1 = collection_id)).map
      (fun _ => c))

/-- The object built for one row by the two category helpers. -/
def category_ref (c : Category) : Json :=
  let category_obj := json_object
  let category_obj := json_object_set_new category_obj "id" (json_integer (toInt32 c.id))
  let category_obj := json_object_set_new category_obj "name" (json_string c.name)
  category_obj

/-- Get categories for a template (`get_template_categories`). -/
def get_template_categories (db : Db) (template_id : Int) : Json :=
  .array ((select_template_categories db template_id).map category_ref)

/-- Get categories for a collection (`get_collection_categories`). -/
def get_collection_categories (db : Db) (collection_id : Int) : Json :=
  .array ((select_collection_categories db collection_id).map category_ref)

/-! ## GET /templates/collections -/

/-- The loop over `category[0]` .. `category[49]`: the identifiers of the parameters that
are present, in index order. -/
def collection_category_ids (request : Request) : List Int :=
  (List.range 50).filterMap (fun i =>
    (u_map_get request.map_url ("category[" ++ toString i ++ "]")).map atoi)

/-- The search pattern `snprintf(search_pattern, 256, "%%%s%%", search)`, bound only for
a non-empty search term. -/
def search_pattern (search_query : Option String) : Option String :=
  match search_query with
  | some q =>
    if q.length > 0 then some (String.mk (("%" ++ q ++ "%").data.take 255)) else none
  | none => none

/-- Strict order of two nullable values in an ascending `ORDER BY`: NULL sorts first. -/
def nullsFirstLt {α : Type} (lt : α → α → Bool) : Option α → Option α → Bool
  | none, some _ => true
  | some a, some b => lt a b
  | _, _ => false

/-- Order of `ORDER BY c.rank, c.name`. -/
def collection_order (a b : Collection) : Bool :=
  nullsFirstLt (fun x y : Int => decide (x < y)) a.rank b.rank ||
    (a.rank == b.rank && !nullsFirstLt (fun x y : String => decide (x < y)) b.name a.name)

/-- Rows of the statement assembled by `callback_get_collections`: `SELECT DISTINCT c.id,
c.rank, c.name, c.description, c.total_views, c.created_at FROM collections c`, then
` JOIN collection_categories cc ON c.id = cc.collection_id WHERE cc.category_id IN (?,..)`
when categories are given, then `c.name LIKE ?` when a search is given, then
` ORDER BY c.rank, c.name;`. -/
def select_collections (E : Lib) (db : Db) (category_ids : List Int)
    (pattern : Option String) : List Collection :=
  let joined : List Collection :=
    if category_ids.length > 0 then
      db.collections.flatMap (fun c =>
        (db.collection_categories.filter
          (fun cc => c.id = cc.1 ∧ cc.2 ∈ category_ids)).map (fun _ => c))
    else db.collections
  let rows := joined.filter (fun c =>
    match pattern with
    | some p => likeOpt E c.name p
    | none => true)
  rows.dedup.insertionSort (fun a b => collection_order a b = true)

/-- Rows of `SELECT template_id FROM collection_workflows WHERE collection_id = ? ORDER BY
template_id;`. -/
def select_collection_workflow_ids (db : Db) (collection_id : Int) : List Int :=
  ((db.collection_workflows.filter (fun cw => cw.1 = collection_id)).map
    (fun cw => cw.2)).insertionSort (fun a b => a ≤ b)

/-- The object built for one row of the collection list. -/
def collection_list_entry (db : Db) (c : Collection) : Json :=
  let collection_id := toInt32 c.id
  let collection_obj := json_object
  let collection_obj := json_object_set_new collection_obj "id" (json_integer collection_id)
  let collection_obj :=
    json_object_set_new collection_obj "rank" (json_integer (sqlite3_column_int c.rank))
  let collection_obj := json_object_set_new collection_obj "name" (json_string c.name)
  let collection_obj :=
    json_object_set_new collection_obj "totalViews"
      (if c.total_views.isSome then json_integer (sqlite3_column_int c.total_views)
       else json_null)
  let collection_obj :=
    json_object_set_new collection_obj "createdAt" (json_string c.created_at)
  let workflows_array : Json :=
    .array ((select_collection_workflow_ids db collection_id).map (fun template_id =>
      json_object_set_new json_object "id" (json_integer (toInt32 template_id))))
  let collection_obj := json_object_set_new collection_obj "workflows" (some workflows_array)
  let collection_obj := json_object_set_new collection_obj "nodes" (some json_array)
  collection_obj

/-- Handler of `GET /templates/collections` (`callback_get_collections`). -/
def callback_get_collections (E : Lib) (db : Db) (request : Request) : Response :=
  let search_query := u_map_get request.map_url "search"
  let category_ids := collection_category_ids request
  let rows := select_collections E db category_ids (search_pattern search_query)
  let collections_array : Json := .array (rows.map (collection_list_entry db))
  let response_json := json_object_set_new json_object "collections" (some collections_array)
  ulfius_set_json_body_response 200 response_json

/-! ## GET /templates/collections/:id -/

/-- Statement `SELECT id, name, description, total_views, created_at, rank FROM
collections WHERE id = ?;`, first row. -/
def select_collection (db : Db) (collection_id : Int) : Option Collection :=
  db.collections.find? (fun c => c.id = collection_id)

/-- Rows of the member statement of `callback_get_collection_by_id`: `FROM templates t
JOIN collection_workflows cw ON t.id = cw.template_id JOIN users u ON t.user_id = u.id
WHERE cw.collection_id = ? ORDER BY t.id;`. -/
def select_collection_members (db : Db) (collection_id : Int) : List (Template × User) :=
  (db.templates.flatMap (fun t =>
    (db.collection_workflows.filter
      (fun cw => t.id = cw.2 ∧ cw.1 = collection_id)).flatMap (fun _ =>
        (db.users.filter (fun u => t.user_id = some u.id)).map (fun u => (t, u))))).insertionSort
    (fun a b => a.1.id ≤ b.1.id)

/-- The object built for one member row by `callback_get_collection_by_id`. -/
def collection_member_entry (E : Lib) (db : Db) (t : Template) (u : User) : Json :=
  let workflow_obj := json_object
  let template_id := toInt32 t.id
  let workflow_obj := json_object_set_new workflow_obj "id" (json_integer template_id)
  let workflow_obj := json_object_set_new workflow_obj "name" (json_string t.name)
  let views := sqlite3_column_int t.total_views
  let workflow_obj := json_object_set_new workflow_obj "views" (json_integer views)
  let workflow_obj :=
    json_object_set_new workflow_obj "recentViews"
      (json_integer (sqlite3_column_int t.recent_views))
  let workflow_obj := json_object_set_new workflow_obj "totalViews" (json_integer views)
  let workflow_obj := json_object_set_new workflow_obj "createdAt" (json_string t.created_at)
  let workflow_obj :=
    json_object_set_new workflow_obj "description" (json_string t.description)
  let workflow_obj :=
    json_object_set_new workflow_obj "workflow"
      (match t.workflow_data with
       | some workflow_data_str =>
         (match E.json_loads workflow_data_str with
          | some nested_workflow => some nested_workflow
          | none => some json_object)
       | none => some json_object)
  let workflow_obj :=
    json_object_set_new workflow_obj "lastUpdatedBy"
      (if t.last_updated_by.isSome then json_integer (sqlite3_column_int t.last_updated_by)
       else json_integer (toInt32 u.id))
  let workflow_obj :=
    json_object_set_new workflow_obj "workflowInfo"
      (match t.workflow_info with
       | some workflow_info_str =>
         (match E.json_loads workflow_info_str with
          | some workflow_info => some workflow_info
          | none => some json_object)
       | none => some json_object)
  let user_obj := json_object
  let user_obj := json_object_set_new user_obj "name" (json_string u.name)
  let user_obj := json_object_set_new user_obj "username" (json_string u.username)
  let user_obj :=
    json_object_set_new user_obj "bio" (if u.bio.isSome then json_string u.bio else json_null)
  let user_obj :=
    json_object_set_new user_obj "verified" (json_boolean (sqlite3_column_int u.verified))
  let user_obj :=
    json_object_set_new user_obj "links"
      (match u.links with
       | some links_str =>
         (match E.json_loads links_str with
          | some links_json => some links_json
          | none => some json_array)
       | none => some json_array)
  let user_obj := json_object_set_new user_obj "avatar" (json_string u.avatar)
  let workflow_obj := json_object_set_new workflow_obj "user" (some user_obj)
  let workflow_obj :=
    json_object_set_new workflow_obj "nodes"
      (match t.nodes_data with
       | some nodes_str =>
         (match E.json_loads nodes_str with
          | some nodes_json => some nodes_json
          | none => some json_array)
       | none => some json_array)
  let workflow_obj :=
    json_object_set_new workflow_obj "categories"
      (some (get_template_categories db template_id))
  let workflow_obj :=
    json_object_set_new workflow_obj "image"
      (match t.image_data with
       | some image_str =>
         (match E.json_loads image_str with
          | some image_json => some image_json
          | none => some json_array)
       | none => some json_array)
  workflow_obj

/-- Handler of `GET /templates/collections/:id` (`callback_get_collection_by_id`). -/
def callback_get_collection_by_id (E : Lib) (db : Db) (request : Request) : Response :=
  match u_map_get request.map_url "id" with
  | none => ulfius_set_string_body_response 400 "Missing collection ID"
  | some id_str =>
    let collection_id := atoi id_str
    match select_collection db collection_id with
    | some c =>
      let root_obj := json_object
      let collection_obj := json_object
      let collection_obj :=
        json_object_set_new collection_obj "id" (json_integer (toInt32 c.id))
      let collection_obj := json_object_set_new collection_obj "name" (json_string c.name)
      let collection_obj :=
        json_object_set_new collection_obj "description"
          (if c.description.isSome then json_string c.description else json_string (some ""))
      let collection_obj :=
        json_object_set_new collection_obj "totalViews"
          (if c.total_views.isSome then json_integer (sqlite3_column_int c.total_views)
           else json_integer 0)
      let collection_obj :=
        json_object_set_new collection_obj "createdAt" (json_string c.created_at)
      let workflows_array : Json :=
        .array ((select_collection_members db collection_id).map
          (fun row => collection_member_entry E db row.1 row.2))
      let collection_obj :=
        json_object_set_new collection_obj "workflows" (some workflows_array)
      let collection_obj := json_object_set_new collection_obj "nodes" (some json_array)
      let collection_obj :=
        json_object_set_new collection_obj "categories"
          (some (get_collection_categories db collection_id))
      let collection_obj := json_object_set_new collection_obj "image" (some json_array)
      let root_obj := json_object_set_new root_obj "collection" (some collection_obj)
      ulfius_set_json_body_response 200 root_obj
    | none => ulfius_set_string_body_response 404 "Collection not found"

/-! ## GET /templates/search -/

/-- The successive tokens returned by `strtok(buffer, ",")`: the maximal runs of
characters other than the comma.  The second argument holds the characters of the current
token, last character first. -/
def strtok_comma : List Char → List Char → List (List Char)
  | [], cur => if cur.isEmpty then [] else [cur.reverse]
  | c :: cs, cur =>
    if c = ',' then
      (if cur.isEmpty then strtok_comma cs [] else cur.reverse :: strtok_comma cs [])
    else strtok_comma cs (c :: cur)

/-- The trimming loops applied to one token: leading spaces are skipped, then trailing
spaces are cut, the scan from the end stopping at the first character of the token. -/
def trim_token (token : List Char) : List Char :=
  match token.dropWhile (fun c => c = ' ') with
  | [] => []
  | c :: rest => c :: (rest.reverse.dropWhile (fun c => c = ' ')).reverse

/-- The array `categories` filled by `callback_search_templates` from the `category`
parameter: the parameter is copied into a buffer of 512 bytes, split at commas, and at
most 50 tokens are kept. -/
def parse_categories (category_str : Option String) : List String :=
  match category_str with
  | some s =>
    if s.length > 0 then
      ((strtok_comma (s.data.take 511) []).take 50).map (fun token => String.mk (trim_token token))
    else []
  | none => []

/-- Rows of the category joins for one template: ` JOIN template_categories tc ON t.id =
tc.template_id JOIN categories c ON tc.category_id = c.id` when categories are given, a
single row without category otherwise. -/
def template_category_rows (db : Db) (categories : List String) (t : Template) :
    List (Option Category) :=
  if categories.length > 0 then
    (db.template_categories.filter (fun tc => t.id = tc.1)).flatMap (fun tc =>
      (db.categories.filter (fun c => tc.2 = c.id)).map (fun c => some c))
  else [none]

/-- The where clause of `callback_search_templates`: `(c.name = ? OR ...)` over the bound
category names when categories are given, and `(t.name LIKE ? OR t.description LIKE ?)`
when a search is given, joined by ` AND `. -/
def search_where (E : Lib) (categories : List String) (pattern : Option String)
    (t : Template) (c : Option Category) : Bool :=
  (match c with
   | some c =>
     (match c.name with
      | some n => categories.contains n
      | none => false)
   | none => true) &&
  (match pattern with
   | some p => likeOpt E t.name p || likeOpt E t.description p
   | none => true)

/-- Value of the count statement `SELECT COUNT(DISTINCT t.id) FROM templates t` followed
by the join and where clauses. -/
def search_count (E : Lib) (db : Db) (categories : List String) (pattern : Option String) :
    Int :=
  (((db.templates.flatMap (fun t =>
    ((template_category_rows db categories t).filter
      (fun c => search_where E categories pattern t c)).map (fun _ => t.id))).dedup).length : Nat)

/-- Columns selected by the main statement of `callback_search_templates`, in order. -/
structure SearchRow where
  t_id : Int
  t_name : Option String
  t_total_views : Option Int
  t_purchase_url : Option String
  u_id : Int
  u_name : Option String
  u_username : Option String
  u_bio : Option String
  u_verified : Option Int
  u_links : Option String
  u_avatar : Option String
  t_description : Option String
  t_created_at : Option String
  t_nodes_data : Option String
  t_price : Option Rat
deriving DecidableEq

/-- The select list of the main statement on a joined row. -/
def search_row (t : Template) (u : User) : SearchRow :=
  ⟨t.id, t.name, t.total_views, t.purchase_url, u.id, u.name, u.username, u.bio, u.verified,
    u.links, u.avatar, t.description, t.created_at, t.nodes_data, t.price⟩

/-- Rows of the main statement: `SELECT DISTINCT ... FROM templates t JOIN users u ON
t.user_id = u.id`, the join and where clauses, then ` ORDER BY t.id DESC LIMIT ? OFFSET ?;`. -/
def search_main (E : Lib) (db : Db) (categories : List String) (pattern : Option String)
    (limit offset : Int) : List SearchRow :=
  let rows : List SearchRow :=
    db.templates.flatMap (fun t =>
      (db.users.filter (fun u => t.user_id = some u.id)).flatMap (fun u =>
        ((template_category_rows db categories t).filter
          (fun c => search_where E categories pattern t c)).map (fun _ => search_row t u)))
  limitOffset limit offset (rows.dedup.insertionSort (fun a b => a.t_id ≥ b.t_id))

/-- The object built for one row of the search result. -/
def search_entry (E : Lib) (r : SearchRow) : Json :=
  let workflow_obj := json_object
  let workflow_obj := json_object_set_new workflow_obj "id" (json_integer (toInt32 r.t_id))
  let workflow_obj := json_object_set_new workflow_obj "name" (json_string r.t_name)
  let workflow_obj :=
    json_object_set_new workflow_obj "totalViews"
      (json_integer (sqlite3_column_int r.t_total_views))
  let workflow_obj :=
    json_object_set_new workflow_obj "purchaseUrl"
      (if r.t_purchase_url.isSome then json_string r.t_purchase_url else json_null)
  let user_obj := json_object
  let user_obj := json_object_set_new user_obj "id" (json_integer (toInt32 r.u_id))
  let user_obj := json_object_set_new user_obj "name" (json_string r.u_name)
  let user_obj := json_object_set_new user_obj "username" (json_string r.u_username)
  let user_obj := json_object_set_new user_obj "bio" (json_string r.u_bio)
  let user_obj :=
    json_object_set_new user_obj "verified" (json_boolean (sqlite3_column_int r.u_verified))
  let links_json := E.json_loads (r.u_links.getD "[]")
  let user_obj :=
    json_object_set_new user_obj "links"
      (match links_json with
       | some l => some l
       | none => some json_array)
  let user_obj := json_object_set_new user_obj "avatar" (json_string r.u_avatar)
  let workflow_obj := json_object_set_new workflow_obj "user" (some user_obj)
  let workflow_obj :=
    json_object_set_new workflow_obj "description" (json_string r.t_description)
  let workflow_obj := json_object_set_new workflow_obj "createdAt" (json_string r.t_created_at)
  let nodes_json := E.json_loads (r.t_nodes_data.getD "[]")
  let workflow_obj :=
    json_object_set_new workflow_obj "nodes"
      (match nodes_json with
       | some n => some n
       | none => some json_array)
  let workflow_obj :=
    json_object_set_new workflow_obj "price"
      (if r.t_price.isSome then json_real (r.t_price.getD 0) else json_integer 0)
  workflow_obj

/-- The variable `limit` of `callback_search_templates`: the `limit` parameter with the
default page size 20, capped at the maximal page size 100. -/
def search_limit (request : Request) : Int :=
  let default_page_size : Int := 20
  let max_page_size : Int := 100
  let limit := get_int_param request "limit" default_page_size
  if limit > max_page_size then max_page_size else limit

/-- The variable `offset` of `callback_search_templates`: `(page - 1) * limit`, computed
in `int`. -/
def search_offset (request : Request) : Int :=
  let page := get_int_param request "page" 1
  toInt32 ((page - 1) * search_limit request)

/-- Handler of `GET /templates/search` (`callback_search_templates`). -/
def callback_search_templates (E : Lib) (db : Db) (request : Request) : Response :=
  let search_query_str := u_map_get request.map_url "search"
  let category_str := u_map_get request.map_url "category"
  let limit := search_limit request
  let offset := search_offset request
  let categories := parse_categories category_str
  let pattern := search_pattern search_query_str
  let total_workflows := toInt32 (search_count E db categories pattern)
  let response_json := json_object
  let response_json :=
    json_object_set_new response_json "totalWorkflows" (json_integer total_workflows)
  let workflows_array : Json :=
    .array ((search_main E db categories pattern limit offset).map (search_entry E))
  let response_json := json_object_set_new response_json "workflows" (some workflows_array)
  ulfius_set_json_body_response 200 response_json

/-! ## GET /templates/workflows/:id -/

/-- Statement of `callback_get_workflow_by_id`: `FROM templates t JOIN users u ON
t.user_id = u.id WHERE t.id = ?;`, first row. -/
def select_template (db : Db) (template_id : Int) : Option (Template × User) :=
  (db.templates.flatMap (fun t =>
    (db.users.filter (fun u => t.user_id = some u.id)).map (fun u => (t, u)))).find?
    (fun row => row.1.id = template_id)

/-- The document built by `callback_get_workflow_by_id` for the row it found. -/
def workflow_detail (E : Lib) (db : Db) (template_id : Int) (t : Template) (u : User) :
    Json :=
  let root_obj := json_object
  let workflow_obj := json_object
  let views := sqlite3_column_int t.total_views
  let workflow_obj := json_object_set_new workflow_obj "id" (json_integer (toInt32 t.id))
  let workflow_obj := json_object_set_new workflow_obj "name" (json_string t.name)
  let workflow_obj := json_object_set_new workflow_obj "views" (json_integer views)
  let workflow_obj :=
    json_object_set_new workflow_obj "recentViews"
      (json_integer (sqlite3_column_int t.recent_views))
  let workflow_obj := json_object_set_new workflow_obj "totalViews" (json_integer views)
  let workflow_obj := json_object_set_new workflow_obj "createdAt" (json_string t.created_at)
  let workflow_obj :=
    json_object_set_new workflow_obj "description" (json_string t.description)
  let workflow_obj :=
    json_object_set_new workflow_obj "price"
      (if t.price.isNone then json_null else json_real (t.price.getD 0))
  let workflow_obj :=
    json_object_set_new workflow_obj "purchaseUrl"
      (if t.purchase_url.isNone then json_null else json_string t.purchase_url)
  let workflow_obj :=
    json_object_set_new workflow_obj "workflow"
      (match t.workflow_data with
       | some workflow_data_str =>
         (match E.json_loads workflow_data_str with
          | some nested_workflow_json => some nested_workflow_json
          | none => some json_object)
       | none => some json_object)
  let root_obj := json_object_set_new root_obj "workflow" (some workflow_obj)
  let root_obj :=
    json_object_set_new root_obj "lastUpdatedBy"
      (if t.last_updated_by.isSome then json_integer (sqlite3_column_int t.last_updated_by)
       else json_integer (toInt32 u.id))
  let user_obj := json_object
  let user_obj := json_object_set_new user_obj "name" (json_string u.name)
  let user_obj := json_object_set_new user_obj "username" (json_string u.username)
  let user_obj := json_object_set_new user_obj "bio" (json_string u.bio)
  let user_obj :=
    json_object_set_new user_obj "verified" (json_boolean (sqlite3_column_int u.verified))
  let user_obj := json_object_set_new user_obj "avatar" (json_string u.avatar)
  let user_obj :=
    json_object_set_new user_obj "links"
      (match u.links with
       | some links_str =>
         (match E.json_loads links_str with
          | some links_json => some links_json
          | none => some json_array)
       | none => some json_array)
  let root_obj := json_object_set_new root_obj "user" (some user_obj)
  let root_obj :=
    json_object_set_new root_obj "categories" (some (get_template_categories db template_id))
  let root_obj :=
    json_object_set_new root_obj "workflowInfo"
      (match t.workflow_info with
       | some workflow_info_str =>
         (match E.json_loads workflow_info_str with
          | some workflow_info_json => some workflow_info_json
          | none => some json_object)
       | none => some json_object)
  let root_obj :=
    json_object_set_new root_obj "nodes"
      (match t.nodes_data with
       | some nodes_data_str =>
         let nodes_json := E.json_loads nodes_data_str
         if nodes_json.isSome && json_is_array nodes_json then nodes_json else some json_array
       | none => some json_array)
  let root_obj :=
    json_object_set_new root_obj "image"
      (match t.image_data with
       | some image_data_str =>
         let image_json := E.json_loads image_data_str
         if image_json.isSome && json_is_array image_json then image_json else some json_array
       | none => some json_array)
  root_obj

/-- Handler of `GET /templates/workflows/:id` (`callback_get_workflow_by_id`). -/
def callback_get_workflow_by_id (E : Lib) (db : Db) (request : Request) : Response :=
  match u_map_get request.map_url "id" with
  | none => ulfius_set_string_body_response 400 "Missing workflow ID"
  | some id_str =>
    let template_id := atoi id_str
    match select_template db template_id with
    | some (t, u) => ulfius_set_json_body_response 200 (workflow_detail E db template_id t u)
    | none => ulfius_set_string_body_response 404 "Workflow not found"

/-! ## PUT /templates/workflows -/

/-- The loop `json_array_foreach(categories_json, index, category_json_obj)` of
`callback_create_workflow`: each entry is resolved and, when the identifier is positive,
linked to the template. -/
def link_categories (template_id : Int) : List Json → Db → Db
  | [], db => db
  | category_json_obj :: rest, db =>
    let r := get_or_create_category db (some category_json_obj)
    let db1 := r.1
    let category_id := r.2
    let db2 :=
      if category_id > 0 then insert_or_ignore_template_category db1 template_id category_id
      else db1
    link_categories template_id rest db2

/-- The values `callback_create_workflow` binds to the fourteen parameters of its insert
statement, in the order of the column list: the identifier (0 when the document gives
none or a non-positive one), the three required strings, the two view counters, the
optional price and purchase URL, the user twice (owner and last updater), and the four
serialised payloads. -/
def template_bindings (E : Lib) (workflow_json : Option Json)
    (name description created_at : String) (nested_workflow : Json) (user_id : Int) :
    Template :=
  let workflow_info_json := json_object_get workflow_json "workflowInfo"
  let nodes_json := json_object_get workflow_json "nodes"
  let image_json := json_object_get workflow_json "image"
  let total_views := toInt32 (json_integer_value (json_object_get workflow_json "totalViews"))
  let recent_views := toInt32 (json_integer_value (json_object_get workflow_json "recentViews"))
  let price_json := json_object_get workflow_json "price"
  let purchase_url_json := json_object_get workflow_json "purchaseUrl"
  let workflow_data_str := E.json_dumps nested_workflow
  let workflow_info_str := workflow_info_json.bind E.json_dumps
  let nodes_data_str := nodes_json.bind E.json_dumps
  let image_data_str := image_json.bind E.json_dumps
  let last_updated_by := user_id
  let template_id := toInt32 (json_integer_value (json_object_get workflow_json "id"))
  let template_id := if template_id ≤ 0 then 0 else template_id
  let price : Option Rat :=
    if price_json.isSome && !json_is_null price_json then some (json_real_value price_json)
    else none
  let purchase_url : Option String :=
    if purchase_url_json.isSome && !json_is_null purchase_url_json then
      json_string_value purchase_url_json
    else none
  ⟨template_id, some name, some description, some created_at, some total_views,
    some recent_views, price, purchase_url, some user_id, some last_updated_by,
    workflow_data_str, workflow_info_str, nodes_data_str, image_data_str⟩

/-- Handler of `PUT /templates/workflows` (`callback_create_workflow`). -/
def callback_create_workflow (E : Lib) (db : Db) (request : Request) : Db × Response :=
  match request.json_body with
  | none => (db, ulfius_set_string_body_response 400 "Invalid JSON")
  | some json_body =>
    let workflow_json := json_object_get (some json_body) "workflow"
    let user_json := json_object_get workflow_json "user"
    let categories_json := json_object_get workflow_json "categories"
    if !json_is_object workflow_json || !json_is_object user_json then
      (db, ulfius_set_string_body_response 400
        "Missing 'workflow' or 'user' object in request body")
    else
      let name := json_string_value (json_object_get workflow_json "name")
      let description := json_string_value (json_object_get workflow_json "description")
      let created_at := json_string_value (json_object_get workflow_json "createdAt")
      let nested_workflow := json_object_get workflow_json "workflow"
      match name, description, created_at, nested_workflow with
      | some name, some description, some created_at, some nested_workflow =>
        let r := get_or_create_user E db user_json
        let db1 := r.1
        let user_id := r.2
        if user_id = 0 then
          (db1, ulfius_set_string_body_response 400
            "Invalid or incomplete user object provided. 'username' is required.")
        else
          let row :=
            template_bindings E workflow_json name description created_at nested_workflow
              user_id
          let r := insert_or_replace_template db1 row
          let db2 := r.1
          let template_id := if row.id = 0 then toInt32 r.2 else row.id
          let db3 :=
            match categories_json with
            | some (.array entries) => link_categories template_id entries db2
            | _ => db2
          let response_json := json_object_set_new json_object "id" (json_integer template_id)
          (db3, ulfius_set_json_body_response 201 response_json)
      | _, _, _, _ =>
        (db, ulfius_set_string_body_response 400 "Missing required fields in workflow object")

/-! ## PUT /templates/collections -/

/-- The loop `json_array_foreach(workflows_json, index, workflow)` of
`callback_create_collection`: an entry whose `id`, read as a C `int`, is positive is
linked to the collection. -/
def link_workflows (collection_id : Int) : List Json → Db → Db
  | [], db => db
  | workflow :: rest, db =>
    let workflow_id := toInt32 (json_integer_value (json_object_get (some workflow) "id"))
    let db1 :=
      if workflow_id > 0 then
        (insert_or_ignore_collection_workflow db collection_id workflow_id).1
      else db
    link_workflows collection_id rest db1

/-- Handler of `PUT /templates/collections` (`callback_create_collection`). -/
def callback_create_collection (db : Db) (request : Request) : Db × Response :=
  match request.json_body with
  | none => (db, ulfius_set_string_body_response 400 "Invalid JSON")
  | some json_body =>
    let name := json_string_value (json_object_get (some json_body) "name")
    let rank_json := json_object_get (some json_body) "rank"
    let total_views_json := json_object_get (some json_body) "totalViews"
    let workflows_json := json_object_get (some json_body) "workflows"
    match name with
    | none => (db, ulfius_set_string_body_response 400 "Missing required field: name")
    | some name =>
      if name.length = 0 then
        (db, ulfius_set_string_body_response 400 "Missing required field: name")
      else
        match json_string_value (json_object_get (some json_body) "createdAt") with
        | none => (db, ulfius_set_string_body_response 400 "Missing required field: createdAt")
        | some created_at =>
          let rank : Int :=
            if rank_json.isSome && json_is_integer rank_json then
              toInt32 (json_integer_value rank_json)
            else 0
          let total_views : Option Int :=
            if total_views_json.isSome && json_is_integer total_views_json then
              some (toInt32 (json_integer_value total_views_json))
            else none
          let r := insert_collection db rank name total_views created_at
          let collection_id := toInt32 r.2
          let db2 :=
            match workflows_json with
            | some (.array entries) => link_workflows collection_id entries r.1
            | _ => r.1
          let response_json := json_object
          let response_json :=
            json_object_set_new response_json "id" (json_integer collection_id)
          let response_json := json_object_set_new response_json "name" (json_string (some name))
          let response_json :=
            json_object_set_new response_json "rank"
              (json_integer (if rank_json.isSome then json_integer_value rank_json else 0))
          let response_json :=
            json_object_set_new response_json "totalViews"
              (if total_views_json.isSome then
                json_integer (json_integer_value total_views_json)
               else json_null)
          let response_json :=
            json_object_set_new response_json "createdAt" (json_string (some created_at))
          let response_json :=
            json_object_set_new response_json "workflows"
              (if workflows_json.isSome then workflows_json else some json_array)
          let response_json := json_object_set_new response_json "nodes" (some json_array)
          let response_json :=
            json_object_set_new response_json "message"
              (json_string (some "Collection created successfully"))
          (db2, ulfius_set_json_body_response 201 response_json)

/-! ## PATCH /templates/collections -/

/-- Statement `SELECT id FROM collections WHERE id = ?;`: whether the step yields a row. -/
def collection_exists (db : Db) (collection_id : Int) : Bool :=
  db.collections.any (fun c => c.id = collection_id)

/-- Statement `SELECT id FROM templates WHERE id = ?;`: whether the step yields a row. -/
def template_exists (db : Db) (template_id : Int) : Bool :=
  db.templates.any (fun t => t.id = template_id)

/-- The reply document of `callback_add_workflow_to_collection`. -/
def link_reply (message : String) (collection_id template_id : Int) : Json :=
  let response_json := json_object
  let response_json := json_object_set_new response_json "message" (json_string (some message))
  let response_json :=
    json_object_set_new response_json "collectionId" (json_integer collection_id)
  let response_json := json_object_set_new response_json "templateId" (json_integer template_id)
  response_json

/-- Handler of `PATCH /templates/collections` (`callback_add_workflow_to_collection`). -/
def callback_add_workflow_to_collection (db : Db) (request : Request) : Db × Response :=
  match request.json_body with
  | none => (db, ulfius_set_string_body_response 400 "Invalid JSON")
  | some json_body =>
    let collection_id_json := json_object_get (some json_body) "collectionId"
    let template_id_json := json_object_get (some json_body) "templateId"
    if !json_is_integer collection_id_json || !json_is_integer template_id_json then
      (db, ulfius_set_string_body_response 400
        "Missing required fields: collectionId and templateId must be integers")
    else
      let collection_id := toInt32 (json_integer_value collection_id_json)
      let template_id := toInt32 (json_integer_value template_id_json)
      if !collection_exists db collection_id then
        (db, ulfius_set_string_body_response 404 "Collection not found")
      else if !template_exists db template_id then
        (db, ulfius_set_string_body_response 404 "Template not found")
      else
        let r := insert_or_ignore_collection_workflow db collection_id template_id
        let changes := r.2
        if changes > 0 then
          (r.1, ulfius_set_json_body_response 200
            (link_reply "Workflow added to collection successfully" collection_id template_id))
        else
          (r.1, ulfius_set_json_body_response 200
            (link_reply "Workflow already exists in collection" collection_id template_id))

/-! ## The statement text of GET /templates/collections -/

/-- A value bound to a parameter of a statement. -/
inductive SqlValue where
  | null
  | integer (n : Int)
  | real (r : Rat)
  | text (s : String)
deriving DecidableEq

/-- The loop `for (i = 0; i < category_count; i++)` that appends the placeholders of the
`IN` list: a comma before every placeholder but the first.  The first argument counts
the iterations that remain. -/
def in_list_loop : Nat → String → Nat → String
  | 0, main_sql, _ => main_sql
  | remaining + 1, main_sql, i =>
    let main_sql := if i > 0 then main_sql ++ "," else main_sql
    let main_sql := main_sql ++ "?"
    in_list_loop remaining main_sql (i + 1)

/-- The text `main_sql` assembled by `callback_get_collections` for a number of category
parameters and a search parameter. -/
def collections_sql (category_count : Nat) (search_query : Option String) : String :=
  let main_sql :=
    "SELECT DISTINCT c.id, c.rank, c.name, c.description, c.total_views, c.created_at FROM collections c"
  let where_added := decide (category_count > 0)
  let main_sql :=
    if category_count > 0 then
      let main_sql := main_sql ++ " JOIN collection_categories cc ON c.id = cc.collection_id"
      let main_sql := main_sql ++ " WHERE cc.category_id IN ("
      let main_sql := in_list_loop category_count main_sql 0
      main_sql ++ ")"
    else main_sql
  let main_sql :=
    match search_query with
    | some q =>
      if q.length > 0 then
        (if where_added then main_sql ++ " AND " else main_sql ++ " WHERE ") ++ "c.name LIKE ?"
      else main_sql
    | none => main_sql
  main_sql ++ " ORDER BY c.rank, c.name;"

/-- The values `callback_get_collections` binds, in the order of `param_idx`: the
category identifiers, then the search pattern when a search is given. -/
def collections_bindings (category_ids : List Int) (search_query : Option String) :
    List SqlValue :=
  category_ids.map (fun id => SqlValue.integer id) ++
    (match search_pattern search_query with
     | some p => [SqlValue.text p]
     | none => [])

/-- The statement prepared by `callback_get_collections` for a request: its text and the
values bound to its placeholders. -/
def collections_statement (request : Request) : String × List SqlValue :=
  let search_query := u_map_get request.map_url "search"
  let category_ids := collection_category_ids request
  (collections_sql category_ids.length search_query,
    collections_bindings category_ids search_query)

/-! ## A concrete instance of the library routines

The handlers are evaluated on concrete requests with the instance `sampleLib`: a compact
printer for `json_dumps`, a reader for `json_loads` that recognises the compact text of
the documents listed in `sampleDocs`, and a matcher for `LIKE`. -/

mutual
/-- Compact text of a document (reals are not printed by this instance). -/
def compactText : Json → String
  | .null => "null"
  | .bool b => if b then "true" else "false"
  | .integer n => toString n
  | .real _ => "0.0"
  | .string s => "\"" ++ s ++ "\""
  | .array xs => "[" ++ compactItems xs ++ "]"
  | .object kvs => "\x7b" ++ compactMembers kvs ++ "\x7d"
/-- Compact text of the items of an array, separated by commas. -/
def compactItems : List Json → String
  | [] => ""
  | [x] => compactText x
  | x :: y :: xs => compactText x ++ "," ++ compactItems (y :: xs)
/-- Compact text of the members of an object, separated by commas. -/
def compactMembers : List (String × Json) → String
  | [] => ""
  | [(k, v)] => "\"" ++ k ++ "\":" ++ compactText v
  | (k, v) :: y :: xs => "\"" ++ k ++ "\":" ++ compactText v ++ "," ++ compactMembers (y :: xs)
end

/-- Without `JSON_ENCODE_ANY`, `json_dumps` serialises arrays and objects only. -/
def sampleDumps (v : Json) : Option String :=
  match v with
  | .array _ => some (compactText v)
  | .object _ => some (compactText v)
  | _ => none

/-- The documents `sampleLoads` recognises. -/
def sampleDocs : List Json :=
  [.array [], .object [], .array [.object [("a", .integer 1)]],
    .object [("a", .integer 1)], .array [.integer 1, .integer 2]]

/-- A reader for the compact text of the documents of `sampleDocs`; any other text is a
parse failure. -/
def sampleLoads (text : String) : Option Json :=
  sampleDocs.find? (fun v => compactText v = text)

/-- The operator `text LIKE pattern`: `%` matches any run of characters, `_` any single
character, and letters match without regard to case.  The first argument is the pattern. -/
def likeMatch : List Char → List Char → Bool
  | [], text => text.isEmpty
  | p :: ps, text =>
    if p = '%' then text.tails.any (fun rest => likeMatch ps rest)
    else
      match text with
      | [] => false
      | c :: cs => (p = '_' || p.toLower = c.toLower) && likeMatch ps cs

def sampleLib : Lib :=
  ⟨sampleDumps, sampleLoads, fun text pattern => likeMatch pattern.data text.data⟩

/-! ## Auxiliary definitions for the statements and proofs -/

/-- The effect of `json_object_set_new` on the members of an object. -/
def setKeyOpt (k : String) (v : Option Json) (kvs : List (String × Json)) :
    List (String × Json) :=
  match v with
  | some x => setKey k x kvs
  | none => kvs

/-- The JSON document of a response, if its body is one. -/
def bodyJson (r : Response) : Option Json :=
  match r.body with
  | .json j => some j
  | .text _ => none

/-- The call `json_array_get(arr, index)`. -/
def json_array_get (arr : Option Json) (index : Nat) : Option Json :=
  match arr with
  | some (.array xs) => xs.get? index
  | _ => none

/-- An embedded JSON text column that is NULL or does not parse. -/
def unreadable (E : Lib) (column : Option String) : Prop :=
  ∀ text, column = some text → E.json_loads text = none

/-- Two stores that differ at most in their `categories` table. -/
def same_outside_categories (a b : Db) : Prop :=
  a.users = b.users ∧ a.templates = b.templates ∧ a.collections = b.collections ∧
  a.template_categories = b.template_categories ∧
  a.collection_categories = b.collection_categories ∧
  a.collection_workflows = b.collection_workflows

/-- The store with no rows. -/
def emptyDb : Db := ⟨[], [], [], [], [], [], []⟩

/-- A request body for `PUT /templates/workflows` with the required members of `workflow`
and the members listed in `extra`. -/
def sampleWorkflowDoc (extra : List (String × Json)) : Request :=
  ⟨[], some (.object [("workflow", .object ([("name", .string "T"),
    ("description", .string "about T"), ("createdAt", .string "2025-01-01"),
    ("workflow", .object []), ("user", .object [("name", .string "Ann")])] ++ extra))])⟩

/-- Whether the joins of `callback_search_templates` produce, for the template `t`, a row
that satisfies the where clause. -/
def search_matches (E : Lib) (db : Db) (categories : List String) (pattern : Option String)
    (t : Template) : Bool :=
  (template_category_rows db categories t).any (search_where E categories pattern t)

/-- The first user row a template refers to, or a row of NULLs when there is none. -/
def owner_of (db : Db) (t : Template) : User :=
  (db.users.find? (fun u => t.user_id = some u.id)).getD ⟨0, none, none, none, none, none, none⟩

/-- In the words of the spec: the template is linked to a category of the given name. -/
def linked_to_category (db : Db) (t : Template) (name : String) : Bool :=
  db.categories.any (fun c => c.name = some name && db.template_categories.contains (t.id, c.id))

/-- In the words of the spec: the template matches the filters of a search, that is, it is
linked to one of the named categories when categories are given, and its name or its
description matches the pattern when a search is given. -/
def template_matches (E : Lib) (db : Db) (categories : List String) (pattern : Option String)
    (t : Template) : Bool :=
  (categories.isEmpty || categories.any (fun n => linked_to_category db t n)) &&
  (match pattern with
   | some p => likeOpt E t.name p || likeOpt E t.description p
   | none => true)

/-- Templates in the order of `ORDER BY t.id DESC`. -/
def sort_by_id_desc (rows : List Template) : List Template :=
  rows.insertionSort (fun a b => a.id ≥ b.id)

/-- A user row whose optional `bio` and `avatar` are NULL. -/
def sampleUser : User :=
  ⟨1, some "Default API User", some "Default API User", none, some 0, some "[]", none⟩

/-- A template row owned by `sampleUser`: `nodes_data` holds an object, `image_data` a
text that is not JSON, and the other optional columns are NULL. -/
def sampleTemplate : Template :=
  ⟨1, some "T", some "about T", some "2025-01-01", some 7, some 2, none, none, some 1, some 1,
    some "\x7b\x7d", none, some "\x7b\"a\":1\x7d", some "oops"⟩

/-- A collection row whose `total_views` is NULL. -/
def sampleCollection : Collection := ⟨1, some 0, some "C", none, none, some "2025-01-01"⟩

/-- A store holding the three sample rows, the template being a member of the
collection. -/
def sampleDb : Db := ⟨[sampleUser], [], [sampleTemplate], [sampleCollection], [], [], [(1, 1)]⟩

/-- A store with the categories `A`, `B` and `C` and four templates: template 1 is linked
to `A`, template 2 to `B`, template 3 to `A` and to `B`, template 4 to `C`. -/
def unionDb : Db :=
  ⟨[sampleUser], [⟨1, some "A", none, none⟩, ⟨2, some "B", none, none⟩, ⟨3, some "C", none, none⟩],
    [{ sampleTemplate with id := 1 }, { sampleTemplate with id := 2 },
      { sampleTemplate with id := 3 }, { sampleTemplate with id := 4 }],
    [], [(1, 1), (2, 2), (3, 1), (3, 2), (4, 3)], [], []⟩

/-- The store `sampleDb` without its membership row. -/
def unlinkedDb : Db := { sampleDb with collection_workflows := [] }

/-- A request body for `PATCH /templates/collections`. -/
def sampleLinkRequest (c t : Int) : Request :=
  ⟨[], some (.object [("collectionId", .integer c), ("templateId", .integer t)])⟩

/-- The positive identifiers the entries of the `categories` array resolve to in the loop
of `callback_create_workflow`, in the order of the entries; each entry is resolved in the
store left by the entries before it. -/
def resolved_category_ids (template_id : Int) : List Json → Db → List Int
  | [], _ => []
  | category_json_obj :: rest, db =>
    let r := get_or_create_category db (some category_json_obj)
    if r.2 > 0 then
      r.2 :: resolved_category_ids template_id rest
        (insert_or_ignore_template_category r.1 template_id r.2)
    else resolved_category_ids template_id rest r.1

/-- The call `snprintf(buffer, size, ...)` on the formatted text: at most `size - 1` bytes
of the text are stored. -/
def snprintf (size : Nat) (text : String) : String := String.mk (text.data.take (size - 1))

/-- The array `count_sql_base` of `callback_search_templates`. -/
def count_sql_base : String := "SELECT COUNT(DISTINCT t.id) FROM templates t"

/-- The array `main_sql_base` of `callback_search_templates`. -/
def main_sql_base : String :=
  "SELECT DISTINCT t.id, t.name, t.total_views, t.purchase_url, " ++
  "u.id, u.name, u.username, u.bio, u.verified, u.links, u.avatar, " ++
  "t.description, t.created_at, t.nodes_data, t.price " ++
  "FROM templates t JOIN users u ON t.user_id = u.id"

/-- The loop `for (i = 0; i < category_count; i++)` that appends the category predicates
to `where_clause`: ` OR ` before every predicate but the first.  The first argument counts
the iterations that remain. -/
def or_list_loop : Nat → String → Nat → String
  | 0, where_clause, _ => where_clause
  | remaining + 1, where_clause, i =>
    let where_clause := if i > 0 then where_clause ++ " OR " else where_clause
    let where_clause := where_clause ++ "c.name = ?"
    or_list_loop remaining where_clause (i + 1)

/-- The text `join_clause` of `callback_search_templates` for a number of category tokens. -/
def search_join_clause (category_count : Nat) : String :=
  let join_clause := ""
  if category_count > 0 then
    let join_clause := join_clause ++ " JOIN template_categories tc ON t.id = tc.template_id"
    join_clause ++ " JOIN categories c ON tc.category_id = c.id"
  else join_clause

/-- The text `where_clause` and the counter `where_conditions` of
`callback_search_templates` after the category block. -/
def search_where_categories (category_count : Nat) : String × Nat :=
  let where_clause := ""
  let where_conditions : Nat := 0
  if category_count > 0 then
    let where_clause :=
      where_clause ++ (if where_conditions = 0 then " WHERE " else " AND ")
    let where_clause := where_clause ++ "("
    let where_clause := or_list_loop category_count where_clause 0
    let where_clause := where_clause ++ ")"
    (where_clause, where_conditions + 1)
  else (where_clause, where_conditions)

/-- The text `where_clause` of `callback_search_templates` after the search block. -/
def search_where_clause (category_count : Nat) (search_query_str : Option String) : String :=
  let r := search_where_categories category_count
  let where_clause := r.1
  let where_conditions := r.2
  match search_query_str with
  | some q =>
    if q.length > 0 then
      let where_clause :=
        where_clause ++ (if where_conditions = 0 then " WHERE " else " AND ")
      where_clause ++ "(t.name LIKE ? OR t.description LIKE ?)"
    else where_clause
  | none => where_clause

/-- The text `full_count_sql`: `snprintf` of base, join clause, where clause and `;` into
3072 bytes. -/
def full_count_sql (category_count : Nat) (search_query_str : Option String) : String :=
  snprintf 3072 (count_sql_base ++ search_join_clause category_count ++
    search_where_clause category_count search_query_str ++ ";")

/-- The text `full_main_sql`: `snprintf` of base, join clause, where clause and the order
and window into 4096 bytes. -/
def full_main_sql (category_count : Nat) (search_query_str : Option String) : String :=
  snprintf 4096 (main_sql_base ++ search_join_clause category_count ++
    search_where_clause category_count search_query_str ++
    " ORDER BY t.id DESC LIMIT ? OFFSET ?;")

/-- The values bound to the count statement, in the order of `param_index`: the category
tokens, then the search pattern twice when a search is given. -/
def search_count_bindings (categories : List String) (search_query_str : Option String) :
    List SqlValue :=
  categories.map (fun token => SqlValue.text token) ++
    (match search_pattern search_query_str with
     | some p => [SqlValue.text p, SqlValue.text p]
     | none => [])

/-- The values bound to the main statement, in the order of `param_index`: the category
tokens, the search pattern twice when a search is given, then `limit` and `offset`. -/
def search_main_bindings (categories : List String) (search_query_str : Option String)
    (limit offset : Int) : List SqlValue :=
  categories.map (fun token => SqlValue.text token) ++
    (match search_pattern search_query_str with
     | some p => [SqlValue.text p, SqlValue.text p]
     | none => []) ++
    [SqlValue.integer limit, SqlValue.integer offset]

/-- The count statement prepared by `callback_search_templates` for a request: its text
and the values bound to its placeholders. -/
def search_count_statement (request : Request) : String × List SqlValue :=
  let search_query_str := u_map_get request.map_url "search"
  let categories := parse_categories (u_map_get request.map_url "category")
  (full_count_sql categories.length search_query_str,
    search_count_bindings categories search_query_str)

/-- The main statement prepared by `callback_search_templates` for a request: its text
and the values bound to its placeholders. -/
def search_main_statement (request : Request) : String × List SqlValue :=
  let search_query_str := u_map_get request.map_url "search"
  let categories := parse_categories (u_map_get request.map_url "category")
  (full_main_sql categories.length search_query_str,
    search_main_bindings categories search_query_str (search_limit request)
      (search_offset request))

/-- Whether a search term is present and not empty (`search && strlen(search) > 0`). -/
def search_given (search_query : Option String) : Bool :=
  match search_query with
  | some q => decide (q.length > 0)
  | none => false

/-- Number of `?` placeholders in a statement text. -/
def placeholders (sql : String) : Nat := sql.data.count '?'

/-- In the words of the spec: a piece with the whitespace that surrounds it removed. -/
def strip_whitespace (piece : List Char) : List Char :=
  ((piece.dropWhile isspace).reverse.dropWhile isspace).reverse

/-- In the words of the spec: the non-empty comma-separated pieces of the first 511 bytes
of the category string, at most 50 of them, each with its surrounding whitespace
removed. -/
def category_tokens (category_str : String) : List String :=
  ((((category_str.data.take 511).splitOn ',').filter (fun piece => !piece.isEmpty)).take
    50).map (fun piece => String.mk (strip_whitespace piece))

/-- In the words of the spec: the category with identifier `a` refers to `b` as its
parent. -/
def parent_edge (db : Db) (a b : Int) : Prop :=
  ∃ c ∈ db.categories, c.id = a ∧ c.parent_id = some b

/-- In the words of the spec: no category reaches itself by following `parent_id`. -/
def acyclic (db : Db) : Prop := ∀ a : Int, ¬ Relation.TransGen (parent_edge db) a a

/-- The largest category identifier in use, 0 for an empty table. -/
def max_category_id (db : Db) : Int := (db.categories.map (fun c => c.id)).foldr max 0

/-- The state of the category table the program maintains: the parent references are
acyclic, the identifiers are positive, and no row refers to an identifier above those in
use. -/
def forest (db : Db) : Prop :=
  acyclic db ∧ (∀ c ∈ db.categories, 0 < c.id) ∧
  (∀ c ∈ db.categories, ∀ p : Int, c.parent_id = some p → p ≤ max_category_id db)

/-! ## Lemmas on JSON objects -/

theorem lookupKey_setKey (k k' : String) (v : Json) (kvs : List (String × Json)) :
    lookupKey k' (setKey k v kvs) = if k = k' then some v else lookupKey k' kvs := by
  induction kvs with
  | nil => simp [setKey, lookupKey]
  | cons p rest ih =>
    obtain ⟨a, w⟩ := p
    by_cases h1 : a = k
    · subst h1
      by_cases h2 : a = k' <;> simp [setKey, lookupKey, h2]
    · by_cases h2 : a = k'
      · subst h2
        have h3 : ¬ k = a := fun h => h1 h.symm
        simp [setKey, lookupKey, h1, h3]
      · simp [setKey, lookupKey, h1, h2, ih]

theorem json_object_set_new_object (kvs : List (String × Json)) (k : String)
    (v : Option Json) :
    json_object_set_new (.object kvs) k v = .object (setKeyOpt k v kvs) := by
  cases v <;> simp [json_object_set_new, setKeyOpt]

theorem lookupKey_setKeyOpt_same (k : String) (v : Option Json) (kvs : List (String × Json)) :
    lookupKey k (setKeyOpt k v kvs) = v.orElse (fun _ => lookupKey k kvs) := by
  cases v <;> simp [setKeyOpt, lookupKey_setKey]

theorem lookupKey_setKeyOpt_ne (k k' : String) (v : Option Json) (kvs : List (String × Json))
    (h : k ≠ k') : lookupKey k' (setKeyOpt k v kvs) = lookupKey k' kvs := by
  cases v <;> simp [setKeyOpt, lookupKey_setKey, h]

theorem json_object_get_object (kvs : List (String × Json)) (k : String) :
    json_object_get (some (.object kvs)) k = lookupKey k kvs := rfl

theorem lookupKey_nil (k : String) : lookupKey k [] = none := rfl

/-! ## Lemmas on the write path -/

theorem same_outside_categories_refl (a : Db) : same_outside_categories a a :=
  ⟨rfl, rfl, rfl, rfl, rfl, rfl⟩

theorem same_outside_categories_trans {a b c : Db} (h1 : same_outside_categories a b)
    (h2 : same_outside_categories b c) : same_outside_categories a c := by
  obtain ⟨a1, a2, a3, a4, a5, a6⟩ := h1
  obtain ⟨b1, b2, b3, b4, b5, b6⟩ := h2
  exact ⟨a1.trans b1, a2.trans b2, a3.trans b3, a4.trans b4, a5.trans b5, a6.trans b6⟩

theorem insert_category_frame {db db1 : Db} {name icon : String} {parent_id : Option Int}
    {rowid : Int} (h : insert_category db name icon parent_id = some (db1, rowid)) :
    same_outside_categories db1 db := by
  unfold insert_category at h
  split at h
  · cases h
  · simp only [Option.some.injEq, Prod.mk.injEq] at h
    obtain ⟨h1, _⟩ := h
    subst h1
    exact ⟨rfl, rfl, rfl, rfl, rfl, rfl⟩

theorem get_or_create_category_json_frame (j : Json) (db : Db) :
    same_outside_categories (get_or_create_category_json j db).1 db := by
  refine get_or_create_category_json.induct
    (fun j db => same_outside_categories (get_or_create_category_json j db).1 db)
    (fun kvs db => same_outside_categories (resolve_parent kvs db).1 db)
    ?_ ?_ ?_ ?_ ?_ ?_ ?_ ?_ ?_ ?_ ?_ j db
  · intro kvs db h
    simp [get_or_create_category_json, h, same_outside_categories_refl]
  · intro kvs db name h hlen
    simp [get_or_create_category_json, h, hlen, same_outside_categories_refl]
  · intro kvs db name h hlen category_id hpos
    simp only [get_or_create_category_json, h, hlen, if_false]
    rw [if_pos hpos]
    exact same_outside_categories_refl db
  · intro kvs db name h hlen category_id hpos r db1 parent_id icon db2 rowid hins ih
    simp only [get_or_create_category_json, h, hlen, if_false]
    rw [if_neg hpos]
    simp only [db1, parent_id, icon, r] at hins
    simp only [hins]
    exact same_outside_categories_trans (insert_category_frame hins) ih
  · intro kvs db name h hlen category_id hpos r db1 parent_id icon hins n hsel ih
    simp only [get_or_create_category_json, h, hlen, if_false]
    rw [if_neg hpos]
    simp only [db1, parent_id, icon, r] at hins hsel
    simp only [hins, hsel]
    exact ih
  · intro kvs db name h hlen category_id hpos r db1 parent_id icon hins hsel ih
    simp only [get_or_create_category_json, h, hlen, if_false]
    rw [if_neg hpos]
    simp only [db1, parent_id, icon, r] at hins hsel
    simp only [hins, hsel]
    exact ih
  · intro t db hne
    cases t <;> simp [get_or_create_category_json, same_outside_categories_refl] 
    exact absurd rfl (hne _)
  · intro db
    simp [resolve_parent, same_outside_categories_refl]
  · intro rest db kvs ih
    simpa [resolve_parent] using ih
  · intro v rest db hne
    cases v <;> simp [resolve_parent, same_outside_categories_refl]
    exact absurd rfl (hne _)
  · intro k v rest db hk ih
    simpa [resolve_parent, hk] using ih

theorem ite_zero_toInt32 (x : Int) : (if x = 0 then toInt32 x else x) = x := by
  split
  · rename_i h; subst h; rfl
  · rfl

theorem callback_create_workflow_accepted (E : Lib) (db : Db) (request : Request)
    (h : (callback_create_workflow E db request).2.status = 201) :
    ∃ name description created_at nested,
      json_string_value
        (json_object_get (json_object_get request.json_body "workflow") "name") = some name ∧
      json_string_value
        (json_object_get (json_object_get request.json_body "workflow") "description")
          = some description ∧
      json_string_value
        (json_object_get (json_object_get request.json_body "workflow") "createdAt")
          = some created_at ∧
      json_object_get (json_object_get request.json_body "workflow") "workflow" = some nested ∧
      (get_or_create_user E db
        (json_object_get (json_object_get request.json_body "workflow") "user")).2 ≠ 0 ∧
      json_is_object (json_object_get (json_object_get request.json_body "workflow") "user")
        = true ∧
      callback_create_workflow E db request =
        ((match json_object_get (json_object_get request.json_body "workflow") "categories" with
          | some (.array entries) =>
            link_categories
              (template_bindings E (json_object_get request.json_body "workflow") name
                description created_at nested
                (get_or_create_user E db
                  (json_object_get (json_object_get request.json_body "workflow") "user")).2).id
              entries
              (insert_or_replace_template
                (get_or_create_user E db
                  (json_object_get (json_object_get request.json_body "workflow") "user")).1
                (template_bindings E (json_object_get request.json_body "workflow") name
                  description created_at nested
                  (get_or_create_user E db
                    (json_object_get (json_object_get request.json_body "workflow")
                      "user")).2)).1
          | _ =>
            (insert_or_replace_template
              (get_or_create_user E db
                (json_object_get (json_object_get request.json_body "workflow") "user")).1
              (template_bindings E (json_object_get request.json_body "workflow") name
                description created_at nested
                (get_or_create_user E db
                  (json_object_get (json_object_get request.json_body "workflow")
                    "user")).2)).1),
         ⟨201, .json (.object [("id", .integer
           (template_bindings E (json_object_get request.json_body "workflow") name
              description created_at nested
              (get_or_create_user E db
                (json_object_get (json_object_get request.json_body "workflow") "user")).2).id)])⟩) := by
  unfold callback_create_workflow at h ⊢
  cases hb : request.json_body with
  | none => simp [hb, ulfius_set_string_body_response] at h
  | some json_body =>
    simp only [hb] at h ⊢
    by_cases hobj : (!json_is_object (json_object_get (some json_body) "workflow") ||
        !json_is_object (json_object_get (json_object_get (some json_body) "workflow") "user")) = true
    · simp [hobj, ulfius_set_string_body_response] at h
    · simp only [hobj] at h ⊢
      cases h1 : json_string_value (json_object_get (json_object_get (some json_body) "workflow") "name") with
      | none => simp [h1, ulfius_set_string_body_response] at h
      | some name =>
        cases h2 : json_string_value (json_object_get (json_object_get (some json_body) "workflow") "description") with
        | none => simp [h1, h2, ulfius_set_string_body_response] at h
        | some description =>
          cases h3 : json_string_value (json_object_get (json_object_get (some json_body) "workflow") "createdAt") with
          | none => simp [h1, h2, h3, ulfius_set_string_body_response] at h
          | some created_at =>
            cases h4 : json_object_get (json_object_get (some json_body) "workflow") "workflow" with
            | none => simp [h1, h2, h3, h4, ulfius_set_string_body_response] at h
            | some nested =>
              simp only [h1, h2, h3, h4] at h ⊢
              by_cases hu : (get_or_create_user E db (json_object_get (json_object_get (some json_body) "workflow") "user")).2 = 0
              · simp [hu, ulfius_set_string_body_response] at h
              · refine ⟨name, description, created_at, nested, rfl, rfl, rfl, rfl, hu, ?_, ?_⟩
                · have := hobj
                  simp only [Bool.or_eq_true, Bool.not_eq_true', not_or, Bool.not_eq_false] at this
                  exact this.2
                · simp [hu, insert_or_replace_template, ulfius_set_json_body_response,
                    json_object, json_object_set_new, setKey, json_integer, ite_zero_toInt32]

/-! ## Projection of rows (C6 to C10) -/

/-- C6: in the three projections that render them (the document of getTemplateById, the
entry of searchTemplates, the member entry of getCollectionById), an embedded JSON text
column that is NULL or fails to parse still yields its field, with the empty object for
`workflow` and `workflowInfo` and the empty array for `nodes`, `image` and the user
`links`.  The library is assumed to parse the text `[]` as the empty array. -/
theorem C6_unreadable_column_renders_empty_container (E : Lib) (db : Db) (template_id : Int)
    (t : Template) (u : User) (hempty : E.json_loads "[]" = some (.array [])) :
    (unreadable E t.workflow_data →
      json_object_get (json_object_get (some (workflow_detail E db template_id t u)) "workflow")
        "workflow" = some (.object [])) ∧
    (unreadable E t.workflow_info →
      json_object_get (some (workflow_detail E db template_id t u)) "workflowInfo"
        = some (.object [])) ∧
    (unreadable E t.nodes_data →
      json_object_get (some (workflow_detail E db template_id t u)) "nodes"
        = some (.array [])) ∧
    (unreadable E t.image_data →
      json_object_get (some (workflow_detail E db template_id t u)) "image"
        = some (.array [])) ∧
    (unreadable E u.links →
      json_object_get (json_object_get (some (workflow_detail E db template_id t u)) "user")
        "links" = some (.array [])) ∧
    (unreadable E t.nodes_data →
      json_object_get (some (search_entry E (search_row t u))) "nodes" = some (.array [])) ∧
    (unreadable E u.links →
      json_object_get (json_object_get (some (search_entry E (search_row t u))) "user")
        "links" = some (.array [])) ∧
    (unreadable E t.workflow_data →
      json_object_get (some (collection_member_entry E db t u)) "workflow"
        = some (.object [])) ∧
    (unreadable E t.workflow_info →
      json_object_get (some (collection_member_entry E db t u)) "workflowInfo"
        = some (.object [])) ∧
    (unreadable E t.nodes_data →
      json_object_get (some (collection_member_entry E db t u)) "nodes"
        = some (.array [])) ∧
    (unreadable E t.image_data →
      json_object_get (some (collection_member_entry E db t u)) "image"
        = some (.array [])) ∧
    (unreadable E u.links →
      json_object_get (json_object_get (some (collection_member_entry E db t u)) "user")
        "links" = some (.array [])) := by
  have key : ∀ (col : Option String) (d : Json), unreadable E col →
      (match col with
       | some text =>
         (match E.json_loads text with
          | some v => some v
          | none => some d)
       | none => some d) = some d := by
    intro col d h
    cases col with
    | none => rfl
    | some text => simp [h text rfl]
  have keyArr : ∀ (col : Option String), unreadable E col →
      (match col with
       | some text =>
         if (E.json_loads text).isSome && json_is_array (E.json_loads text) then
           E.json_loads text
         else some json_array
       | none => some json_array) = some (.array []) := by
    intro col h
    cases col with
    | none => rfl
    | some text => simp [h text rfl, json_array]
  have keySearch : ∀ (col : Option String), unreadable E col →
      (match E.json_loads (col.getD "[]") with
       | some n => some n
       | none => some json_array) = some (.array []) := by
    intro col h
    cases col with
    | none => simp [hempty]
    | some text => simp [h text rfl, json_array]
  refine ⟨?_, ?_, ?_, ?_, ?_, ?_, ?_, ?_, ?_, ?_, ?_, ?_⟩ <;> intro h
  all_goals
    simp only [workflow_detail, search_entry, search_row, collection_member_entry, json_object,
      json_object_set_new_object, json_object_get_object]
    simp (disch := decide) only [lookupKey_setKeyOpt_same, lookupKey_setKeyOpt_ne,
      json_object_get_object, key _ _ h, keyArr _ h, keySearch _ h, Option.orElse]
    try rfl

theorem C6_witness :
    sampleLib.json_loads "[]" = some (.array []) ∧
    unreadable sampleLib sampleTemplate.image_data ∧
    json_object_get (some (workflow_detail sampleLib sampleDb 1 sampleTemplate sampleUser))
      "image" = some (.array []) :=
  ⟨rfl, fun _ h => by cases h; rfl,
    (C6_unreadable_column_renders_empty_container sampleLib sampleDb 1 sampleTemplate sampleUser
      rfl).2.2.2.1 (fun _ h => by cases h; rfl)⟩

/-- C7, counterexample: the stored `nodes_data` text of `sampleTemplate` parses to the
object with the single member `a`, yet getTemplateById renders `nodes` as the empty array,
while searchTemplates renders the parsed object for the same row. -/
theorem C7_counterexample :
    sampleLib.json_loads "\x7b\"a\":1\x7d" = some (.object [("a", .integer 1)]) ∧
    json_object_get
      (bodyJson (callback_get_workflow_by_id sampleLib sampleDb ⟨[("id", "1")], none⟩))
      "nodes" = some (.array []) ∧
    json_object_get
      (json_array_get
        (json_object_get (bodyJson (callback_search_templates sampleLib sampleDb ⟨[], none⟩))
          "workflows") 0)
      "nodes" = some (.object [("a", .integer 1)]) :=
  ⟨rfl, rfl, rfl⟩

/-- C7, amended: when the stored text parses, getTemplateById embeds exactly the parsed
value in `workflow.workflow` and `workflowInfo` whatever its shape, and in `nodes` and
`image` when the parsed value is an array, a parsed value of another shape being replaced
by the empty array; searchTemplates renders the parsed `nodes` value whatever its shape,
which is the value getTemplateById renders whenever the parsed value is an array. -/
theorem C7_parsed_column_passthrough (E : Lib) (db : Db) (template_id : Int)
    (t : Template) (u : User) (text : String) (v : Json) (hparse : E.json_loads text = some v) :
    (t.workflow_data = some text →
      json_object_get (json_object_get (some (workflow_detail E db template_id t u)) "workflow")
        "workflow" = some v) ∧
    (t.workflow_info = some text →
      json_object_get (some (workflow_detail E db template_id t u)) "workflowInfo" = some v) ∧
    (t.nodes_data = some text →
      json_object_get (some (workflow_detail E db template_id t u)) "nodes"
        = some (if json_is_array (some v) then v else .array [])) ∧
    (t.image_data = some text →
      json_object_get (some (workflow_detail E db template_id t u)) "image"
        = some (if json_is_array (some v) then v else .array [])) ∧
    (t.nodes_data = some text →
      json_object_get (some (search_entry E (search_row t u))) "nodes" = some v) ∧
    (t.nodes_data = some text → json_is_array (some v) = true →
      json_object_get (some (search_entry E (search_row t u))) "nodes"
        = json_object_get (some (workflow_detail E db template_id t u)) "nodes") := by
  refine ⟨?_, ?_, ?_, ?_, ?_, ?_⟩ <;> intro h
  case refine_6 =>
    intro harr
    simp only [workflow_detail, search_entry, search_row, json_object,
      json_object_set_new_object, json_object_get_object]
    simp (disch := decide) only [lookupKey_setKeyOpt_same, lookupKey_setKeyOpt_ne, h, hparse,
      json_object_get_object, Option.getD_some, Option.isSome_some, Bool.true_and, harr,
      if_true, Option.orElse]
  all_goals
    simp only [workflow_detail, search_entry, search_row, json_object,
      json_object_set_new_object, json_object_get_object]
    simp (disch := decide) only [lookupKey_setKeyOpt_same, lookupKey_setKeyOpt_ne, h, hparse,
      json_object_get_object, Option.getD_some, Option.isSome_some, Bool.true_and,
      Option.orElse]
    try (by_cases harr : json_is_array (some v) = true <;> simp [harr, json_array])

theorem C7_witness :
    sampleLib.json_loads "\x7b\"a\":1\x7d" = some (.object [("a", .integer 1)]) ∧
    json_object_get (some (workflow_detail sampleLib sampleDb 1 sampleTemplate sampleUser))
      "nodes" = some (.array []) :=
  ⟨rfl, (C7_parsed_column_passthrough sampleLib sampleDb 1 sampleTemplate sampleUser
    "\x7b\"a\":1\x7d" (.object [("a", .integer 1)]) rfl).2.2.1 rfl⟩

/-- C8, evaluation at the failing input: for a user row whose `bio` and `avatar` are NULL,
getTemplateById and searchTemplates answer 200 with a `user` object that has its
`username` but neither a `bio` key nor an `avatar` key, while the member entry of
getCollectionById renders the same NULL `bio` as JSON null. -/
theorem C8_null_bio_and_avatar_keys_omitted :
    (callback_get_workflow_by_id sampleLib sampleDb ⟨[("id", "1")], none⟩).status = 200 ∧
    json_object_get (json_object_get
      (bodyJson (callback_get_workflow_by_id sampleLib sampleDb ⟨[("id", "1")], none⟩)) "user")
      "username" = some (.string "Default API User") ∧
    json_object_get (json_object_get
      (bodyJson (callback_get_workflow_by_id sampleLib sampleDb ⟨[("id", "1")], none⟩)) "user")
      "bio" = none ∧
    json_object_get (json_object_get
      (bodyJson (callback_get_workflow_by_id sampleLib sampleDb ⟨[("id", "1")], none⟩)) "user")
      "avatar" = none ∧
    json_object_get (json_object_get (json_array_get (json_object_get
      (bodyJson (callback_search_templates sampleLib sampleDb ⟨[], none⟩)) "workflows") 0)
      "user") "bio" = none ∧
    json_object_get (json_object_get (json_array_get (json_object_get (json_object_get
      (bodyJson (callback_get_collection_by_id sampleLib sampleDb ⟨[("id", "1")], none⟩))
      "collection") "workflows") 0) "user") "bio" = some .null :=
  ⟨rfl, rfl, rfl, rfl, rfl, rfl⟩

/-- C9, counterexample: listCollections renders the NULL `total_views` of
`sampleCollection` as JSON null, not as the integer 0. -/
theorem C9_counterexample :
    (callback_get_collections sampleLib sampleDb ⟨[], none⟩).status = 200 ∧
    json_object_get
      (json_array_get
        (json_object_get (bodyJson (callback_get_collections sampleLib sampleDb ⟨[], none⟩))
          "collections") 0)
      "totalViews" = some .null :=
  ⟨rfl, rfl⟩

/-- C9, amended: listCollections renders an absent `total_views` as JSON null; a row of
searchTemplates renders an absent `total_views` as the integer 0 and an absent `price` as
the integer 0; getTemplateById renders an absent `price` as JSON null. -/
theorem C9_absent_values_by_context (E : Lib) (db : Db) (template_id : Int) (c : Collection)
    (t : Template) (u : User) :
    (c.total_views = none →
      json_object_get (some (collection_list_entry db c)) "totalViews" = some .null) ∧
    (t.total_views = none →
      json_object_get (some (search_entry E (search_row t u))) "totalViews"
        = some (.integer 0)) ∧
    (t.price = none →
      json_object_get (some (search_entry E (search_row t u))) "price" = some (.integer 0)) ∧
    (t.price = none →
      json_object_get (json_object_get (some (workflow_detail E db template_id t u)) "workflow")
        "price" = some .null) := by
  refine ⟨?_, ?_, ?_, ?_⟩ <;> intro h
  all_goals
    simp only [workflow_detail, search_entry, search_row, collection_list_entry, json_object,
      json_object_set_new_object, json_object_get_object]
    simp (disch := decide) only [lookupKey_setKeyOpt_same, lookupKey_setKeyOpt_ne, h,
      json_object_get_object, Option.orElse]
    try rfl

theorem C9_witness :
    sampleTemplate.price = none ∧
    json_object_get (some (search_entry sampleLib (search_row sampleTemplate sampleUser)))
      "price" = some (.integer 0) :=
  ⟨rfl, (C9_absent_values_by_context sampleLib sampleDb 1 sampleCollection sampleTemplate
    sampleUser).2.2.1 rfl⟩

/-- C10, counterexample: for the member template of `sampleCollection`, the document of
getTemplateById keeps `id` and `price` under its `workflow` member and has no `id` of its
own, whereas the entry of getCollectionById has `id` at its top level, holds the stored
graph under `workflow`, and has no `price` at all. -/
theorem C10_counterexample :
    json_object_get
      (bodyJson (callback_get_workflow_by_id sampleLib sampleDb ⟨[("id", "1")], none⟩))
      "id" = none ∧
    json_object_get (json_object_get
      (bodyJson (callback_get_workflow_by_id sampleLib sampleDb ⟨[("id", "1")], none⟩))
      "workflow") "price" = some .null ∧
    json_object_get (json_array_get (json_object_get (json_object_get
      (bodyJson (callback_get_collection_by_id sampleLib sampleDb ⟨[("id", "1")], none⟩))
      "collection") "workflows") 0) "id" = some (.integer 1) ∧
    json_object_get (json_array_get (json_object_get (json_object_get
      (bodyJson (callback_get_collection_by_id sampleLib sampleDb ⟨[("id", "1")], none⟩))
      "collection") "workflows") 0) "price" = none ∧
    json_object_get (json_object_get (json_array_get (json_object_get (json_object_get
      (bodyJson (callback_get_collection_by_id sampleLib sampleDb ⟨[("id", "1")], none⟩))
      "collection") "workflows") 0) "workflow") "price" = none :=
  ⟨rfl, rfl, rfl, rfl, rfl⟩

/-- C10, amended: the member entry of getCollectionById is a flattened form of the
document of getTemplateById for the same row.  Its `id`, `name`, `views`, `recentViews`,
`totalViews`, `createdAt`, `description` and `workflow` are the members of the document's
`workflow` object; its `lastUpdatedBy`, `workflowInfo` and `categories` are the document's
own; its `user` has the same `name`, `username`, `verified`, `links` and `avatar`, and the
same `bio` when that column is not NULL; its `nodes` and `image` are the document's when
the stored text does not parse to a value other than an array; it has no `price` and no
`purchaseUrl`. -/
theorem C10_member_entry_flattens_detail (E : Lib) (db : Db) (t : Template) (u : User)
    (hid : toInt32 t.id = t.id) :
    (∀ k ∈ ["id", "name", "views", "recentViews", "totalViews", "createdAt", "description",
        "workflow"],
      json_object_get (some (collection_member_entry E db t u)) k =
        json_object_get (json_object_get (some (workflow_detail E db t.id t u)) "workflow") k) ∧
    (∀ k ∈ ["lastUpdatedBy", "workflowInfo", "categories"],
      json_object_get (some (collection_member_entry E db t u)) k =
        json_object_get (some (workflow_detail E db t.id t u)) k) ∧
    (∀ k ∈ ["name", "username", "verified", "links", "avatar"],
      json_object_get (json_object_get (some (collection_member_entry E db t u)) "user") k =
        json_object_get (json_object_get (some (workflow_detail E db t.id t u)) "user") k) ∧
    (u.bio ≠ none →
      json_object_get (json_object_get (some (collection_member_entry E db t u)) "user") "bio" =
        json_object_get (json_object_get (some (workflow_detail E db t.id t u)) "user") "bio") ∧
    ((∀ text v, t.nodes_data = some text → E.json_loads text = some v →
        json_is_array (some v) = true) →
      json_object_get (some (collection_member_entry E db t u)) "nodes" =
        json_object_get (some (workflow_detail E db t.id t u)) "nodes") ∧
    ((∀ text v, t.image_data = some text → E.json_loads text = some v →
        json_is_array (some v) = true) →
      json_object_get (some (collection_member_entry E db t u)) "image" =
        json_object_get (some (workflow_detail E db t.id t u)) "image") ∧
    json_object_get (some (collection_member_entry E db t u)) "price" = none ∧
    json_object_get (some (collection_member_entry E db t u)) "purchaseUrl" = none := by
  have arr : ∀ (col : Option String),
      (∀ text v, col = some text → E.json_loads text = some v →
        json_is_array (some v) = true) →
      (match col with
       | some text =>
         (match E.json_loads text with
          | some v => some v
          | none => some json_array)
       | none => some json_array) =
      (match col with
       | some text =>
         if (E.json_loads text).isSome && json_is_array (E.json_loads text) then
           E.json_loads text
         else some json_array
       | none => some json_array) := by
    intro col h
    cases col with
    | none => rfl
    | some text =>
      cases hv : E.json_loads text with
      | none => simp [hv]
      | some v => simp [hv, h text v rfl hv]
  refine ⟨?_, ?_, ?_, ?_, ?_, ?_, ?_, ?_⟩
  · intro k hk
    simp only [List.mem_cons, List.mem_singleton, List.not_mem_nil, or_false] at hk
    rcases hk with rfl | rfl | rfl | rfl | rfl | rfl | rfl | rfl
    all_goals
      simp only [workflow_detail, collection_member_entry, json_object,
        json_object_set_new_object, json_object_get_object]
      simp (disch := decide) only [lookupKey_setKeyOpt_same, lookupKey_setKeyOpt_ne,
        json_object_get_object, Option.orElse]
  · intro k hk
    simp only [List.mem_cons, List.mem_singleton, List.not_mem_nil, or_false] at hk
    rcases hk with rfl | rfl | rfl
    all_goals
      simp only [workflow_detail, collection_member_entry, json_object,
        json_object_set_new_object, json_object_get_object]
      simp (disch := decide) only [lookupKey_setKeyOpt_same, lookupKey_setKeyOpt_ne,
        json_object_get_object, Option.orElse, hid]
  · intro k hk
    simp only [List.mem_cons, List.mem_singleton, List.not_mem_nil, or_false] at hk
    rcases hk with rfl | rfl | rfl | rfl | rfl
    all_goals
      simp only [workflow_detail, collection_member_entry, json_object,
        json_object_set_new_object, json_object_get_object]
      simp (disch := decide) only [lookupKey_setKeyOpt_same, lookupKey_setKeyOpt_ne,
        json_object_get_object, Option.orElse]
  · intro hbio
    have hsome : u.bio.isSome = true := by
      cases hb : u.bio with
      | none => exact absurd hb hbio
      | some b => rfl
    simp only [workflow_detail, collection_member_entry, json_object,
      json_object_set_new_object, json_object_get_object]
    simp (disch := decide) only [lookupKey_setKeyOpt_same, lookupKey_setKeyOpt_ne,
      json_object_get_object, Option.orElse, hsome, if_true]
  · intro h
    simp only [workflow_detail, collection_member_entry, json_object,
      json_object_set_new_object, json_object_get_object]
    simp (disch := decide) only [lookupKey_setKeyOpt_same, lookupKey_setKeyOpt_ne,
      json_object_get_object, arr _ h]
  · intro h
    simp only [workflow_detail, collection_member_entry, json_object,
      json_object_set_new_object, json_object_get_object]
    simp (disch := decide) only [lookupKey_setKeyOpt_same, lookupKey_setKeyOpt_ne,
      json_object_get_object, arr _ h]
  · simp only [collection_member_entry, json_object, json_object_set_new_object,
      json_object_get_object]
    simp (disch := decide) only [lookupKey_setKeyOpt_ne, lookupKey_nil]
  · simp only [collection_member_entry, json_object, json_object_set_new_object,
      json_object_get_object]
    simp (disch := decide) only [lookupKey_setKeyOpt_ne, lookupKey_nil]

theorem C10_witness :
    toInt32 sampleTemplate.id = sampleTemplate.id ∧
    json_object_get (some (collection_member_entry sampleLib sampleDb sampleTemplate sampleUser))
      "purchaseUrl" = none :=
  ⟨by decide, (C10_member_entry_flattens_detail sampleLib sampleDb sampleTemplate sampleUser
    (by decide)).2.2.2.2.2.2.2⟩

/-! ## The write path (C1 to C3) -/

theorem insert_or_ignore_template_category_frame (db : Db) (a b : Int) :
    (insert_or_ignore_template_category db a b).users = db.users ∧
    (insert_or_ignore_template_category db a b).templates = db.templates := by
  unfold insert_or_ignore_template_category
  split <;> exact ⟨rfl, rfl⟩

theorem link_categories_frame (template_id : Int) (entries : List Json) (db : Db) :
    (link_categories template_id entries db).users = db.users ∧
    (link_categories template_id entries db).templates = db.templates := by
  induction entries generalizing db with
  | nil => exact ⟨rfl, rfl⟩
  | cons e rest ih =>
    have hf := get_or_create_category_json_frame e db
    simp only [link_categories, get_or_create_category]
    split
    · obtain ⟨h1, h2⟩ := ih (insert_or_ignore_template_category
        (get_or_create_category_json e db).1 template_id (get_or_create_category_json e db).2)
      obtain ⟨h3, h4⟩ := insert_or_ignore_template_category_frame
        (get_or_create_category_json e db).1 template_id (get_or_create_category_json e db).2
      exact ⟨h1.trans (h3.trans hf.1), h2.trans (h4.trans hf.2.1)⟩
    · obtain ⟨h1, h2⟩ := ih (get_or_create_category_json e db).1
      exact ⟨h1.trans hf.1, h2.trans hf.2.1⟩

theorem insert_user_templates {db db1 : Db} {name username bio links avatar : String}
    {verified rowid : Int}
    (h : insert_user db name username bio verified links avatar = some (db1, rowid)) :
    db1.templates = db.templates := by
  unfold insert_user at h
  split at h
  · cases h
  · simp only [Option.some.injEq, Prod.mk.injEq] at h
    obtain ⟨h1, _⟩ := h
    subst h1
    rfl

theorem get_or_create_user_templates (E : Lib) (db : Db) (user_json : Option Json) :
    (get_or_create_user E db user_json).1.templates = db.templates := by
  unfold get_or_create_user
  split
  · rfl
  · simp only []
    split
    · rfl
    · split
      · rename_i h
        exact insert_user_templates h
      · rfl

theorem toInt32_of_range (x : Int) (h1 : -2147483648 ≤ x) (h2 : x < 2147483648) :
    toInt32 x = x := by
  unfold toInt32
  omega

theorem le_foldr_max (ids : List Int) (x : Int) (h : x ∈ ids) : x ≤ ids.foldr max 0 := by
  induction ids with
  | nil => cases h
  | cons a rest ih =>
    simp only [List.foldr_cons]
    rcases List.mem_cons.1 h with rfl | h'
    · exact le_max_left _ _
    · exact le_trans (ih h') (le_max_right _ _)

theorem foldr_max_le (ids : List Int) (b : Int) (hb : 0 ≤ b) (h : ∀ x ∈ ids, x ≤ b) :
    ids.foldr max 0 ≤ b := by
  induction ids with
  | nil => simpa using hb
  | cons a rest ih =>
    simp only [List.foldr_cons]
    exact max_le (h a (List.mem_cons_self _ _)) (ih (fun x hx => h x (List.mem_cons_of_mem _ hx)))

theorem foldr_max_nonneg (ids : List Int) : 0 ≤ ids.foldr max 0 := by
  induction ids with
  | nil => simp
  | cons a rest ih =>
    simp only [List.foldr_cons]
    exact le_trans ih (le_max_right _ _)

/-- The identifier returned by `get_or_create_user` for an object is the identifier of a
user row of the resulting store, provided the identifiers in use fit a C `int`. -/
theorem get_or_create_user_owner (E : Lib) (db : Db) (user_json : Option Json)
    (hobj : json_is_object user_json = true)
    (hstore : ∀ u ∈ db.users, -2147483648 ≤ u.id ∧ u.id < 2147483647) :
    ∃ u ∈ (get_or_create_user E db user_json).1.users,
      u.id = (get_or_create_user E db user_json).2 := by
  unfold get_or_create_user
  simp only [hobj, Bool.not_true, Bool.false_eq_true, if_false]
  cases hsel : select_user_id db "Default API User" with
  | some id =>
    simp only []
    unfold select_user_id at hsel
    cases hf : db.users.find? (fun u => u.username = some "Default API User") with
    | none => simp [hf] at hsel
    | some u =>
      simp only [hf, Option.map_some', Option.some.injEq] at hsel
      have hmem : u ∈ db.users := List.mem_of_find?_eq_some hf
      refine ⟨u, hmem, ?_⟩
      rw [← hsel, toInt32_of_range u.id (hstore u hmem).1 (by have := (hstore u hmem).2; omega)]
  | none =>
    simp only []
    have hany : db.users.any (fun u => u.username = some "Default API User") = false := by
      unfold select_user_id at hsel
      simp only [Option.map_eq_none', List.find?_eq_none] at hsel
      simp only [List.any_eq_false]
      intro u hu
      exact hsel u hu
    unfold insert_user
    simp only [hany, Bool.false_eq_true, if_false]
    refine ⟨_, List.mem_append_right _ (List.mem_singleton_self _), ?_⟩
    simp only []
    have hle : (db.users.map (fun u => u.id)).foldr max 0 ≤ 2147483646 := by
      apply foldr_max_le _ _ (by norm_num)
      intro x hx
      obtain ⟨u, hu, rfl⟩ := List.mem_map.1 hx
      have := (hstore u hu).2
      omega
    have hge := foldr_max_nonneg (db.users.map (fun u => u.id))
    rw [toInt32_of_range]
    · unfold nextRowid; omega
    · unfold nextRowid; omega

/-- A second resolution of the user, on any store with the users left by the first one,
returns the same identifier and changes nothing. -/
theorem get_or_create_user_again (E : Lib) (db db1 : Db) (user_json : Option Json)
    (hobj : json_is_object user_json = true)
    (husers : db1.users = (get_or_create_user E db user_json).1.users) :
    get_or_create_user E db1 user_json = (db1, (get_or_create_user E db user_json).2) := by
  unfold get_or_create_user at husers ⊢
  simp only [hobj, Bool.not_true, Bool.false_eq_true, if_false] at husers ⊢
  cases hsel : select_user_id db "Default API User" with
  | some id =>
    simp only [hsel] at husers ⊢
    have : select_user_id db1 "Default API User" = some id := by
      unfold select_user_id at hsel ⊢
      rw [husers]; exact hsel
    simp only [this]
  | none =>
    simp only [hsel] at husers ⊢
    have hnone : ∀ u ∈ db.users, ¬ (u.username = some "Default API User") := by
      unfold select_user_id at hsel
      simp only [Option.map_eq_none', List.find?_eq_none] at hsel
      intro u hu
      simpa using hsel u hu
    have hany : db.users.any (fun u => u.username = some "Default API User") = false := by
      simp only [List.any_eq_false]
      intro u hu
      simpa using hnone u hu
    unfold insert_user at husers ⊢
    simp only [hany, Bool.false_eq_true, if_false] at husers ⊢
    have : select_user_id db1 "Default API User"
        = some (nextRowid (db.users.map (fun u => u.id))) := by
      unfold select_user_id
      rw [husers, List.find?_append]
      have h0 : db.users.find? (fun u => decide (u.username = some "Default API User")) = none := by
        simp only [List.find?_eq_none]
        intro u hu
        simpa using hnone u hu
      simp [h0]
    simp only [this]

theorem create_result_tables (E : Lib) (db : Db) (request : Request)
    (hacc : (callback_create_workflow E db request).2.status = 201) :
    ∃ name description created_at nested,
      json_string_value
        (json_object_get (json_object_get request.json_body "workflow") "name") = some name ∧
      json_string_value
        (json_object_get (json_object_get request.json_body "workflow") "description")
          = some description ∧
      json_string_value
        (json_object_get (json_object_get request.json_body "workflow") "createdAt")
          = some created_at ∧
      json_object_get (json_object_get request.json_body "workflow") "workflow" = some nested ∧
      json_is_object (json_object_get (json_object_get request.json_body "workflow") "user")
        = true ∧
      (callback_create_workflow E db request).2 =
        ⟨201, .json (.object [("id", .integer
          (template_bindings E (json_object_get request.json_body "workflow") name
            description created_at nested
            (get_or_create_user E db
              (json_object_get (json_object_get request.json_body "workflow") "user")).2).id)])⟩ ∧
      (callback_create_workflow E db request).1.users =
        (get_or_create_user E db
          (json_object_get (json_object_get request.json_body "workflow") "user")).1.users ∧
      (callback_create_workflow E db request).1.templates =
        db.templates.filter (fun t => t.id ≠
          (template_bindings E (json_object_get request.json_body "workflow") name
            description created_at nested
            (get_or_create_user E db
              (json_object_get (json_object_get request.json_body "workflow") "user")).2).id) ++
        [template_bindings E (json_object_get request.json_body "workflow") name
            description created_at nested
            (get_or_create_user E db
              (json_object_get (json_object_get request.json_body "workflow") "user")).2] := by
  obtain ⟨name, description, created_at, nested, h1, h2, h3, h4, _, hobj, heq⟩ :=
    callback_create_workflow_accepted E db request hacc
  refine ⟨name, description, created_at, nested, h1, h2, h3, h4, hobj, ?_, ?_, ?_⟩
  · rw [heq]
  · rw [heq]
    simp only []
    split
    · rw [(link_categories_frame _ _ _).1]; rfl
    · rfl
  · rw [heq]
    simp only []
    split
    · rw [(link_categories_frame _ _ _).2]
      simp only [insert_or_replace_template, get_or_create_user_templates]
    · simp only [insert_or_replace_template, get_or_create_user_templates]

/-- C1, the code on a document without a positive identifier: whenever the write is
accepted and the identifier of the document, read as a C `int`, is absent or not positive,
the reply is the object whose only member is `id` with value 0, and the row is stored under the identifier 0, in place of any
row that held this identifier before.  The identifier is neither positive nor new. -/
theorem C1_document_without_identifier_is_stored_under_zero (E : Lib) (db : Db)
    (request : Request) (hacc : (callback_create_workflow E db request).2.status = 201)
    (hid : toInt32 (json_integer_value
      (json_object_get (json_object_get request.json_body "workflow") "id")) ≤ 0) :
    bodyJson (callback_create_workflow E db request).2 = some (.object [("id", .integer 0)]) ∧
    ∃ row : Template, row.id = 0 ∧
      (callback_create_workflow E db request).1.templates =
        db.templates.filter (fun t => t.id ≠ 0) ++ [row] := by
  obtain ⟨name, description, created_at, nested, _, _, _, _, _, hresp, _, htempl⟩ :=
    create_result_tables E db request hacc
  have hrow : (template_bindings E (json_object_get request.json_body "workflow") name
      description created_at nested
      (get_or_create_user E db
        (json_object_get (json_object_get request.json_body "workflow") "user")).2).id = 0 := by
    simp only [template_bindings, hid, if_true]
  rw [hrow] at hresp htempl
  exact ⟨by rw [hresp]; rfl, _, hrow, htempl⟩

theorem C1_witness :
    (callback_create_workflow sampleLib emptyDb (sampleWorkflowDoc [])).2.status = 201 ∧
    bodyJson (callback_create_workflow sampleLib emptyDb (sampleWorkflowDoc [])).2
      = some (.object [("id", .integer 0)]) ∧
    bodyJson (callback_create_workflow sampleLib
      (callback_create_workflow sampleLib emptyDb (sampleWorkflowDoc [])).1
      (sampleWorkflowDoc [])).2 = some (.object [("id", .integer 0)]) ∧
    ((callback_create_workflow sampleLib
      (callback_create_workflow sampleLib emptyDb (sampleWorkflowDoc [])).1
      (sampleWorkflowDoc [])).1.templates.map (fun t => t.id)) = [0] :=
  ⟨rfl,
    (C1_document_without_identifier_is_stored_under_zero sampleLib emptyDb (sampleWorkflowDoc [])
      rfl (by decide)).1,
    rfl, by decide⟩

theorem json_is_object_of_member {j : Option Json} {k : String} {v : Json}
    (h : json_object_get j k = some v) : json_is_object j = true := by
  cases j with
  | none => simp [json_object_get] at h
  | some w => cases w <;> simp_all [json_object_get, json_is_object]

theorem json_string_value_some {j : Option Json} {s : String}
    (h : json_string_value j = some s) : j = some (.string s) := by
  cases j with
  | none => simp [json_string_value] at h
  | some w => cases w <;> simp_all [json_string_value]

/-- The result of `callback_create_workflow` on a document that passes the checks. -/
theorem callback_create_workflow_of_fields (E : Lib) (db : Db) (request : Request)
    (name description created_at : String) (nested : Json)
    (h1 : json_string_value
      (json_object_get (json_object_get request.json_body "workflow") "name") = some name)
    (h2 : json_string_value
      (json_object_get (json_object_get request.json_body "workflow") "description")
        = some description)
    (h3 : json_string_value
      (json_object_get (json_object_get request.json_body "workflow") "createdAt")
        = some created_at)
    (h4 : json_object_get (json_object_get request.json_body "workflow") "workflow"
      = some nested)
    (hobj : json_is_object
      (json_object_get (json_object_get request.json_body "workflow") "user") = true)
    (hu : (get_or_create_user E db
      (json_object_get (json_object_get request.json_body "workflow") "user")).2 ≠ 0) :
    (callback_create_workflow E db request).2 =
      ⟨201, .json (.object [("id", .integer
        (template_bindings E (json_object_get request.json_body "workflow") name
          description created_at nested
          (get_or_create_user E db
            (json_object_get (json_object_get request.json_body "workflow") "user")).2).id)])⟩ ∧
    (callback_create_workflow E db request).1.users =
      (get_or_create_user E db
        (json_object_get (json_object_get request.json_body "workflow") "user")).1.users ∧
    (callback_create_workflow E db request).1.templates =
      db.templates.filter (fun t => t.id ≠
        (template_bindings E (json_object_get request.json_body "workflow") name
          description created_at nested
          (get_or_create_user E db
            (json_object_get (json_object_get request.json_body "workflow") "user")).2).id) ++
      [template_bindings E (json_object_get request.json_body "workflow") name
          description created_at nested
          (get_or_create_user E db
            (json_object_get (json_object_get request.json_body "workflow") "user")).2] := by
  have hW : json_is_object (json_object_get request.json_body "workflow") = true :=
    json_is_object_of_member h4
  unfold callback_create_workflow
  cases hb : request.json_body with
  | none => simp [hb, json_object_get, json_is_object] at hW
  | some json_body =>
    simp only [hb] at h1 h2 h3 h4 hobj hu hW ⊢
    simp only [hW, hobj, h1, h2, h3, h4, hu, Bool.not_true, Bool.or_self, Bool.false_eq_true,
      if_false, ite_zero_toInt32, insert_or_replace_template, ulfius_set_json_body_response,
      json_object, json_object_set_new, setKey, json_integer]
    refine ⟨trivial, ?_, ?_⟩
    · split
      · rw [(link_categories_frame _ _ _).1]
      · rfl
    · split
      · rw [(link_categories_frame _ _ _).2]
        simp only [get_or_create_user_templates]
      · simp only [get_or_create_user_templates]

/-- C2, counterexample: the accepted document with the positive identifier 4294967297 is
answered with the identifier 1, and the row is stored under the identifier 1. -/
theorem C2_counterexample :
    (callback_create_workflow sampleLib emptyDb
      (sampleWorkflowDoc [("id", .integer 4294967297)])).2.status = 201 ∧
    bodyJson (callback_create_workflow sampleLib emptyDb
      (sampleWorkflowDoc [("id", .integer 4294967297)])).2
      = some (.object [("id", .integer 1)]) ∧
    (callback_create_workflow sampleLib emptyDb
      (sampleWorkflowDoc [("id", .integer 4294967297)])).1.templates.map (fun t => t.id) = [1] :=
  ⟨rfl, rfl, by decide⟩

/-- C2, amended: for an accepted document whose identifier is a JSON integer `n` with
`0 < n < 2^31`, the reply is the object whose only member is `id` with value `n`; the
store then holds exactly one template row with identifier `n`, and this row carries the
submitted name, description and creation time, the two view counters reduced to a C
`int`, a price given as a JSON real (no price when the member is absent or null), a
purchase URL given as a string (none when absent or null), and the four payloads as
serialised by `json_dumps`; a second submission of the same document leaves the template
rows as they are after the first. -/
theorem C2_positive_identifier_upsert (E : Lib) (db : Db) (request : Request) (n : Int)
    (hacc : (callback_create_workflow E db request).2.status = 201)
    (hid : json_object_get (json_object_get request.json_body "workflow") "id"
      = some (.integer n))
    (hpos : 0 < n) (hlt : n < 2147483648) :
    bodyJson (callback_create_workflow E db request).2 = some (.object [("id", .integer n)]) ∧
    (∃ row : Template,
      (callback_create_workflow E db request).1.templates.filter (fun t => t.id = n) = [row] ∧
      row.name = json_string_value
        (json_object_get (json_object_get request.json_body "workflow") "name") ∧
      row.description = json_string_value
        (json_object_get (json_object_get request.json_body "workflow") "description") ∧
      row.created_at = json_string_value
        (json_object_get (json_object_get request.json_body "workflow") "createdAt") ∧
      row.total_views = some (toInt32 (json_integer_value
        (json_object_get (json_object_get request.json_body "workflow") "totalViews"))) ∧
      row.recent_views = some (toInt32 (json_integer_value
        (json_object_get (json_object_get request.json_body "workflow") "recentViews"))) ∧
      (∀ r, json_object_get (json_object_get request.json_body "workflow") "price"
        = some (.real r) → row.price = some r) ∧
      (json_object_get (json_object_get request.json_body "workflow") "price" = none ∨
        json_object_get (json_object_get request.json_body "workflow") "price" = some .null →
        row.price = none) ∧
      (∀ url, json_object_get (json_object_get request.json_body "workflow") "purchaseUrl"
        = some (.string url) → row.purchase_url = some url) ∧
      (json_object_get (json_object_get request.json_body "workflow") "purchaseUrl" = none ∨
        json_object_get (json_object_get request.json_body "workflow") "purchaseUrl"
          = some .null → row.purchase_url = none) ∧
      row.workflow_data =
        (json_object_get (json_object_get request.json_body "workflow") "workflow").bind
          E.json_dumps ∧
      row.workflow_info =
        (json_object_get (json_object_get request.json_body "workflow") "workflowInfo").bind
          E.json_dumps ∧
      row.nodes_data =
        (json_object_get (json_object_get request.json_body "workflow") "nodes").bind
          E.json_dumps ∧
      row.image_data =
        (json_object_get (json_object_get request.json_body "workflow") "image").bind
          E.json_dumps) ∧
    (callback_create_workflow E (callback_create_workflow E db request).1 request).1.templates =
      (callback_create_workflow E db request).1.templates := by
  obtain ⟨name, description, created_at, nested, h1, h2, h3, h4, hu, hobj, _⟩ :=
    callback_create_workflow_accepted E db request hacc
  obtain ⟨hresp, husers, htempl⟩ :=
    callback_create_workflow_of_fields E db request name description created_at nested
      h1 h2 h3 h4 hobj hu
  have hrow : (template_bindings E (json_object_get request.json_body "workflow") name
      description created_at nested
      (get_or_create_user E db
        (json_object_get (json_object_get request.json_body "workflow") "user")).2).id = n := by
    have h32 : toInt32 n = n := toInt32_of_range n (by omega) hlt
    have hn : ¬ n ≤ 0 := by omega
    simp only [template_bindings, hid, json_integer_value, h32, hn, if_false]
  have hagain := get_or_create_user_again E db (callback_create_workflow E db request).1
    (json_object_get (json_object_get request.json_body "workflow") "user") hobj husers
  have hu2 : (get_or_create_user E (callback_create_workflow E db request).1
      (json_object_get (json_object_get request.json_body "workflow") "user")).2 ≠ 0 := by
    rw [hagain]; exact hu
  obtain ⟨_, _, htempl2⟩ :=
    callback_create_workflow_of_fields E (callback_create_workflow E db request).1 request
      name description created_at nested h1 h2 h3 h4 hobj hu2
  obtain ⟨row, hdef⟩ : ∃ row, row = template_bindings E
      (json_object_get request.json_body "workflow") name description created_at nested
      (get_or_create_user E db
        (json_object_get (json_object_get request.json_body "workflow") "user")).2 := ⟨_, rfl⟩
  rw [hagain] at htempl2
  rw [← hdef] at hresp htempl hrow htempl2
  refine ⟨by rw [hresp, hrow]; rfl, ⟨row, ?_, ?_⟩, ?_⟩
  · rw [htempl, hrow]
    simp only [List.filter_append, List.filter_filter]
    simp [hrow]
  · subst hdef
    refine ⟨?_, ?_, ?_, ?_, ?_, ?_, ?_, ?_, ?_, ?_, ?_, ?_, ?_⟩
    · simp [template_bindings, h1]
    · simp [template_bindings, h2]
    · simp [template_bindings, h3]
    · simp [template_bindings]
    · simp [template_bindings]
    · intro r hr
      simp [template_bindings, hr, json_is_null, json_real_value]
    · intro hp
      rcases hp with hp | hp <;> simp [template_bindings, hp, json_is_null]
    · intro url hurl
      simp [template_bindings, hurl, json_is_null, json_string_value]
    · intro hp
      rcases hp with hp | hp <;> simp [template_bindings, hp, json_is_null]
    · simp [template_bindings, h4]
    · simp [template_bindings]
    · simp [template_bindings]
    · simp [template_bindings]
  · rw [htempl2, hrow, htempl, hrow]
    simp only [List.filter_append, List.filter_filter]
    simp [hrow]

theorem C2_witness :
    (callback_create_workflow sampleLib emptyDb (sampleWorkflowDoc [("id", .integer 5)])).2.status
      = 201 ∧
    bodyJson (callback_create_workflow sampleLib emptyDb
      (sampleWorkflowDoc [("id", .integer 5)])).2 = some (.object [("id", .integer 5)]) :=
  ⟨rfl, (C2_positive_identifier_upsert sampleLib emptyDb (sampleWorkflowDoc [("id", .integer 5)])
    5 rfl rfl (by decide) (by decide)).1⟩

/-- The row found by the statement of `callback_get_workflow_by_id` when the template
table ends with the only row holding the identifier and an owner row exists. -/
theorem select_template_after_replace (db : Db) (older : List Template) (row : Template)
    (uid : Int) (htempl : db.templates = older.filter (fun t => t.id ≠ row.id) ++ [row])
    (huid : row.user_id = some uid) (howner : ∃ u ∈ db.users, u.id = uid) :
    ∃ u, select_template db row.id = some (row, u) := by
  unfold select_template
  rw [htempl, List.flatMap_append, List.find?_append]
  have hnone : ((older.filter (fun t => t.id ≠ row.id)).flatMap (fun t =>
      (db.users.filter (fun u => t.user_id = some u.id)).map (fun u => (t, u)))).find?
      (fun r => r.1.id = row.id) = none := by
    simp only [List.find?_eq_none, List.mem_flatMap, List.mem_filter, List.mem_map]
    rintro ⟨t, u⟩ ⟨t', ⟨_, ht'⟩, u', _, heq⟩
    simp only [Prod.mk.injEq] at heq
    obtain ⟨rfl, rfl⟩ := heq
    simpa using ht'
  rw [hnone]
  simp only [Option.none_or, List.flatMap_cons, List.flatMap_nil, List.append_nil]
  obtain ⟨u, hu, hid⟩ := howner
  cases hf : (db.users.filter (fun u => row.user_id = some u.id)) with
  | nil =>
    have : u ∈ db.users.filter (fun u => row.user_id = some u.id) := by
      simp [List.mem_filter, hu, huid, hid]
    rw [hf] at this
    cases this
  | cons v rest =>
    exact ⟨v, by simp⟩

/-- C3: round trip of `nodes`.  When a document whose `nodes` member is the array value
`v` is accepted by createOrReplaceTemplate, and the library serialises `v` to a text that
it parses back to `v`, then getTemplateById, called with the identifier of the reply,
answers 200 with `nodes` equal to `v`.  The user identifiers in use are assumed to fit a
C `int`. -/
theorem C3_nodes_round_trip (E : Lib) (db : Db) (request : Request) (xs : List Json)
    (text id_str : String)
    (hstore : ∀ u ∈ db.users, -2147483648 ≤ u.id ∧ u.id < 2147483647)
    (hacc : (callback_create_workflow E db request).2.status = 201)
    (hnodes : json_object_get (json_object_get request.json_body "workflow") "nodes"
      = some (.array xs))
    (hdump : E.json_dumps (.array xs) = some text)
    (hload : E.json_loads text = some (.array xs))
    (hid : json_object_get (bodyJson (callback_create_workflow E db request).2) "id"
      = some (.integer (atoi id_str))) :
    (callback_get_workflow_by_id E (callback_create_workflow E db request).1
      ⟨[("id", id_str)], none⟩).status = 200 ∧
    json_object_get (bodyJson (callback_get_workflow_by_id E
      (callback_create_workflow E db request).1 ⟨[("id", id_str)], none⟩)) "nodes"
      = some (.array xs) := by
  obtain ⟨name, description, created_at, nested, h1, h2, h3, h4, hu, hobj, _⟩ :=
    callback_create_workflow_accepted E db request hacc
  obtain ⟨hresp, husers, htempl⟩ :=
    callback_create_workflow_of_fields E db request name description created_at nested
      h1 h2 h3 h4 hobj hu
  obtain ⟨row, hdef⟩ : ∃ row, row = template_bindings E
      (json_object_get request.json_body "workflow") name description created_at nested
      (get_or_create_user E db
        (json_object_get (json_object_get request.json_body "workflow") "user")).2 := ⟨_, rfl⟩
  rw [← hdef] at hresp htempl
  have hrid : atoi id_str = row.id := by
    rw [hresp] at hid
    simp only [bodyJson, json_object_get, lookupKey, if_true, Option.some.injEq,
      Json.integer.injEq] at hid
    exact hid.symm
  have huid : row.user_id = some (get_or_create_user E db
      (json_object_get (json_object_get request.json_body "workflow") "user")).2 := by
    rw [hdef]; rfl
  have hnd : row.nodes_data = some text := by
    rw [hdef]; simp [template_bindings, hnodes, hdump]
  have howner : ∃ u ∈ (callback_create_workflow E db request).1.users,
      u.id = (get_or_create_user E db
        (json_object_get (json_object_get request.json_body "workflow") "user")).2 := by
    rw [husers]
    exact get_or_create_user_owner E db _ hobj hstore
  obtain ⟨u, hsel⟩ := select_template_after_replace (callback_create_workflow E db request).1
    db.templates row _ htempl huid howner
  simp only [callback_get_workflow_by_id, u_map_get, if_true, hrid, hsel,
    ulfius_set_json_body_response, bodyJson]
  refine ⟨trivial, ?_⟩
  simp only [workflow_detail, json_object, json_object_set_new_object, json_object_get_object]
  simp (disch := decide) only [lookupKey_setKeyOpt_same, lookupKey_setKeyOpt_ne, hnd, hload,
    Option.isSome_some, json_is_array, Bool.and_self, if_true, Option.orElse]

theorem C3_witness :
    json_object_get (bodyJson (callback_get_workflow_by_id sampleLib
      (callback_create_workflow sampleLib emptyDb
        (sampleWorkflowDoc [("nodes", .array [.object [("a", .integer 1)]])])).1
      ⟨[("id", "0")], none⟩)) "nodes" = some (.array [.object [("a", .integer 1)]]) :=
  (C3_nodes_round_trip sampleLib emptyDb
    (sampleWorkflowDoc [("nodes", .array [.object [("a", .integer 1)]])])
    [.object [("a", .integer 1)]] "[\x7b\"a\":1\x7d]" "0"
    (by intro u hu; cases hu) rfl rfl rfl rfl rfl).2
/-! ## Search (C4 and C5) -/

theorem filter_id_eq_singleton (users : List User) (u : User)
    (hnodup : (users.map (fun v => v.id)).Nodup) (hu : u ∈ users) :
    users.filter (fun v => decide (u.id = v.id)) = [u] := by
  induction users with
  | nil => cases hu
  | cons a rest ih =>
    simp only [List.map_cons, List.nodup_cons, List.mem_map, not_exists, not_and] at hnodup
    rcases List.mem_cons.1 hu with rfl | hmem
    · have hrest : rest.filter (fun v => decide (u.id = v.id)) = [] := by
        simp only [List.filter_eq_nil_iff, decide_eq_true_eq]
        intro v hv heq
        exact hnodup.1 v hv heq.symm
      simp [List.filter_cons, hrest]
    · have hne : ¬ u.id = a.id := fun heq => hnodup.1 u hmem heq
      simp [List.filter_cons, hne, ih hnodup.2 hmem]

theorem find?_eq_head?_filter {α : Type} (p : α → Bool) (l : List α) :
    l.find? p = (l.filter p).head? := by
  induction l with
  | nil => rfl
  | cons a rest ih =>
    by_cases h : p a = true
    · rw [List.find?_cons_of_pos _ h, List.filter_cons_of_pos h]; rfl
    · rw [List.find?_cons_of_neg _ h, List.filter_cons_of_neg h]; exact ih

theorem owner_filter (db : Db) (t : Template)
    (hU : (db.users.map (fun u => u.id)).Nodup)
    (hfk : ∃ u ∈ db.users, t.user_id = some u.id) :
    db.users.filter (fun u => decide (t.user_id = some u.id)) = [owner_of db t] ∧
    owner_of db t ∈ db.users ∧ t.user_id = some (owner_of db t).id := by
  obtain ⟨u, hu, hid⟩ := hfk
  have hfilter : db.users.filter (fun v => decide (t.user_id = some v.id)) = [u] := by
    have := filter_id_eq_singleton db.users u hU hu
    rw [← this]
    apply List.filter_congr
    intro v _
    simp [hid]
  have hown : owner_of db t = u := by
    unfold owner_of
    have hfind : db.users.find? (fun v => decide (t.user_id = some v.id)) = some u := by
      rw [find?_eq_head?_filter, hfilter]; rfl
    rw [hfind]; rfl
  rw [hown]
  exact ⟨hfilter, hu, hid⟩

theorem search_matches_iff (E : Lib) (db : Db) (categories : List String)
    (pattern : Option String) (t : Template) :
    search_matches E db categories pattern t = true ↔
      (template_category_rows db categories t).filter
        (fun c => search_where E categories pattern t c) ≠ [] := by
  unfold search_matches
  rw [List.any_eq_true, Ne, List.filter_eq_nil_iff]
  simp

/-- The rows of the main statement before the window is cut: one row per matching
template, joined with its owner, in descending order of identifier. -/
theorem search_main_rows (E : Lib) (db : Db) (categories : List String)
    (pattern : Option String) (limit offset : Int)
    (hT : (db.templates.map (fun t => t.id)).Nodup)
    (hU : (db.users.map (fun u => u.id)).Nodup)
    (hFK : ∀ t ∈ db.templates, ∃ u ∈ db.users, t.user_id = some u.id) :
    search_main E db categories pattern limit offset =
      (limitOffset limit offset
        (sort_by_id_desc (db.templates.filter (search_matches E db categories pattern)))).map
        (fun t => search_row t (owner_of db t)) := by
  have hTn : db.templates.Nodup := List.Nodup.of_map _ hT
  have hinj : ∀ x ∈ db.templates, ∀ y ∈ db.templates, x.id = y.id → x = y :=
    List.inj_on_of_nodup_map hT
  have hmemraw : ∀ r, r ∈ db.templates.flatMap (fun t =>
      (db.users.filter (fun u => t.user_id = some u.id)).flatMap (fun u =>
        ((template_category_rows db categories t).filter
          (fun c => search_where E categories pattern t c)).map (fun _ => search_row t u))) ↔
      ∃ t ∈ db.templates, search_matches E db categories pattern t = true ∧
        r = search_row t (owner_of db t) := by
    intro r
    simp only [List.mem_flatMap, List.mem_map]
    constructor
    · rintro ⟨t, ht, u, hu, c, hc, rfl⟩
      rw [(owner_filter db t hU (hFK t ht)).1, List.mem_singleton] at hu
      subst hu
      refine ⟨t, ht, ?_, rfl⟩
      rw [search_matches_iff]
      exact List.ne_nil_of_mem hc
    · rintro ⟨t, ht, hm, rfl⟩
      rw [search_matches_iff] at hm
      obtain ⟨c, hc⟩ := List.exists_mem_of_ne_nil _ hm
      refine ⟨t, ht, owner_of db t, ?_, c, hc, rfl⟩
      rw [(owner_filter db t hU (hFK t ht)).1]
      exact List.mem_singleton_self _
  have hnodup : ((db.templates.filter (search_matches E db categories pattern)).map
      (fun t => search_row t (owner_of db t))).Nodup := by
    apply List.Nodup.map_on _ (hTn.filter _)
    intro x hx y hy hxy
    have : x.id = y.id := congrArg SearchRow.t_id hxy
    exact hinj x (List.mem_of_mem_filter hx) y (List.mem_of_mem_filter hy) this
  have hperm : List.Perm
      (db.templates.flatMap (fun t =>
        (db.users.filter (fun u => t.user_id = some u.id)).flatMap (fun u =>
          ((template_category_rows db categories t).filter
            (fun c => search_where E categories pattern t c)).map
              (fun _ => search_row t u)))).dedup
      ((db.templates.filter (search_matches E db categories pattern)).map
        (fun t => search_row t (owner_of db t))) := by
    rw [List.perm_ext_iff_of_nodup (List.nodup_dedup _) hnodup]
    intro r
    rw [List.mem_dedup, hmemraw]
    simp only [List.mem_map, List.mem_filter]
    constructor
    · rintro ⟨t, ht, hm, rfl⟩
      exact ⟨t, ⟨ht, hm⟩, rfl⟩
    · rintro ⟨t, ⟨ht, hm⟩, rfl⟩
      exact ⟨t, ht, hm, rfl⟩
  haveI : IsTotal SearchRow (fun a b => a.t_id ≥ b.t_id) := ⟨fun a b => le_total _ _⟩
  haveI : IsTrans SearchRow (fun a b => a.t_id ≥ b.t_id) :=
    ⟨fun a b c hab hbc => le_trans hbc hab⟩
  have hsorted : (db.templates.flatMap (fun t =>
        (db.users.filter (fun u => t.user_id = some u.id)).flatMap (fun u =>
          ((template_category_rows db categories t).filter
            (fun c => search_where E categories pattern t c)).map
              (fun _ => search_row t u)))).dedup.insertionSort (fun a b => a.t_id ≥ b.t_id) =
      ((db.templates.filter (search_matches E db categories pattern)).map
        (fun t => search_row t (owner_of db t))).insertionSort (fun a b => a.t_id ≥ b.t_id) := by
    apply List.Perm.eq_of_sorted _ (List.sorted_insertionSort _ _) (List.sorted_insertionSort _ _)
      (((List.perm_insertionSort _ _).trans hperm).trans (List.perm_insertionSort _ _).symm)
    intro a b ha hb hab hba
    rw [List.mem_insertionSort, List.mem_dedup, hmemraw] at ha
    rw [List.mem_insertionSort, List.mem_map] at hb
    obtain ⟨ta, hta, _, rfl⟩ := ha
    obtain ⟨tb, htb, rfl⟩ := hb
    have hid : ta.id = tb.id := le_antisymm hba hab
    rw [hinj ta hta tb (List.mem_of_mem_filter htb) hid]
  unfold search_main
  simp only []
  rw [hsorted, ← List.map_insertionSort (fun a b : Template => a.id ≥ b.id)
    (fun a b : SearchRow => a.t_id ≥ b.t_id) (fun t => search_row t (owner_of db t)) _
    (fun a _ b _ => Iff.rfl)]
  unfold limitOffset sort_by_id_desc
  simp only []
  split
  · rw [List.map_drop]
  · rw [List.map_take, List.map_drop]

theorem search_count_eq (E : Lib) (db : Db) (categories : List String)
    (pattern : Option String)
    (hT : (db.templates.map (fun t => t.id)).Nodup) :
    search_count E db categories pattern =
      ((db.templates.filter (search_matches E db categories pattern)).length : Nat) := by
  unfold search_count
  congr 1
  have hnodup : ((db.templates.filter (search_matches E db categories pattern)).map
      (fun t => t.id)).Nodup :=
    (List.Nodup.sublist ((List.filter_sublist _).map _) hT)
  have hperm : List.Perm (db.templates.flatMap (fun t =>
      ((template_category_rows db categories t).filter
        (fun c => search_where E categories pattern t c)).map (fun _ => t.id))).dedup
      ((db.templates.filter (search_matches E db categories pattern)).map (fun t => t.id)) := by
    rw [List.perm_ext_iff_of_nodup (List.nodup_dedup _) hnodup]
    intro a
    simp only [List.mem_dedup, List.mem_flatMap, List.mem_map, List.mem_filter]
    constructor
    · rintro ⟨t, ht, c, ⟨hc, hw⟩, rfl⟩
      refine ⟨t, ⟨ht, ?_⟩, rfl⟩
      unfold search_matches
      rw [List.any_eq_true]
      exact ⟨c, hc, hw⟩
    · rintro ⟨t, ⟨ht, hm⟩, rfl⟩
      unfold search_matches at hm
      rw [List.any_eq_true] at hm
      obtain ⟨c, hc, hw⟩ := hm
      exact ⟨t, ht, c, ⟨hc, hw⟩, rfl⟩
  rw [hperm.length_eq, List.length_map]

/-- The joins and the where clause select the templates that match the filters in the
sense of the spec. -/
theorem search_matches_eq_template_matches (E : Lib) (db : Db) (categories : List String)
    (pattern : Option String) (t : Template) :
    search_matches E db categories pattern t = template_matches E db categories pattern t := by
  rw [Bool.eq_iff_iff]
  unfold search_matches template_matches template_category_rows
  cases categories with
  | nil => simp [search_where]
  | cons a rest =>
    simp [search_where, linked_to_category]
    constructor
    · rintro ⟨tid, cid, htc, rfl, c, ⟨hc, rfl⟩, hname, hsearch⟩
      refine ⟨?_, hsearch⟩
      cases hn : c.name with
      | none => simp [hn] at hname
      | some n =>
        simp only [hn, Bool.or_eq_true, decide_eq_true_eq] at hname
        rcases hname with rfl | hmem
        · exact Or.inl ⟨c, hc, hn, htc⟩
        · exact Or.inr ⟨n, hmem, c, hc, hn, htc⟩
    · rintro ⟨hcat, hsearch⟩
      rcases hcat with ⟨c, hc, hname, hlink⟩ | ⟨n, hmem, c, hc, hname, hlink⟩
      · exact ⟨t.id, c.id, hlink, rfl, c, ⟨hc, rfl⟩, by simp [hname], hsearch⟩
      · exact ⟨t.id, c.id, hlink, rfl, c, ⟨hc, rfl⟩, by simp [hname, hmem], hsearch⟩

theorem get_int_param_pos (request : Request) (param_name : String) (default_value : Int)
    (h : 0 < default_value) : 0 < get_int_param request param_name default_value := by
  unfold get_int_param
  split
  · split
    · simp only []
      split
      · assumption
      · exact h
    · exact h
  · exact h

theorem search_limit_bounds (request : Request) :
    0 < search_limit request ∧ search_limit request ≤ 100 := by
  have := get_int_param_pos request "limit" 20 (by decide)
  unfold search_limit
  simp only []
  split <;> omega

theorem limitOffset_map {α β : Type} (f : α → β) (limit offset : Int) (rows : List α) :
    limitOffset limit offset (rows.map f) = (limitOffset limit offset rows).map f := by
  unfold limitOffset
  simp only []
  split
  · rw [List.map_drop]
  · rw [List.map_take, List.map_drop]

/-- The reply of `callback_search_templates` on a store whose template and user
identifiers are unique and whose templates all have an owner: the number of templates
matching the filters, and the window cut by the limit and offset of the request out of
the matching templates in descending order of identifier. -/
theorem search_response (E : Lib) (db : Db) (request : Request)
    (hT : (db.templates.map (fun t => t.id)).Nodup)
    (hU : (db.users.map (fun u => u.id)).Nodup)
    (hFK : ∀ t ∈ db.templates, ∃ u ∈ db.users, t.user_id = some u.id)
    (hlen : db.templates.length < 2147483648) :
    callback_search_templates E db request =
      ⟨200, .json (.object [
        ("totalWorkflows", .integer ((db.templates.filter (template_matches E db
          (parse_categories (u_map_get request.map_url "category"))
          (search_pattern (u_map_get request.map_url "search")))).length : Nat)),
        ("workflows", .array ((limitOffset (search_limit request) (search_offset request)
          (sort_by_id_desc (db.templates.filter (template_matches E db
            (parse_categories (u_map_get request.map_url "category"))
            (search_pattern (u_map_get request.map_url "search")))))).map
          (fun t => search_entry E (search_row t (owner_of db t)))))])⟩ := by
  have hfun : search_matches E db (parse_categories (u_map_get request.map_url "category"))
      (search_pattern (u_map_get request.map_url "search")) =
      template_matches E db (parse_categories (u_map_get request.map_url "category"))
      (search_pattern (u_map_get request.map_url "search")) :=
    funext (search_matches_eq_template_matches E db _ _)
  have hcount : toInt32 (search_count E db
      (parse_categories (u_map_get request.map_url "category"))
      (search_pattern (u_map_get request.map_url "search"))) =
      ((db.templates.filter (template_matches E db
        (parse_categories (u_map_get request.map_url "category"))
        (search_pattern (u_map_get request.map_url "search")))).length : Nat) := by
    rw [search_count_eq E db _ _ hT, hfun]
    have hle := List.length_filter_le (template_matches E db
      (parse_categories (u_map_get request.map_url "category"))
      (search_pattern (u_map_get request.map_url "search"))) db.templates
    apply toInt32_of_range <;> omega
  unfold callback_search_templates
  simp only [hcount, search_main_rows E db _ _ _ _ hT hU hFK, hfun, List.map_map,
    ulfius_set_json_body_response, json_object, json_object_set_new, setKey, json_integer]
  rfl

/-- C5: category disjunction.  On a store whose template and user identifiers are unique
and whose templates all have an owner, a search whose category filter names `A` and `B`
(and no search term) reports as `totalWorkflows` the number of templates linked to a
category named `A` or to one named `B`, and lists as `workflows` the window of the request
over exactly these templates, in descending order of identifier, each template once;
without a `page` parameter the window starts at the first of them. -/
theorem C5_category_filter_is_union (E : Lib) (db : Db) (request : Request) (A B : String)
    (hT : (db.templates.map (fun t => t.id)).Nodup)
    (hU : (db.users.map (fun u => u.id)).Nodup)
    (hFK : ∀ t ∈ db.templates, ∃ u ∈ db.users, t.user_id = some u.id)
    (hlen : db.templates.length < 2147483648)
    (hcat : parse_categories (u_map_get request.map_url "category") = [A, B])
    (hsearch : search_pattern (u_map_get request.map_url "search") = none) :
    callback_search_templates E db request =
      ⟨200, .json (.object [
        ("totalWorkflows", .integer ((db.templates.filter
          (fun t => linked_to_category db t A || linked_to_category db t B)).length : Nat)),
        ("workflows", .array ((limitOffset (search_limit request) (search_offset request)
          (sort_by_id_desc (db.templates.filter
            (fun t => linked_to_category db t A || linked_to_category db t B)))).map
          (fun t => search_entry E (search_row t (owner_of db t)))))])⟩ ∧
    ((limitOffset (search_limit request) (search_offset request)
      (sort_by_id_desc (db.templates.filter
        (fun t => linked_to_category db t A || linked_to_category db t B)))).map
      (fun t => t.id)).Nodup ∧
    (u_map_get request.map_url "page" = none → search_offset request = 0) := by
  have hfun : template_matches E db [A, B] none =
      (fun t => linked_to_category db t A || linked_to_category db t B) := by
    funext t
    simp [template_matches]
  refine ⟨?_, ?_, ?_⟩
  · rw [search_response E db request hT hU hFK hlen, hcat, hsearch, hfun]
  · have hsub : List.Sublist (limitOffset (search_limit request) (search_offset request)
        (sort_by_id_desc (db.templates.filter
          (fun t => linked_to_category db t A || linked_to_category db t B))))
        (sort_by_id_desc (db.templates.filter
          (fun t => linked_to_category db t A || linked_to_category db t B))) := by
      unfold limitOffset
      simp only []
      split
      · exact List.drop_sublist _ _
      · exact (List.take_sublist _ _).trans (List.drop_sublist _ _)
    have hperm : List.Perm (sort_by_id_desc (db.templates.filter
        (fun t => linked_to_category db t A || linked_to_category db t B)))
        (db.templates.filter
          (fun t => linked_to_category db t A || linked_to_category db t B)) :=
      List.perm_insertionSort _ _
    have hnd : ((db.templates.filter
        (fun t => linked_to_category db t A || linked_to_category db t B)).map
        (fun t => t.id)).Nodup := List.Nodup.sublist ((List.filter_sublist _).map _) hT
    exact List.Nodup.sublist (hsub.map _) (((hperm.map _).nodup_iff).2 hnd)
  · intro hpage
    simp [search_offset, get_int_param, hpage, toInt32]

theorem C5_witness :
    parse_categories (u_map_get [("category", "A,B")] "category") = ["A", "B"] ∧
    json_object_get (bodyJson (callback_search_templates sampleLib unionDb
      ⟨[("category", "A,B")], none⟩)) "totalWorkflows" = some (.integer 3) ∧
    (limitOffset (search_limit ⟨[("category", "A,B")], none⟩)
      (search_offset ⟨[("category", "A,B")], none⟩)
      (sort_by_id_desc (unionDb.templates.filter
        (fun t => linked_to_category unionDb t "A" || linked_to_category unionDb t "B")))).map
      (fun t => t.id) = [3, 2, 1] :=
  ⟨by decide,
    by rw [(C5_category_filter_is_union sampleLib unionDb ⟨[("category", "A,B")], none⟩ "A" "B"
      (by decide) (by decide) (by decide) (by decide) (by decide) (by decide)).1]; rfl,
    by decide⟩

/-- C4, evaluation at the failing input: with `page=21474838` and `limit=100` the product
`(page - 1) * limit` is 2147483700, which does not fit a C `int`; the offset bound to the
statement is negative, the store treats it as zero, and the reply lists the matching
template of `sampleDb`, although the slice at offset 2147483700 of its one matching
template is empty. -/
theorem C4_offset_overflow_returns_first_page :
    search_limit ⟨[("page", "21474838"), ("limit", "100")], none⟩ = 100 ∧
    (get_int_param ⟨[("page", "21474838"), ("limit", "100")], none⟩ "page" 1 - 1) * 100
      = 2147483700 ∧
    search_offset ⟨[("page", "21474838"), ("limit", "100")], none⟩ = -2147483596 ∧
    json_object_get (bodyJson (callback_search_templates sampleLib sampleDb
      ⟨[("page", "21474838"), ("limit", "100")], none⟩)) "totalWorkflows"
      = some (.integer 1) ∧
    json_object_get (json_array_get (json_object_get (bodyJson
      (callback_search_templates sampleLib sampleDb
        ⟨[("page", "21474838"), ("limit", "100")], none⟩)) "workflows") 0) "id"
      = some (.integer 1) ∧
    ((sort_by_id_desc (sampleDb.templates.filter
      (template_matches sampleLib sampleDb [] none))).drop 2147483700).take 100 = [] :=
  ⟨by decide, by decide, by decide, rfl, rfl, by decide⟩

/-- Pagination when the offset fits a C `int`: on a store whose template and user
identifiers are unique and whose templates all have an owner, `totalWorkflows` is the
number of templates matching the filters, whatever the page and the limit, and
`workflows` is the slice of at most `limit` rows starting at offset `(page - 1) * limit`
of the matching templates in descending order of identifier. -/
theorem search_page_without_overflow (E : Lib) (db : Db) (request : Request)
    (hT : (db.templates.map (fun t => t.id)).Nodup)
    (hU : (db.users.map (fun u => u.id)).Nodup)
    (hFK : ∀ t ∈ db.templates, ∃ u ∈ db.users, t.user_id = some u.id)
    (hlen : db.templates.length < 2147483648)
    (hfit : (get_int_param request "page" 1 - 1) * search_limit request < 2147483648) :
    callback_search_templates E db request =
      ⟨200, .json (.object [
        ("totalWorkflows", .integer ((db.templates.filter (template_matches E db
          (parse_categories (u_map_get request.map_url "category"))
          (search_pattern (u_map_get request.map_url "search")))).length : Nat)),
        ("workflows", .array ((((sort_by_id_desc (db.templates.filter (template_matches E db
            (parse_categories (u_map_get request.map_url "category"))
            (search_pattern (u_map_get request.map_url "search"))))).drop
            ((get_int_param request "page" 1 - 1) * search_limit request).toNat).take
            (search_limit request).toNat).map
          (fun t => search_entry E (search_row t (owner_of db t)))))])⟩ := by
  have hpage := get_int_param_pos request "page" 1 (by decide)
  have hlim := search_limit_bounds request
  have hoff : search_offset request = (get_int_param request "page" 1 - 1) * search_limit request := by
    unfold search_offset
    simp only []
    apply toInt32_of_range _ _ hfit
    have : 0 ≤ (get_int_param request "page" 1 - 1) * search_limit request :=
      Int.mul_nonneg (by omega) (by omega)
    omega
  rw [search_response E db request hT hU hFK hlen, hoff]
  unfold limitOffset
  have hneg : ¬ search_limit request < 0 := by omega
  simp only [hneg, if_false]

theorem search_page_without_overflow_witness :
    json_object_get (bodyJson (callback_search_templates sampleLib unionDb
      ⟨[("page", "2"), ("limit", "3")], none⟩)) "totalWorkflows" = some (.integer 4) :=
  by rw [search_page_without_overflow sampleLib unionDb ⟨[("page", "2"), ("limit", "3")], none⟩
    (by decide) (by decide) (by decide) (by decide) (by decide)]; rfl

/-! ## Collection membership (C11 and C12) -/

/-- The result of `callback_add_workflow_to_collection` on a body with two integers. -/
theorem callback_add_workflow_to_collection_of_integers (db : Db) (request : Request)
    (c t : Int)
    (hc : json_object_get request.json_body "collectionId" = some (.integer c))
    (ht : json_object_get request.json_body "templateId" = some (.integer t)) :
    callback_add_workflow_to_collection db request =
      if collection_exists db (toInt32 c) = false then
        (db, ⟨404, .text "Collection not found"⟩)
      else if template_exists db (toInt32 t) = false then
        (db, ⟨404, .text "Template not found"⟩)
      else if (toInt32 c, toInt32 t) ∈ db.collection_workflows then
        (db, ⟨200, .json (link_reply "Workflow already exists in collection"
          (toInt32 c) (toInt32 t))⟩)
      else
        ({ db with collection_workflows :=
            db.collection_workflows ++ [(toInt32 c, toInt32 t)] },
          ⟨200, .json (link_reply "Workflow added to collection successfully"
            (toInt32 c) (toInt32 t))⟩) := by
  unfold callback_add_workflow_to_collection
  cases hb : request.json_body with
  | none => simp [hb, json_object_get] at hc
  | some json_body =>
    simp only [hb] at hc ht ⊢
    simp only [hc, ht, json_is_integer, json_integer_value, Bool.not_true, Bool.or_self,
      Bool.false_eq_true, if_false, ulfius_set_string_body_response,
      ulfius_set_json_body_response, insert_or_ignore_collection_workflow]
    cases h1 : collection_exists db (toInt32 c) with
    | false => simp
    | true =>
      cases h2 : template_exists db (toInt32 t) with
      | false => simp
      | true =>
        by_cases h3 : (toInt32 c, toInt32 t) ∈ db.collection_workflows
        · simp [h3]
        · simp [h3]

theorem filter_eq_length_one {α : Type} [DecidableEq α] (l : List α) (a : α)
    (hnd : l.Nodup) (h : a ∈ l) : (l.filter (fun x => decide (x = a))).length = 1 := by
  induction l with
  | nil => cases h
  | cons b rest ih =>
    rw [List.nodup_cons] at hnd
    by_cases hab : b = a
    · subst hab
      have hnil : rest.filter (fun x => decide (x = b)) = [] := by
        rw [List.filter_eq_nil_iff]
        intro x hx heq
        simp only [decide_eq_true_eq] at heq
        exact hnd.1 (heq ▸ hx)
      simp [List.filter_cons, hnil]
    · have hmem : a ∈ rest := by
        rcases List.mem_cons.1 h with heq | hmem
        · exact absurd heq.symm hab
        · exact hmem
      simp [List.filter_cons, hab, ih hnd.2 hmem]

/-- C11: for an existing collection `c` and an existing template `t` (identifiers that
fit a C `int`), two calls of addWorkflowToCollection with the pair both answer 200; the
first reports the newly added message when the pair was not linked, the second reports the
already-exists message, and the join relation, free of duplicate rows before the calls,
then holds exactly one row for the pair. -/
theorem C11_add_workflow_twice (db : Db) (request : Request) (c t : Int)
    (hc : json_object_get request.json_body "collectionId" = some (.integer c))
    (ht : json_object_get request.json_body "templateId" = some (.integer t))
    (hcfit : toInt32 c = c) (htfit : toInt32 t = t)
    (hcol : ∃ row ∈ db.collections, row.id = c)
    (htem : ∃ row ∈ db.templates, row.id = t)
    (hnd : db.collection_workflows.Nodup) :
    (callback_add_workflow_to_collection db request).2.status = 200 ∧
    (callback_add_workflow_to_collection
      (callback_add_workflow_to_collection db request).1 request).2.status = 200 ∧
    ((c, t) ∉ db.collection_workflows →
      json_object_get (bodyJson (callback_add_workflow_to_collection db request).2) "message"
        = some (.string "Workflow added to collection successfully")) ∧
    json_object_get (bodyJson (callback_add_workflow_to_collection
      (callback_add_workflow_to_collection db request).1 request).2) "message"
        = some (.string "Workflow already exists in collection") ∧
    ((callback_add_workflow_to_collection
      (callback_add_workflow_to_collection db request).1 request).1.collection_workflows.filter
        (fun pair => pair = (c, t))).length = 1 := by
  have hce : collection_exists db c = true := by
    obtain ⟨row, hrow, hid⟩ := hcol
    unfold collection_exists
    rw [List.any_eq_true]
    exact ⟨row, hrow, by simp [hid]⟩
  have hte : template_exists db t = true := by
    obtain ⟨row, hrow, hid⟩ := htem
    unfold template_exists
    rw [List.any_eq_true]
    exact ⟨row, hrow, by simp [hid]⟩
  have hmsg : ∀ m a b, json_object_get (some (link_reply m a b)) "message"
      = some (.string m) := by
    intro m a b
    simp only [link_reply, json_object, json_object_set_new_object, json_object_get_object]
    simp (disch := decide) only [lookupKey_setKeyOpt_same, lookupKey_setKeyOpt_ne,
      json_string, Option.orElse]
  by_cases hin : (c, t) ∈ db.collection_workflows
  · have h1 : callback_add_workflow_to_collection db request =
        (db, ⟨200, .json (link_reply "Workflow already exists in collection" c t)⟩) := by
      rw [callback_add_workflow_to_collection_of_integers db request c t hc ht]
      simp [hcfit, htfit, hce, hte, hin]
    rw [h1]
    simp only [h1]
    refine ⟨trivial, trivial, fun h => absurd hin h, ?_, ?_⟩
    · exact hmsg _ _ _
    · exact filter_eq_length_one _ _ hnd hin
  · have h1 : callback_add_workflow_to_collection db request =
        ({ db with collection_workflows := db.collection_workflows ++ [(c, t)] },
          ⟨200, .json (link_reply "Workflow added to collection successfully" c t)⟩) := by
      rw [callback_add_workflow_to_collection_of_integers db request c t hc ht]
      simp [hcfit, htfit, hce, hte, hin]
    have h2 : callback_add_workflow_to_collection
        { db with collection_workflows := db.collection_workflows ++ [(c, t)] } request =
        ({ db with collection_workflows := db.collection_workflows ++ [(c, t)] },
          ⟨200, .json (link_reply "Workflow already exists in collection" c t)⟩) := by
      rw [callback_add_workflow_to_collection_of_integers _ request c t hc ht]
      have hce2 : collection_exists
          { db with collection_workflows := db.collection_workflows ++ [(c, t)] } c = true := hce
      have hte2 : template_exists
          { db with collection_workflows := db.collection_workflows ++ [(c, t)] } t = true := hte
      simp [hcfit, htfit, hce2, hte2]
    rw [h1]
    simp only [h2]
    refine ⟨trivial, trivial, fun _ => hmsg _ _ _, hmsg _ _ _, ?_⟩
    have hzero : db.collection_workflows.filter (fun pair => decide (pair = (c, t))) = [] := by
      rw [List.filter_eq_nil_iff]
      intro p hp heq
      simp only [decide_eq_true_eq] at heq
      exact hin (heq ▸ hp)
    simp only [List.filter_append, hzero]
    simp

theorem C11_witness :
    json_object_get (bodyJson (callback_add_workflow_to_collection unlinkedDb
      (sampleLinkRequest 1 1)).2) "message"
      = some (.string "Workflow added to collection successfully") ∧
    (callback_add_workflow_to_collection
      (callback_add_workflow_to_collection unlinkedDb (sampleLinkRequest 1 1)).1
      (sampleLinkRequest 1 1)).1.collection_workflows = [(1, 1)] :=
  ⟨(C11_add_workflow_twice unlinkedDb (sampleLinkRequest 1 1) 1 1 rfl rfl (by decide)
    (by decide) (by decide) (by decide) (by decide)).2.2.1 (by decide), by decide⟩

/-- C12, counterexample: with collection 1 and template 1 in the store and no collection
row holding the identifier 4294967297, the body with `collectionId` 4294967297 and
`templateId` 1 is answered 200 and the join row for the pair (1, 1) is inserted. -/
theorem C12_counterexample :
    collection_exists unlinkedDb 4294967297 = false ∧
    (callback_add_workflow_to_collection unlinkedDb (sampleLinkRequest 4294967297 1)).2.status
      = 200 ∧
    (callback_add_workflow_to_collection unlinkedDb
      (sampleLinkRequest 4294967297 1)).1.collection_workflows = [(1, 1)] :=
  ⟨by decide, by decide, by decide⟩

/-- C12, amended: for a body whose `collectionId` and `templateId` are integers that fit a
C `int`, addWorkflowToCollection answers 404 exactly when the collection row or the
template row does not exist; the collection is probed first, so a missing collection is
reported as such whatever the template; and a 404 leaves the store as it was. -/
theorem C12_not_found_leaves_store (db : Db) (request : Request) (c t : Int)
    (hc : json_object_get request.json_body "collectionId" = some (.integer c))
    (ht : json_object_get request.json_body "templateId" = some (.integer t))
    (hcfit : toInt32 c = c) (htfit : toInt32 t = t) :
    ((callback_add_workflow_to_collection db request).2.status = 404 ↔
      (collection_exists db c = false ∨ template_exists db t = false)) ∧
    (collection_exists db c = false →
      (callback_add_workflow_to_collection db request).2
        = ⟨404, .text "Collection not found"⟩) ∧
    (collection_exists db c = true → template_exists db t = false →
      (callback_add_workflow_to_collection db request).2
        = ⟨404, .text "Template not found"⟩) ∧
    ((callback_add_workflow_to_collection db request).2.status = 404 →
      (callback_add_workflow_to_collection db request).1 = db) := by
  rw [callback_add_workflow_to_collection_of_integers db request c t hc ht, hcfit, htfit]
  cases h1 : collection_exists db c with
  | false => simp
  | true =>
    cases h2 : template_exists db t with
    | false => simp
    | true =>
      by_cases h3 : (c, t) ∈ db.collection_workflows <;> simp [h3]

theorem C12_witness :
    (callback_add_workflow_to_collection unlinkedDb (sampleLinkRequest 7 1)).2
      = ⟨404, .text "Collection not found"⟩ :=
  (C12_not_found_leaves_store unlinkedDb (sampleLinkRequest 7 1) 7 1 rfl rfl (by decide)
    (by decide)).2.1 (by decide)


/-! ## Validation and category links of the template write (C13 and C14) -/

/-- C13: createOrReplaceTemplate answers 400 when `workflow` is not an object, when
`workflow.user` is not an object, or when one of the strings `name`, `description`,
`createdAt` or the nested `workflow` document is missing, and in each of these cases the
store is the one it was given. -/
theorem C13_validation_error_leaves_store (E : Lib) (db : Db) (request : Request)
    (h : json_is_object (json_object_get request.json_body "workflow") = false ∨
      json_is_object
        (json_object_get (json_object_get request.json_body "workflow") "user") = false ∨
      json_string_value
        (json_object_get (json_object_get request.json_body "workflow") "name") = none ∨
      json_string_value
        (json_object_get (json_object_get request.json_body "workflow") "description") = none ∨
      json_string_value
        (json_object_get (json_object_get request.json_body "workflow") "createdAt") = none ∨
      json_object_get (json_object_get request.json_body "workflow") "workflow" = none) :
    (callback_create_workflow E db request).2.status = 400 ∧
    (callback_create_workflow E db request).1 = db := by
  unfold callback_create_workflow
  cases hb : request.json_body with
  | none => exact ⟨rfl, rfl⟩
  | some json_body =>
    simp only [hb] at h ⊢
    by_cases hobj : (!json_is_object (json_object_get (some json_body) "workflow") ||
        !json_is_object
          (json_object_get (json_object_get (some json_body) "workflow") "user")) = true
    · rw [if_pos hobj]
      exact ⟨rfl, rfl⟩
    · rw [if_neg hobj]
      have hobj2 := hobj
      simp only [Bool.or_eq_true, Bool.not_eq_true', not_or, Bool.not_eq_false] at hobj2
      split
      · rename_i n d c w h1 h2 h3 h4
        rcases h with h | h | h | h | h | h
        · rw [hobj2.1] at h; cases h
        · rw [hobj2.2] at h; cases h
        · rw [h1] at h; cases h
        · rw [h2] at h; cases h
        · rw [h3] at h; cases h
        · rw [h4] at h; cases h
      · exact ⟨rfl, rfl⟩

theorem C13_witness :
    (callback_create_workflow sampleLib sampleDb
      ⟨[], some (.object [("workflow", .object [("name", .string "T")])])⟩).2.status = 400 ∧
    (callback_create_workflow sampleLib sampleDb
      ⟨[], some (.object [("workflow", .object [("name", .string "T")])])⟩).1 = sampleDb :=
  C13_validation_error_leaves_store sampleLib sampleDb
    ⟨[], some (.object [("workflow", .object [("name", .string "T")])])⟩ (Or.inr (Or.inl rfl))

theorem mem_insert_or_ignore_template_category (db : Db) (a b : Int) (p : Int × Int) :
    p ∈ (insert_or_ignore_template_category db a b).template_categories ↔
      p ∈ db.template_categories ∨ p = (a, b) := by
  unfold insert_or_ignore_template_category
  split
  · rename_i h
    constructor
    · exact Or.inl
    · rintro (h' | rfl)
      · exact h'
      · exact h
  · simp

theorem nodup_insert_or_ignore_template_category (db : Db) (a b : Int)
    (h : db.template_categories.Nodup) :
    (insert_or_ignore_template_category db a b).template_categories.Nodup := by
  unfold insert_or_ignore_template_category
  split
  · exact h
  · rename_i hnot
    simp only []
    rw [List.nodup_append]
    refine ⟨h, List.nodup_singleton _, ?_⟩
    intro x hx hx'
    rw [List.mem_singleton] at hx'
    exact hnot (hx' ▸ hx)

/-- The links after the loop of `callback_create_workflow`: those present before, and
the pairs of the template with the resolved identifiers. -/
theorem link_categories_pairs (template_id : Int) (entries : List Json) (db : Db)
    (p : Int × Int) :
    p ∈ (link_categories template_id entries db).template_categories ↔
      p ∈ db.template_categories ∨
        (p.1 = template_id ∧ p.2 ∈ resolved_category_ids template_id entries db) := by
  induction entries generalizing db with
  | nil => simp [link_categories, resolved_category_ids]
  | cons e rest ih =>
    have hf := (get_or_create_category_json_frame e db).2.2.2.1
    simp only [link_categories, resolved_category_ids, get_or_create_category]
    split
    · rw [ih, mem_insert_or_ignore_template_category, hf]
      simp only [List.mem_cons]
      constructor
      · rintro ((h | rfl) | ⟨h1, h2⟩)
        · exact Or.inl h
        · exact Or.inr ⟨rfl, Or.inl rfl⟩
        · exact Or.inr ⟨h1, Or.inr h2⟩
      · rintro (h | ⟨h1, h2 | h2⟩)
        · exact Or.inl (Or.inl h)
        · exact Or.inl (Or.inr (Prod.ext h1 h2))
        · exact Or.inr ⟨h1, h2⟩
    · rw [ih, hf]

theorem link_categories_nodup (template_id : Int) (entries : List Json) (db : Db)
    (h : db.template_categories.Nodup) :
    (link_categories template_id entries db).template_categories.Nodup := by
  induction entries generalizing db with
  | nil => exact h
  | cons e rest ih =>
    have hf := (get_or_create_category_json_frame e db).2.2.2.1
    simp only [link_categories, get_or_create_category]
    split
    · apply ih
      apply nodup_insert_or_ignore_template_category
      rw [hf]; exact h
    · apply ih
      rw [hf]; exact h

/-- An entry that is not an object, or whose `name` is missing, not a string or empty,
resolves to 0 and leaves the store as it is. -/
theorem get_or_create_category_skipped (db : Db) (entry : Json)
    (h : json_is_object (some entry) = false ∨
      json_string_value (json_object_get (some entry) "name") = none ∨
      json_string_value (json_object_get (some entry) "name") = some "") :
    get_or_create_category db (some entry) = (db, 0) := by
  unfold get_or_create_category
  cases entry with
  | object kvs =>
    simp only [json_is_object, json_object_get, Bool.true_eq_false, false_or] at h
    rcases h with h | h
    · simp [get_or_create_category_json, h]
    · simp [get_or_create_category_json, h]
  | _ => simp [get_or_create_category_json]

theorem insert_user_frame {db db1 : Db} {name username bio links avatar : String}
    {verified rowid : Int}
    (h : insert_user db name username bio verified links avatar = some (db1, rowid)) :
    db1 = { db with users := db1.users } := by
  unfold insert_user at h
  split at h
  · cases h
  · simp only [Option.some.injEq, Prod.mk.injEq] at h
    obtain ⟨h1, _⟩ := h
    subst h1
    rfl

/-- The resolution of the user changes no table but `users`. -/
theorem get_or_create_user_frame (E : Lib) (db : Db) (user_json : Option Json) :
    (get_or_create_user E db user_json).1 =
      { db with users := (get_or_create_user E db user_json).1.users } := by
  unfold get_or_create_user
  split
  · rfl
  · simp only []
    split
    · rfl
    · split
      · rename_i h
        exact insert_user_frame h
      · rfl

/-- C14, counterexample: template 5 is written with the category `A`, then written again
with the category `B` only; both writes answer 201, the entry of the second document
resolves to category 2, and the template is then linked to category 1 (`A`) as well as to
category 2 (`B`). -/
theorem C14_counterexample :
    (callback_create_workflow sampleLib
      (callback_create_workflow sampleLib emptyDb (sampleWorkflowDoc
        [("id", .integer 5), ("categories", .array [.object [("name", .string "A")]])])).1
      (sampleWorkflowDoc
        [("id", .integer 5), ("categories", .array [.object [("name", .string "B")]])])).2.status
      = 201 ∧
    (callback_create_workflow sampleLib
      (callback_create_workflow sampleLib emptyDb (sampleWorkflowDoc
        [("id", .integer 5), ("categories", .array [.object [("name", .string "A")]])])).1
      (sampleWorkflowDoc
        [("id", .integer 5), ("categories", .array [.object [("name", .string "B")]])])).1.categories.map
      (fun c => (c.id, c.name)) = [(1, some "A"), (2, some "B")] ∧
    (callback_create_workflow sampleLib
      (callback_create_workflow sampleLib emptyDb (sampleWorkflowDoc
        [("id", .integer 5), ("categories", .array [.object [("name", .string "A")]])])).1
      (sampleWorkflowDoc
        [("id", .integer 5), ("categories", .array [.object [("name", .string "B")]])])).1.template_categories
      = [(5, 1), (5, 2)] :=
  ⟨by decide, by decide, by decide⟩

/-- C14, amended: for an accepted template document whose `categories` is an array, the
write answers 201 whatever the entries; afterwards the links of the store are those it
had before the write together with the pairs of the written template with exactly the
positive identifiers its entries resolved to (an entry that is not an object, or has no
non-empty `name`, resolves to 0 and adds nothing), and no pair is stored twice. -/
theorem C14_category_links_after_write (E : Lib) (db : Db) (request : Request)
    (name description created_at : String) (nested : Json) (entries : List Json)
    (h1 : json_string_value
      (json_object_get (json_object_get request.json_body "workflow") "name") = some name)
    (h2 : json_string_value
      (json_object_get (json_object_get request.json_body "workflow") "description")
        = some description)
    (h3 : json_string_value
      (json_object_get (json_object_get request.json_body "workflow") "createdAt")
        = some created_at)
    (h4 : json_object_get (json_object_get request.json_body "workflow") "workflow"
      = some nested)
    (hobj : json_is_object
      (json_object_get (json_object_get request.json_body "workflow") "user") = true)
    (hu : (get_or_create_user E db
      (json_object_get (json_object_get request.json_body "workflow") "user")).2 ≠ 0)
    (hcats : json_object_get (json_object_get request.json_body "workflow") "categories"
      = some (.array entries)) :
    (callback_create_workflow E db request).2.status = 201 ∧
    (∃ db2 template_id,
      json_object_get (bodyJson (callback_create_workflow E db request).2) "id"
        = some (.integer template_id) ∧
      db2.categories = db.categories ∧
      db2.template_categories = db.template_categories ∧
      (callback_create_workflow E db request).1 = link_categories template_id entries db2 ∧
      (∀ p : Int × Int, p ∈ (callback_create_workflow E db request).1.template_categories ↔
        p ∈ db.template_categories ∨
          (p.1 = template_id ∧ p.2 ∈ resolved_category_ids template_id entries db2)) ∧
      (db.template_categories.Nodup →
        (callback_create_workflow E db request).1.template_categories.Nodup)) ∧
    (∀ (store : Db) (entry : Json),
      (json_is_object (some entry) = false ∨
        json_string_value (json_object_get (some entry) "name") = none ∨
        json_string_value (json_object_get (some entry) "name") = some "") →
      get_or_create_category store (some entry) = (store, 0)) := by
  obtain ⟨hresp, _, _⟩ :=
    callback_create_workflow_of_fields E db request name description created_at nested
      h1 h2 h3 h4 hobj hu
  have hacc : (callback_create_workflow E db request).2.status = 201 := by rw [hresp]
  obtain ⟨name', description', created_at', nested', h1', h2', h3', h4', _, _, heq⟩ :=
    callback_create_workflow_accepted E db request hacc
  rw [h1] at h1'; rw [h2] at h2'; rw [h3] at h3'; rw [h4] at h4'
  cases h1'; cases h2'; cases h3'; cases h4'
  simp only [hcats] at heq
  have hframe := get_or_create_user_frame E db
    (json_object_get (json_object_get request.json_body "workflow") "user")
  have hcat2 : (insert_or_replace_template
      (get_or_create_user E db
        (json_object_get (json_object_get request.json_body "workflow") "user")).1
      (template_bindings E (json_object_get request.json_body "workflow") name
        description created_at nested
        (get_or_create_user E db
          (json_object_get (json_object_get request.json_body "workflow") "user")).2)).1.categories
      = db.categories := by
    simp only [insert_or_replace_template]
    rw [hframe]
  have hlinks2 : (insert_or_replace_template
      (get_or_create_user E db
        (json_object_get (json_object_get request.json_body "workflow") "user")).1
      (template_bindings E (json_object_get request.json_body "workflow") name
        description created_at nested
        (get_or_create_user E db
          (json_object_get (json_object_get request.json_body "workflow") "user")).2)).1.template_categories
      = db.template_categories := by
    simp only [insert_or_replace_template]
    rw [hframe]
  have hid : json_object_get (bodyJson (callback_create_workflow E db request).2) "id"
      = some (.integer (template_bindings E (json_object_get request.json_body "workflow")
          name description created_at nested
          (get_or_create_user E db
            (json_object_get (json_object_get request.json_body "workflow") "user")).2).id) := by
    rw [hresp]; rfl
  refine ⟨hacc, ⟨_, _, hid, hcat2, hlinks2, ?_, ?_, ?_⟩, fun store entry h =>
    get_or_create_category_skipped store entry h⟩
  · rw [heq]
  · intro p
    rw [heq]
    simp only []
    rw [link_categories_pairs, hlinks2]
  · intro hnd
    rw [heq]
    simp only []
    apply link_categories_nodup
    rw [hlinks2]; exact hnd

theorem C14_witness :
    (callback_create_workflow sampleLib emptyDb (sampleWorkflowDoc
      [("id", .integer 5), ("categories", .array [.object [("name", .string "A")], .string "x",
        .object [("name", .string "")]])])).2.status = 201 ∧
    (callback_create_workflow sampleLib emptyDb (sampleWorkflowDoc
      [("id", .integer 5), ("categories", .array [.object [("name", .string "A")], .string "x",
        .object [("name", .string "")]])])).1.template_categories = [(5, 1)] :=
  ⟨(C14_category_links_after_write sampleLib emptyDb (sampleWorkflowDoc
      [("id", .integer 5), ("categories", .array [.object [("name", .string "A")], .string "x",
        .object [("name", .string "")]])]) "T" "about T" "2025-01-01" (.object [])
      [.object [("name", .string "A")], .string "x", .object [("name", .string "")]]
      rfl rfl rfl rfl rfl (by decide) rfl).1, by decide⟩


/-! ## Required fields of a collection (C15) -/

/-- C15: a collection document whose `createdAt` is the empty string is accepted: the
handler answers 201 and stores the row with the empty date, while the same handler
rejects an empty `name` with 400 and stores nothing. -/
theorem C15_empty_created_at_is_accepted :
    (callback_create_collection emptyDb
      ⟨[], some (.object [("name", .string "C"), ("createdAt", .string "")])⟩).2.status = 201 ∧
    (callback_create_collection emptyDb
      ⟨[], some (.object [("name", .string "C"), ("createdAt", .string "")])⟩).1.collections
      = [⟨1, some 0, some "C", none, none, some ""⟩] ∧
    (callback_create_collection emptyDb
      ⟨[], some (.object [("name", .string ""), ("createdAt", .string "2025-01-01")])⟩).2.status
      = 400 ∧
    (callback_create_collection emptyDb
      ⟨[], some (.object [("name", .string ""), ("createdAt", .string "2025-01-01")])⟩).1
      = emptyDb :=
  ⟨by decide, by decide, by decide, rfl⟩

/-! ## Categories by name (C16) -/

theorem select_category_id_mem {db : Db} {name : String} {id : Int}
    (h : select_category_id db name = some id) :
    ∃ row ∈ db.categories, row.name = some name ∧ row.id = id := by
  unfold select_category_id at h
  cases hf : db.categories.find? (fun c => c.name = some name) with
  | none => rw [hf] at h; cases h
  | some row =>
    rw [hf] at h
    simp only [Option.map_some', Option.some.injEq] at h
    refine ⟨row, List.mem_of_find?_eq_some hf, ?_, h⟩
    have := List.find?_some hf
    simpa using this

theorem insert_category_none {db : Db} {name icon : String} {parent_id : Option Int}
    (h : insert_category db name icon parent_id = none) :
    ∃ id, select_category_id db name = some id := by
  unfold insert_category at h
  split at h
  · rename_i hany
    unfold select_category_id
    cases hf : db.categories.find? (fun c => c.name = some name) with
    | none =>
      rw [List.find?_eq_none] at hf
      rw [List.any_eq_true] at hany
      obtain ⟨c, hc, hn⟩ := hany
      exact absurd hn (hf c hc)
    | some row => exact ⟨row.id, rfl⟩
  · cases h

theorem insert_category_some {db db2 : Db} {name icon : String} {parent_id : Option Int}
    {rowid : Int} (h : insert_category db name icon parent_id = some (db2, rowid)) :
    db2.categories = db.categories ++ [⟨rowid, some name, some icon, parent_id⟩] ∧
    (db.categories.filter (fun c => c.name = some name)) = [] ∧
    select_category_id db2 name = some rowid := by
  unfold insert_category at h
  split at h
  · cases h
  · rename_i hany
    simp only [Option.some.injEq, Prod.mk.injEq] at h
    obtain ⟨h1, h2⟩ := h
    subst h1
    have hnone : ∀ c ∈ db.categories, ¬ (decide (c.name = some name) = true) := by
      intro c hc hn
      apply hany
      rw [List.any_eq_true]
      exact ⟨c, hc, hn⟩
    refine ⟨by rw [h2], ?_, ?_⟩
    · rw [List.filter_eq_nil_iff]
      exact hnone
    · unfold select_category_id
      simp only [List.find?_append]
      have hf : db.categories.find? (fun c => c.name = some name) = none := by
        rw [List.find?_eq_none]
        exact hnone
      rw [hf]
      simp [h2]

/-- After `get_or_create_category` on an object with a non-empty name, the statement
`SELECT id FROM categories WHERE name = ?;` finds a row, and the function has returned
the identifier of that row as a C `int`. -/
theorem get_or_create_category_json_selects (kvs : List (String × Json)) (db : Db)
    (name : String) (hname : json_string_value (lookupKey "name" kvs) = some name)
    (hne : name ≠ "") :
    ∃ id, select_category_id (get_or_create_category_json (.object kvs) db).1 name = some id ∧
      (get_or_create_category_json (.object kvs) db).2 = toInt32 id := by
  have hlen : ¬ name.length = 0 := by
    intro h
    apply hne
    apply String.ext
    exact List.length_eq_zero.mp h
  simp only [get_or_create_category_json, hname, hlen, if_false]
  split
  · rename_i hpos
    cases hsel : select_category_id db name with
    | none => simp [hsel] at hpos
    | some id => exact ⟨id, rfl, rfl⟩
  · split
    · rename_i db2 rowid hins
      exact ⟨rowid, (insert_category_some hins).2.2, rfl⟩
    · rename_i hins
      obtain ⟨id, hid⟩ := insert_category_none hins
      simp only [hid]
      exact ⟨id, rfl, rfl⟩

/-- A property of the store that every accepted insert of a category keeps is kept by
`get_or_create_category`. -/
theorem get_or_create_category_json_invariant (P : Db → Prop)
    (hP : ∀ (db db2 : Db) (name icon : String) (parent_id : Option Int) (rowid : Int),
      P db → insert_category db name icon parent_id = some (db2, rowid) → P db2)
    (j : Json) (db : Db) : P db → P (get_or_create_category_json j db).1 := by
  refine get_or_create_category_json.induct
    (fun j db => P db → P (get_or_create_category_json j db).1)
    (fun kvs db => P db → P (resolve_parent kvs db).1)
    ?_ ?_ ?_ ?_ ?_ ?_ ?_ ?_ ?_ ?_ ?_ j db
  · intro kvs db h hdb
    simpa [get_or_create_category_json, h] using hdb
  · intro kvs db name h hlen hdb
    simpa [get_or_create_category_json, h, hlen] using hdb
  · intro kvs db name h hlen category_id hpos hdb
    simp only [get_or_create_category_json, h, hlen, if_false]
    rw [if_pos hpos]
    exact hdb
  · intro kvs db name h hlen category_id hpos r db1 parent_id icon db2 rowid hins ih hdb
    simp only [get_or_create_category_json, h, hlen, if_false]
    rw [if_neg hpos]
    simp only [db1, parent_id, icon, r] at hins
    simp only [hins]
    exact hP _ _ _ _ _ _ (ih hdb) hins
  · intro kvs db name h hlen category_id hpos r db1 parent_id icon hins n hsel ih hdb
    simp only [get_or_create_category_json, h, hlen, if_false]
    rw [if_neg hpos]
    simp only [db1, parent_id, icon, r] at hins hsel
    simp only [hins, hsel]
    exact ih hdb
  · intro kvs db name h hlen category_id hpos r db1 parent_id icon hins hsel ih hdb
    simp only [get_or_create_category_json, h, hlen, if_false]
    rw [if_neg hpos]
    simp only [db1, parent_id, icon, r] at hins hsel
    simp only [hins, hsel]
    exact ih hdb
  · intro t db hne hdb
    cases t <;> simp [get_or_create_category_json, hdb]
    exact absurd rfl (hne _)
  · intro db hdb
    simpa [resolve_parent] using hdb
  · intro rest db kvs ih hdb
    simpa [resolve_parent] using ih hdb
  · intro v rest db hne hdb
    cases v <;> simp [resolve_parent, hdb]
    exact absurd rfl (hne _)
  · intro k v rest db hk ih hdb
    simpa [resolve_parent, hk] using ih hdb

/-- The unique key on `name` is kept: no two rows of `categories` share a name after
`get_or_create_category` if none did before. -/
theorem get_or_create_category_json_unique (j : Json) (db : Db)
    (h : ∀ m : String, (db.categories.filter (fun c => c.name = some m)).length ≤ 1) :
    ∀ m : String, ((get_or_create_category_json j db).1.categories.filter
      (fun c => c.name = some m)).length ≤ 1 := by
  refine get_or_create_category_json_invariant
    (fun db => ∀ m : String, (db.categories.filter (fun c => c.name = some m)).length ≤ 1)
    ?_ j db h
  intro db db2 name icon parent_id rowid hdb hins m
  obtain ⟨hcat, hnil, _⟩ := insert_category_some hins
  rw [hcat, List.filter_append]
  by_cases hm : m = name
  · subst hm
    rw [hnil]
    simp
  · have : List.filter (fun c : Category => decide (c.name = some m))
        [⟨rowid, some name, some icon, parent_id⟩] = [] := by
      simp [List.filter_cons, Ne.symm hm]
    rw [this]
    simpa using hdb m

/-- C16: for a category document with a non-empty `name`, in a store whose category names
are unique and whose category identifiers after the call are positive and fit a C `int`:
the call returns a positive identifier, the identifier of a row with that name; a second
call with any document of the same `name` returns the same identifier and leaves the
store as it is; exactly one row has that name afterwards; and when the first select finds
nothing and the unique key rejects the insert, the function returns the identifier found
by the second select. -/
theorem C16_get_or_create_category_twice (db : Db) (kvs kvs2 : List (String × Json))
    (name : String)
    (hname : json_string_value (lookupKey "name" kvs) = some name)
    (hname2 : json_string_value (lookupKey "name" kvs2) = some name)
    (hne : name ≠ "")
    (huniq : ∀ m : String, (db.categories.filter (fun c => c.name = some m)).length ≤ 1)
    (hfit : ∀ c ∈ (get_or_create_category db (some (.object kvs))).1.categories,
      0 < c.id ∧ c.id < 2147483648) :
    0 < (get_or_create_category db (some (.object kvs))).2 ∧
    (∃ row ∈ (get_or_create_category db (some (.object kvs))).1.categories,
      row.name = some name ∧ row.id = (get_or_create_category db (some (.object kvs))).2) ∧
    get_or_create_category (get_or_create_category db (some (.object kvs))).1
        (some (.object kvs2))
      = ((get_or_create_category db (some (.object kvs))).1,
         (get_or_create_category db (some (.object kvs))).2) ∧
    ((get_or_create_category (get_or_create_category db (some (.object kvs))).1
        (some (.object kvs2))).1.categories.filter (fun c => c.name = some name)).length = 1 ∧
    (select_category_id db name = none →
      ∀ (icon : String) (parent_id : Option Int),
        insert_category (resolve_parent kvs db).1 name icon parent_id = none →
        ∃ id, select_category_id (resolve_parent kvs db).1 name = some id ∧
          get_or_create_category db (some (.object kvs))
            = ((resolve_parent kvs db).1, toInt32 id)) := by
  simp only [get_or_create_category] at hfit ⊢
  obtain ⟨id, hsel, hid⟩ := get_or_create_category_json_selects kvs db name hname hne
  obtain ⟨row, hrow, hrn, hri⟩ := select_category_id_mem hsel
  obtain ⟨hpos, hlt⟩ := hfit row hrow
  rw [hri] at hpos hlt
  have hfix : toInt32 id = id := toInt32_of_range id (by omega) (by omega)
  rw [hfix] at hid
  have hlen : ¬ name.length = 0 := by
    intro h
    apply hne
    apply String.ext
    exact List.length_eq_zero.mp h
  have hsecond : get_or_create_category_json (.object kvs2)
      (get_or_create_category_json (.object kvs) db).1
      = ((get_or_create_category_json (.object kvs) db).1,
         (get_or_create_category_json (.object kvs) db).2) := by
    rw [hid]
    generalize (get_or_create_category_json (.object kvs) db).1 = store at hsel
    simp only [get_or_create_category_json, hname2, hlen, if_false, hsel, hfix]
    rw [if_pos hpos]
  refine ⟨by rw [hid]; exact hpos, ⟨row, hrow, hrn, by rw [hid]; exact hri⟩, hsecond, ?_, ?_⟩
  · rw [hsecond]
    apply Nat.le_antisymm
    · exact get_or_create_category_json_unique (.object kvs) db huniq name
    · have hmem : row ∈ (get_or_create_category_json (.object kvs) db).1.categories.filter
          (fun c => c.name = some name) := by
        rw [List.mem_filter]
        exact ⟨hrow, by simpa using hrn⟩
      exact List.length_pos_of_mem hmem
  · intro hnone icon parent_id hins
    have hany : insert_category (resolve_parent kvs db).1 name
        ((json_string_value (lookupKey "icon" kvs)).getD "ðŸ·ï¸")
        (if (resolve_parent kvs db).2 > 0 then some (resolve_parent kvs db).2 else none)
        = none := by
      unfold insert_category at hins ⊢
      split at hins
      · rename_i h
        rw [if_pos h]
      · cases hins
    obtain ⟨k, hk⟩ := insert_category_none hins
    refine ⟨k, hk, ?_⟩
    simp only [get_or_create_category_json, hname, hlen, if_false, hnone]
    rw [if_neg (by decide)]
    simp only [hany, hk]

theorem C16_witness :
    get_or_create_category
      (get_or_create_category emptyDb (some (.object
        [("name", .string "A"), ("parent", .object [("name", .string "A")])]))).1
      (some (.object [("name", .string "A"), ("icon", .string "i")]))
    = ((get_or_create_category emptyDb (some (.object
        [("name", .string "A"), ("parent", .object [("name", .string "A")])]))).1,
       (get_or_create_category emptyDb (some (.object
        [("name", .string "A"), ("parent", .object [("name", .string "A")])]))).2) ∧
    (get_or_create_category emptyDb (some (.object
        [("name", .string "A"), ("parent", .object [("name", .string "A")])]))).2 = 1 :=
  ⟨(C16_get_or_create_category_twice emptyDb
      [("name", .string "A"), ("parent", .object [("name", .string "A")])]
      [("name", .string "A"), ("icon", .string "i")] "A" rfl rfl (by decide)
      (fun m => by simp [emptyDb]) (by decide)).2.2.1, by decide⟩


/-! ## The canonical user (C17) -/

/-- Once a row with the fixed username exists, every object document resolves to its
identifier and the store is left as it is. -/
theorem get_or_create_user_existing (E : Lib) (db : Db) (user_json : Option Json) (id : Int)
    (hobj : json_is_object user_json = true)
    (hsel : select_user_id db "Default API User" = some id) :
    get_or_create_user E db user_json = (db, toInt32 id) := by
  unfold get_or_create_user
  simp only [hobj, Bool.not_true, Bool.false_eq_true, if_false, hsel]

/-- The first resolution on an object document either finds the row with the fixed
username, or appends one row with that username and then finds it. -/
theorem get_or_create_user_selects (E : Lib) (db : Db) (user_json : Option Json)
    (hobj : json_is_object user_json = true) :
    ∃ id, select_user_id (get_or_create_user E db user_json).1 "Default API User" = some id ∧
      (get_or_create_user E db user_json).2 = toInt32 id ∧
      ((get_or_create_user E db user_json).1 = db ∨
        (select_user_id db "Default API User" = none ∧
          ∃ row : User, row.username = some "Default API User" ∧ row.id = id ∧
            (get_or_create_user E db user_json).1.users = db.users ++ [row])) := by
  unfold get_or_create_user
  simp only [hobj, Bool.not_true, Bool.false_eq_true, if_false]
  cases hsel : select_user_id db "Default API User" with
  | some id => exact ⟨id, hsel, rfl, Or.inl rfl⟩
  | none =>
    simp only []
    have hnone : ∀ u ∈ db.users, ¬ (u.username = some "Default API User") := by
      unfold select_user_id at hsel
      simp only [Option.map_eq_none', List.find?_eq_none] at hsel
      intro u hu
      simpa using hsel u hu
    have hany : db.users.any (fun u => u.username = some "Default API User") = false := by
      simp only [List.any_eq_false]
      intro u hu
      simpa using hnone u hu
    unfold insert_user
    simp only [hany, Bool.false_eq_true, if_false]
    refine ⟨nextRowid (db.users.map (fun u => u.id)), ?_, rfl, Or.inr ⟨trivial, _, ?_, ?_, rfl⟩⟩
    · unfold select_user_id
      simp only [List.find?_append]
      have h0 : db.users.find? (fun u => decide (u.username = some "Default API User"))
          = none := by
        simp only [List.find?_eq_none]
        intro u hu
        simpa using hnone u hu
      simp [h0]
    · rfl
    · rfl

/-- C17: a document that is not an object resolves to 0 and leaves the store as it is.
For two object documents, whatever their members, the resolution of the first one leaves
the users as they were or appends one row whose username is `Default API User`, and
changes no other table; the resolution of the second one returns the same identifier and
leaves the store as it is.  Once a row with that username exists, every object document
resolves to its identifier without a change of the store. -/
theorem C17_single_canonical_user (E : Lib) (db : Db) (d1 d2 : Option Json)
    (h1 : json_is_object d1 = true) (h2 : json_is_object d2 = true) :
    get_or_create_user E (get_or_create_user E db d1).1 d2
      = ((get_or_create_user E db d1).1, (get_or_create_user E db d1).2) ∧
    ((get_or_create_user E db d1).1 = db ∨
      ∃ row : User, row.username = some "Default API User" ∧
        (get_or_create_user E db d1).1.users = db.users ++ [row]) ∧
    (get_or_create_user E db d1).1
      = { db with users := (get_or_create_user E db d1).1.users } ∧
    (∀ d : Option Json, json_is_object d = false → get_or_create_user E db d = (db, 0)) ∧
    (∀ (store : Db) (id : Int) (d : Option Json),
      select_user_id store "Default API User" = some id → json_is_object d = true →
      get_or_create_user E store d = (store, toInt32 id)) := by
  obtain ⟨id, hsel, hid, hrows⟩ := get_or_create_user_selects E db d1 h1
  refine ⟨?_, ?_, get_or_create_user_frame E db d1, ?_, ?_⟩
  · rw [hid]
    exact get_or_create_user_existing E _ d2 id h2 hsel
  · rcases hrows with h | ⟨_, row, hrow, _, hus⟩
    · exact Or.inl h
    · exact Or.inr ⟨row, hrow, hus⟩
  · intro d hd
    unfold get_or_create_user
    simp [hd]
  · intro store id d hsel hd
    exact get_or_create_user_existing E store d id hd hsel

theorem C17_witness :
    get_or_create_user sampleLib
      (get_or_create_user sampleLib emptyDb
        (some (.object [("username", .string "alice"), ("verified", .bool true)]))).1
      (some (.object [("username", .string "bob"), ("name", .string "Bob")]))
    = ((get_or_create_user sampleLib emptyDb
        (some (.object [("username", .string "alice"), ("verified", .bool true)]))).1,
       (get_or_create_user sampleLib emptyDb
        (some (.object [("username", .string "alice"), ("verified", .bool true)]))).2) ∧
    (get_or_create_user sampleLib emptyDb
      (some (.object [("username", .string "alice"), ("verified", .bool true)]))).2 = 1 :=
  ⟨(C17_single_canonical_user sampleLib emptyDb
      (some (.object [("username", .string "alice"), ("verified", .bool true)]))
      (some (.object [("username", .string "bob"), ("name", .string "Bob")])) rfl rfl).1,
    by decide⟩


/-! ## Pagination parameters (C18) -/

/-- C18: `get_int_param` returns the value of `atoi` for a parameter that is present, not
empty and positive under `atoi`, and the default otherwise; the limit of the search is
the smaller of that value and 100 and lies between 1 and 100; the offset is the product
`(page - 1) * limit` reduced to a C `int`, which is the product itself when it fits.  At
`page=2147483647` with the default limit 20 the product is 42949672920 and the offset of
the handler is -40. -/
theorem C18_offset_is_computed_in_int :
    (∀ (request : Request) (param_name : String) (default_value : Int),
      get_int_param request param_name default_value =
        match u_map_get request.map_url param_name with
        | some param_str =>
          if param_str ≠ "" ∧ 0 < atoi param_str then atoi param_str else default_value
        | none => default_value) ∧
    (∀ request : Request,
      search_limit request = min (get_int_param request "limit" 20) 100 ∧
      1 ≤ search_limit request ∧ search_limit request ≤ 100) ∧
    (∀ request : Request,
      search_offset request =
        if (get_int_param request "page" 1 - 1) * search_limit request < 2147483648 then
          (get_int_param request "page" 1 - 1) * search_limit request
        else toInt32 ((get_int_param request "page" 1 - 1) * search_limit request)) ∧
    get_int_param ⟨[("page", "2147483647")], none⟩ "page" 1 = 2147483647 ∧
    search_limit ⟨[("page", "2147483647")], none⟩ = 20 ∧
    (get_int_param ⟨[("page", "2147483647")], none⟩ "page" 1 - 1)
      * search_limit ⟨[("page", "2147483647")], none⟩ = 42949672920 ∧
    search_offset ⟨[("page", "2147483647")], none⟩ = -40 := by
  refine ⟨?_, ?_, ?_, by decide, by decide, by decide, by decide⟩
  · intro request param_name default_value
    unfold get_int_param
    cases u_map_get request.map_url param_name with
    | none => rfl
    | some param_str =>
      simp only []
      by_cases hlen : param_str.length > 0
      · have hne : param_str ≠ "" := by
          intro h
          rw [h] at hlen
          exact absurd hlen (by decide)
        rw [if_pos hlen]
        by_cases hpos : atoi param_str > 0
        · rw [if_pos hpos, if_pos ⟨hne, hpos⟩]
        · rw [if_neg hpos, if_neg (fun h => hpos h.2)]
      · have he : param_str = "" := by
          apply String.ext
          apply List.length_eq_zero.mp
          have : param_str.length = 0 := by omega
          exact this
        rw [if_neg hlen, if_neg (fun h => h.1 he)]
  · intro request
    have hb := search_limit_bounds request
    refine ⟨?_, by omega, hb.2⟩
    unfold search_limit
    simp only []
    split <;> omega
  · intro request
    have hpage := get_int_param_pos request "page" 1 (by decide)
    have hb := search_limit_bounds request
    unfold search_offset
    simp only []
    split
    · rename_i hfit
      apply toInt32_of_range _ _ hfit
      have : 0 ≤ (get_int_param request "page" 1 - 1) * search_limit request :=
        Int.mul_nonneg (by omega) (by omega)
      omega
    · rfl


/-! ## JSON types of a search entry (C19) -/

/-- C19: after one write of a template through `callback_create_workflow` on the empty
store, the entry of the search reply has an integer `id` and a string `username`, and
its `user.verified` is the JSON boolean `false`, not a JSON integer.  When the written
document carries an object as `nodes`, the entry carries that object as `nodes`, not an
array. -/
theorem C19_verified_is_a_boolean :
    json_object_get (json_array_get (json_object_get (bodyJson
      (callback_search_templates sampleLib
        (callback_create_workflow sampleLib emptyDb (sampleWorkflowDoc [("id", .integer 7)])).1
        ⟨[("limit", "1")], none⟩)) "workflows") 0) "id" = some (.integer 7) ∧
    json_object_get (json_object_get (json_array_get (json_object_get (bodyJson
      (callback_search_templates sampleLib
        (callback_create_workflow sampleLib emptyDb (sampleWorkflowDoc [("id", .integer 7)])).1
        ⟨[("limit", "1")], none⟩)) "workflows") 0) "user") "username"
      = some (.string "Default API User") ∧
    json_object_get (json_object_get (json_array_get (json_object_get (bodyJson
      (callback_search_templates sampleLib
        (callback_create_workflow sampleLib emptyDb (sampleWorkflowDoc [("id", .integer 7)])).1
        ⟨[("limit", "1")], none⟩)) "workflows") 0) "user") "verified"
      = some (.bool false) ∧
    json_is_integer (json_object_get (json_object_get (json_array_get (json_object_get
      (bodyJson (callback_search_templates sampleLib
        (callback_create_workflow sampleLib emptyDb (sampleWorkflowDoc [("id", .integer 7)])).1
        ⟨[("limit", "1")], none⟩)) "workflows") 0) "user") "verified") = false ∧
    json_object_get (json_array_get (json_object_get (bodyJson
      (callback_search_templates sampleLib
        (callback_create_workflow sampleLib emptyDb (sampleWorkflowDoc
          [("id", .integer 7), ("nodes", .object [("a", .integer 1)])])).1
        ⟨[("limit", "1")], none⟩)) "workflows") 0) "nodes"
      = some (.object [("a", .integer 1)]) :=
  ⟨rfl, rfl, rfl, rfl, rfl⟩


/-! ## The statement of the collection list (C20) -/

theorem intercalate_go_append (s acc sep : String) (l : List String) :
    String.intercalate.go (s ++ acc) sep l = s ++ String.intercalate.go acc sep l := by
  induction l generalizing acc with
  | nil => rfl
  | cons a rest ih =>
    simp only [String.intercalate.go]
    rw [String.append_assoc, String.append_assoc, ih, String.append_assoc]

theorem in_list_loop_pos (remaining : Nat) (main_sql : String) (i : Nat) (hi : 0 < i) :
    in_list_loop remaining main_sql i
      = String.intercalate.go main_sql "," (List.replicate remaining "?") := by
  induction remaining generalizing main_sql i with
  | zero => rfl
  | succ k ih =>
    simp only [in_list_loop, List.replicate_succ, String.intercalate.go]
    rw [if_pos hi, ih _ _ (Nat.succ_pos i)]

/-- The loop of placeholders appends `?` as many times as it runs, separated by commas. -/
theorem in_list_loop_zero (category_count : Nat) (main_sql : String) :
    in_list_loop category_count main_sql 0
      = main_sql ++ String.intercalate "," (List.replicate category_count "?") := by
  cases category_count with
  | zero => simp [in_list_loop, String.intercalate]
  | succ k =>
    simp only [in_list_loop, List.replicate_succ, String.intercalate]
    rw [if_neg (Nat.lt_irrefl 0), in_list_loop_pos _ _ _ (by decide), intercalate_go_append]

/-- The statement of the collection list in terms of the identifiers read by the loop over
`category[0]` .. `category[49]`, `n` being their number (at most 50): the statement text is the base `SELECT DISTINCT`, then, exactly when `n > 0`,
the join with `collection_categories` and the `IN` list of `n` placeholders separated by
commas, then, exactly when the search term is present and not empty, `c.name LIKE ?`
introduced by ` AND ` when `n > 0` and by ` WHERE ` otherwise, then the `ORDER BY`; the
bound values are the category identifiers in order, then the search pattern. -/
theorem collections_statement_of_ids (request : Request) :
    (collection_category_ids request).length ≤ 50 ∧
    (collections_statement request).1 =
      "SELECT DISTINCT c.id, c.rank, c.name, c.description, c.total_views, c.created_at FROM collections c"
      ++ (if 0 < (collection_category_ids request).length then
            " JOIN collection_categories cc ON c.id = cc.collection_id"
            ++ " WHERE cc.category_id IN ("
            ++ String.intercalate ","
                (List.replicate (collection_category_ids request).length "?")
            ++ ")"
          else "")
      ++ (match u_map_get request.map_url "search" with
          | some q =>
            if q ≠ "" then
              (if 0 < (collection_category_ids request).length then " AND " else " WHERE ")
              ++ "c.name LIKE ?"
            else ""
          | none => "")
      ++ " ORDER BY c.rank, c.name;" ∧
    (collections_statement request).2 =
      (collection_category_ids request).map (fun id => SqlValue.integer id)
      ++ (match u_map_get request.map_url "search" with
          | some q =>
            if q ≠ "" then [SqlValue.text (String.mk (("%" ++ q ++ "%").data.take 255))]
            else []
          | none => []) := by
  have hlen0 : ∀ q : String, q.length > 0 ↔ q ≠ "" := by
    intro q
    constructor
    · intro h he
      rw [he] at h
      exact absurd h (by decide)
    · intro h
      apply Nat.pos_of_ne_zero
      intro h0
      apply h
      apply String.ext
      exact List.length_eq_zero.mp h0
  refine ⟨?_, ?_, ?_⟩
  · unfold collection_category_ids
    exact (List.length_filterMap_le _ _).trans (by simp)
  · simp only [collections_statement, collections_sql, in_list_loop_zero]
    generalize (collection_category_ids request).length = n
    cases u_map_get request.map_url "search" with
    | none =>
      by_cases hn : 0 < n
      · simp only [gt_iff_lt, hn, if_true, String.append_assoc, String.empty_append]
      · simp only [gt_iff_lt, hn, if_false, String.append_assoc, String.append_empty]
    | some q =>
      by_cases hq : q ≠ ""
      · have hq2 : q.length > 0 := (hlen0 q).mpr hq
        by_cases hn : 0 < n
        · simp only [gt_iff_lt, hn, if_true, hq, hq2, decide_True, String.append_assoc,
            ne_eq, not_false_eq_true]
        · simp only [gt_iff_lt, hn, if_false, hq, hq2, decide_False, String.append_assoc,
            ne_eq, not_false_eq_true, if_true, Bool.false_eq_true]
          rfl
      · have hq2 : ¬ q.length > 0 := fun h => hq ((hlen0 q).mp h)
        by_cases hn : 0 < n
        · simp only [gt_iff_lt, hn, if_true, hq, hq2, if_false, String.append_assoc,
            String.empty_append]
        · simp only [gt_iff_lt, hn, if_false, hq, hq2, String.append_assoc,
            String.append_empty]
  · simp only [collections_statement, collections_bindings, search_pattern]
    cases u_map_get request.map_url "search" with
    | none => rfl
    | some q =>
      by_cases hq : q ≠ ""
      · have hq2 : q.length > 0 := (hlen0 q).mpr hq
        simp only [hq, hq2, if_true, ne_eq, not_false_eq_true]
      · have hq2 : ¬ q.length > 0 := fun h => hq ((hlen0 q).mp h)
        simp only [hq, hq2, if_false]

/-- The identifiers read by the loop over `category[0]` .. `category[49]` are the values
under `atoi` of the parameters of the request that are present, in index order. -/
theorem collection_category_ids_eq (request : Request) :
    collection_category_ids request =
      ((List.range 50).filter (fun i =>
        (u_map_get request.map_url ("category[" ++ toString i ++ "]")).isSome)).map
        (fun i => atoi ((u_map_get request.map_url ("category[" ++ toString i ++ "]")).getD "")) := by
  unfold collection_category_ids
  generalize List.range 50 = indices
  induction indices with
  | nil => rfl
  | cons i rest ih =>
    simp only [List.filterMap_cons, List.filter_cons]
    cases h : u_map_get request.map_url ("category[" ++ toString i ++ "]") with
    | none => simpa using ih
    | some value =>
      simp only [Option.map_some', Option.isSome_some, if_true, List.map_cons]
      rw [ih, h]
      rfl

/-- C20: for every request, with `n` the number of indices `N` from 0 to 49 for which the
request carries a parameter `category[N]`: the statement text is the base
`SELECT DISTINCT`, then, exactly when `n > 0`, the join with `collection_categories` and
the `IN` list of `n` placeholders separated by commas, then, exactly when the search term
is present and not empty, `c.name LIKE ?` introduced by ` AND ` when `n > 0` and by
` WHERE ` otherwise, then the `ORDER BY`; the bound values are the values under `atoi` of
these parameters in index order, then the search pattern.  For the parameters
`category[0]=3`, `search=ab`, `category[2]=5` and `category[50]=9` the statement has two
placeholders in its list and binds 3, 5 and `%ab%`. -/
theorem C20_collections_statement_text (request : Request) :
    collection_category_ids request =
      ((List.range 50).filter (fun i =>
        (u_map_get request.map_url ("category[" ++ toString i ++ "]")).isSome)).map
        (fun i => atoi ((u_map_get request.map_url ("category[" ++ toString i ++ "]")).getD "")) ∧
    ((List.range 50).filter (fun i =>
      (u_map_get request.map_url ("category[" ++ toString i ++ "]")).isSome)).length ≤ 50 ∧
    (collections_statement request).1 =
      "SELECT DISTINCT c.id, c.rank, c.name, c.description, c.total_views, c.created_at FROM collections c"
      ++ (if 0 < ((List.range 50).filter (fun i =>
              (u_map_get request.map_url ("category[" ++ toString i ++ "]")).isSome)).length then
            " JOIN collection_categories cc ON c.id = cc.collection_id"
            ++ " WHERE cc.category_id IN ("
            ++ String.intercalate ","
                (List.replicate ((List.range 50).filter (fun i =>
                  (u_map_get request.map_url ("category[" ++ toString i ++ "]")).isSome)).length
                  "?")
            ++ ")"
          else "")
      ++ (match u_map_get request.map_url "search" with
          | some q =>
            if q ≠ "" then
              (if 0 < ((List.range 50).filter (fun i =>
                  (u_map_get request.map_url ("category[" ++ toString i ++ "]")).isSome)).length
                then " AND " else " WHERE ")
              ++ "c.name LIKE ?"
            else ""
          | none => "")
      ++ " ORDER BY c.rank, c.name;" ∧
    (collections_statement request).2 =
      ((List.range 50).filter (fun i =>
        (u_map_get request.map_url ("category[" ++ toString i ++ "]")).isSome)).map
        (fun i => SqlValue.integer
          (atoi ((u_map_get request.map_url ("category[" ++ toString i ++ "]")).getD "")))
      ++ (match u_map_get request.map_url "search" with
          | some q =>
            if q ≠ "" then [SqlValue.text (String.mk (("%" ++ q ++ "%").data.take 255))]
            else []
          | none => []) ∧
    collections_statement
        ⟨[("category[0]", "3"), ("search", "ab"), ("category[2]", "5"), ("category[50]", "9")],
          none⟩
      = ("SELECT DISTINCT c.id, c.rank, c.name, c.description, c.total_views, c.created_at FROM collections c JOIN collection_categories cc ON c.id = cc.collection_id WHERE cc.category_id IN (?,?) AND c.name LIKE ? ORDER BY c.rank, c.name;",
         [SqlValue.integer 3, SqlValue.integer 5, SqlValue.text "%ab%"]) := by
  have hids := collection_category_ids_eq request
  have hlen : ((List.range 50).filter (fun i =>
      (u_map_get request.map_url ("category[" ++ toString i ++ "]")).isSome)).length
      = (collection_category_ids request).length := by
    rw [hids, List.length_map]
  have hmap : ((List.range 50).filter (fun i =>
        (u_map_get request.map_url ("category[" ++ toString i ++ "]")).isSome)).map
        (fun i => SqlValue.integer
          (atoi ((u_map_get request.map_url ("category[" ++ toString i ++ "]")).getD "")))
      = (collection_category_ids request).map (fun id => SqlValue.integer id) := by
    rw [hids, List.map_map]
    rfl
  obtain ⟨h1, h2, h3⟩ := collections_statement_of_ids request
  rw [hlen, hmap]
  exact ⟨hids, h1, h2, h3, rfl⟩

/-- The statement for two category parameters and a search term. -/
theorem collections_statement_example :
    collections_statement ⟨[("category[0]", "3"), ("search", "ab"), ("category[2]", "5")], none⟩
      = ("SELECT DISTINCT c.id, c.rank, c.name, c.description, c.total_views, c.created_at FROM collections c JOIN collection_categories cc ON c.id = cc.collection_id WHERE cc.category_id IN (?,?) AND c.name LIKE ? ORDER BY c.rank, c.name;",
         [SqlValue.integer 3, SqlValue.integer 5, SqlValue.text "%ab%"]) := by
  rfl


/-! ## The statements of the search (C21, C24, C27, C29) -/

theorem snprintf_of_fits (size : Nat) (text : String) (h : text.length < size) :
    snprintf size text = text := by
  unfold snprintf
  apply String.ext
  simp only
  apply List.take_of_length_le
  have : text.data.length = text.length := rfl
  omega

theorem or_list_loop_pos (remaining : Nat) (where_clause : String) (i : Nat) (hi : 0 < i) :
    or_list_loop remaining where_clause i
      = String.intercalate.go where_clause " OR " (List.replicate remaining "c.name = ?") := by
  induction remaining generalizing where_clause i with
  | zero => rfl
  | succ k ih =>
    simp only [or_list_loop, List.replicate_succ, String.intercalate.go]
    rw [if_pos hi, ih _ _ (Nat.succ_pos i)]

/-- The loop of category predicates appends `c.name = ?` as many times as it runs,
separated by ` OR `. -/
theorem or_list_loop_zero (category_count : Nat) (where_clause : String) :
    or_list_loop category_count where_clause 0
      = where_clause
        ++ String.intercalate " OR " (List.replicate category_count "c.name = ?") := by
  cases category_count with
  | zero => simp [or_list_loop, String.intercalate]
  | succ k =>
    simp only [or_list_loop, List.replicate_succ, String.intercalate]
    rw [if_neg (Nat.lt_irrefl 0), or_list_loop_pos _ _ _ (by decide), intercalate_go_append]

theorem or_list_loop_length (remaining : Nat) (where_clause : String) (i : Nat) :
    (or_list_loop remaining where_clause i).length ≤ where_clause.length + 14 * remaining := by
  induction remaining generalizing where_clause i with
  | zero => simp [or_list_loop]
  | succ k ih =>
    simp only [or_list_loop]
    refine (ih _ _).trans ?_
    split
    · simp only [String.length_append]
      have h1 : " OR ".length = 4 := by decide
      have h2 : "c.name = ?".length = 10 := by decide
      omega
    · simp only [String.length_append]
      have h2 : "c.name = ?".length = 10 := by decide
      omega

theorem in_list_loop_length (remaining : Nat) (main_sql : String) (i : Nat) :
    (in_list_loop remaining main_sql i).length ≤ main_sql.length + 2 * remaining := by
  induction remaining generalizing main_sql i with
  | zero => simp [in_list_loop]
  | succ k ih =>
    simp only [in_list_loop]
    refine (ih _ _).trans ?_
    split
    · simp only [String.length_append]
      have h1 : ",".length = 1 := by decide
      have h2 : "?".length = 1 := by decide
      omega
    · simp only [String.length_append]
      have h2 : "?".length = 1 := by decide
      omega

theorem parse_categories_length (category_str : Option String) :
    (parse_categories category_str).length ≤ 50 := by
  unfold parse_categories
  split
  · split
    · simp only [List.length_map, List.length_take]
      omega
    · simp
  · simp

theorem search_join_clause_length (category_count : Nat) :
    (search_join_clause category_count).length ≤ 96 := by
  unfold search_join_clause
  simp only
  split
  · decide
  · decide

theorem search_where_categories_length (category_count : Nat) :
    (search_where_categories category_count).1.length ≤ 9 + 14 * category_count := by
  unfold search_where_categories
  simp only
  split
  · simp only [String.length_append]
    have := or_list_loop_length category_count ("" ++ " WHERE " ++ "(") 0
    have h1 : ("" ++ " WHERE " ++ "(").length = 8 := by decide
    have h2 : ")".length = 1 := by decide
    simp only [if_true] at this ⊢
    omega
  · simp

theorem search_where_clause_length (category_count : Nat) (search_query_str : Option String) :
    (search_where_clause category_count search_query_str).length
      ≤ 55 + 14 * category_count := by
  have h := search_where_categories_length category_count
  unfold search_where_clause
  simp only
  split
  · split
    · simp only [String.length_append]
      have h3 : "(t.name LIKE ? OR t.description LIKE ?)".length = 39 := by decide
      split
      · have h4 : " WHERE ".length = 7 := by decide
        omega
      · have h4 : " AND ".length = 5 := by decide
        omega
    · omega
  · omega

theorem search_given_iff (search_query : Option String) :
    search_given search_query = true ↔ ∃ q, search_query = some q ∧ q.length > 0 := by
  unfold search_given
  cases search_query with
  | none => simp
  | some q => simp

theorem search_where_clause_of_given (category_count : Nat) (search_query_str : Option String) :
    search_where_clause category_count search_query_str =
      (search_where_categories category_count).1 ++
        (if search_given search_query_str = true then
          (if (search_where_categories category_count).2 = 0 then " WHERE " else " AND ")
            ++ "(t.name LIKE ? OR t.description LIKE ?)"
         else "") := by
  unfold search_where_clause search_given
  cases search_query_str with
  | none => simp
  | some q =>
    by_cases hq : q.length > 0
    · simp [hq, String.append_assoc]
    · simp [hq]

theorem full_count_sql_eq (category_count : Nat) (search_query_str : Option String)
    (h : category_count ≤ 50) :
    full_count_sql category_count search_query_str =
      count_sql_base ++ search_join_clause category_count ++
        search_where_clause category_count search_query_str ++ ";" := by
  unfold full_count_sql
  apply snprintf_of_fits
  have h1 := search_join_clause_length category_count
  have h2 := search_where_clause_length category_count search_query_str
  have h3 : count_sql_base.length = 44 := by decide
  have h4 : ";".length = 1 := by decide
  simp only [String.length_append]
  omega

theorem full_main_sql_eq (category_count : Nat) (search_query_str : Option String)
    (h : category_count ≤ 50) :
    full_main_sql category_count search_query_str =
      main_sql_base ++ search_join_clause category_count ++
        search_where_clause category_count search_query_str ++
        " ORDER BY t.id DESC LIMIT ? OFFSET ?;" := by
  unfold full_main_sql
  apply snprintf_of_fits
  have h1 := search_join_clause_length category_count
  have h2 := search_where_clause_length category_count search_query_str
  have h3 : main_sql_base.length = 225 := by rfl
  have h4 : " ORDER BY t.id DESC LIMIT ? OFFSET ?;".length = 37 := by decide
  simp only [String.length_append]
  omega

/-- C21: for every request, the count statement is its base followed by the join clause,
the where clause and `;`, and the main statement is its base followed by the same join
clause, the same where clause and ` ORDER BY t.id DESC LIMIT ? OFFSET ?;`.  The join
clause is the two category joins exactly when category tokens are given; in the where
clause the category predicates stand in one parenthesised group separated by ` OR `, and
the search predicate follows that group after ` AND ` (after ` WHERE ` when there is no
group). -/
theorem C21_search_statements_share_clauses (request : Request) :
    (search_count_statement request).1 =
      "SELECT COUNT(DISTINCT t.id) FROM templates t"
      ++ search_join_clause (parse_categories (u_map_get request.map_url "category")).length
      ++ search_where_clause (parse_categories (u_map_get request.map_url "category")).length
          (u_map_get request.map_url "search")
      ++ ";" ∧
    (search_main_statement request).1 =
      main_sql_base
      ++ search_join_clause (parse_categories (u_map_get request.map_url "category")).length
      ++ search_where_clause (parse_categories (u_map_get request.map_url "category")).length
          (u_map_get request.map_url "search")
      ++ " ORDER BY t.id DESC LIMIT ? OFFSET ?;" ∧
    search_join_clause (parse_categories (u_map_get request.map_url "category")).length =
      (if 0 < (parse_categories (u_map_get request.map_url "category")).length then
        " JOIN template_categories tc ON t.id = tc.template_id"
        ++ " JOIN categories c ON tc.category_id = c.id"
       else "") ∧
    search_where_clause (parse_categories (u_map_get request.map_url "category")).length
        (u_map_get request.map_url "search") =
      (if 0 < (parse_categories (u_map_get request.map_url "category")).length then
        " WHERE (" ++ String.intercalate " OR "
          (List.replicate (parse_categories (u_map_get request.map_url "category")).length
            "c.name = ?") ++ ")"
       else "")
      ++ (if search_given (u_map_get request.map_url "search") = true then
            (if 0 < (parse_categories (u_map_get request.map_url "category")).length
              then " AND " else " WHERE ")
            ++ "(t.name LIKE ? OR t.description LIKE ?)"
          else "") := by
  have hn := parse_categories_length (u_map_get request.map_url "category")
  simp only [search_count_statement, search_main_statement]
  rw [full_count_sql_eq _ _ hn, full_main_sql_eq _ _ hn]
  generalize (parse_categories (u_map_get request.map_url "category")).length = n at hn
  refine ⟨rfl, rfl, ?_, ?_⟩
  · unfold search_join_clause
    simp only [gt_iff_lt, String.empty_append]
  · rw [search_where_clause_of_given]
    unfold search_where_categories
    simp only [or_list_loop_zero]
    by_cases h0 : 0 < n
    · cases search_given (u_map_get request.map_url "search")
      · simp only [gt_iff_lt, h0, if_true, String.empty_append, String.append_assoc]
        simp only [Bool.false_eq_true, if_false, String.append_empty]
        rw [← String.append_assoc]
        rfl
      · simp only [gt_iff_lt, h0, if_true, String.empty_append, String.append_assoc]
        simp only [Nat.add_eq_zero, one_ne_zero, and_false, if_false]
        rw [← String.append_assoc]
        rfl
    · cases search_given (u_map_get request.map_url "search")
      · simp only [gt_iff_lt, h0, if_false, if_true, String.empty_append]
      · simp only [gt_iff_lt, h0, if_false, if_true, String.empty_append]


theorem collections_sql_length (category_count : Nat) (search_query : Option String) :
    (collections_sql category_count search_query).length ≤ 227 + 2 * category_count := by
  unfold collections_sql
  simp only
  have hb : ("SELECT DISTINCT c.id, c.rank, c.name, c.description, c.total_views, c.created_at FROM collections c").length = 99 := by rfl
  have hj : (" JOIN collection_categories cc ON c.id = cc.collection_id").length = 57 := by rfl
  have hw : (" WHERE cc.category_id IN (").length = 26 := by rfl
  have hc : (")").length = 1 := by rfl
  have ha : (" AND ").length = 5 := by rfl
  have hh : (" WHERE ").length = 7 := by rfl
  have hl : ("c.name LIKE ?").length = 13 := by rfl
  have ho : (" ORDER BY c.rank, c.name;").length = 25 := by rfl
  have hloop := in_list_loop_length category_count
    ("SELECT DISTINCT c.id, c.rank, c.name, c.description, c.total_views, c.created_at FROM collections c"
      ++ " JOIN collection_categories cc ON c.id = cc.collection_id"
      ++ " WHERE cc.category_id IN (") 0
  simp only [String.length_append] at hloop
  by_cases hcount : category_count > 0
  · simp only [hcount, if_true, decide_True]
    cases search_query with
    | none => simp only [String.length_append]; omega
    | some q =>
      by_cases hq : q.length > 0
      · simp only [hq, if_true, String.length_append]; omega
      · simp only [hq, if_false, String.length_append]; omega
  · simp only [hcount, if_false, decide_False]
    cases search_query with
    | none => simp only [String.length_append]; omega
    | some q =>
      by_cases hq : q.length > 0
      · simp only [hq, if_true, Bool.false_eq_true, if_false, String.length_append]; omega
      · simp only [hq, if_false, String.length_append]; omega

/-- C29: for every request, the texts assembled by concatenation are shorter than their
buffers: in the search the join clause is shorter than 512 bytes, the where clause shorter
than 1024, the text formatted into the count statement shorter than 3072 and the text
formatted into the main statement shorter than 4096; the statement of the collection list
is shorter than 2048 bytes.  At most 50 category tokens, respectively 50 category
parameters, are counted. -/
theorem C29_statement_texts_fit_buffers (request : Request) :
    (parse_categories (u_map_get request.map_url "category")).length ≤ 50 ∧
    (search_join_clause
      (parse_categories (u_map_get request.map_url "category")).length).length < 512 ∧
    (search_where_clause (parse_categories (u_map_get request.map_url "category")).length
      (u_map_get request.map_url "search")).length < 1024 ∧
    (count_sql_base
      ++ search_join_clause (parse_categories (u_map_get request.map_url "category")).length
      ++ search_where_clause (parse_categories (u_map_get request.map_url "category")).length
          (u_map_get request.map_url "search")
      ++ ";").length < 3072 ∧
    (main_sql_base
      ++ search_join_clause (parse_categories (u_map_get request.map_url "category")).length
      ++ search_where_clause (parse_categories (u_map_get request.map_url "category")).length
          (u_map_get request.map_url "search")
      ++ " ORDER BY t.id DESC LIMIT ? OFFSET ?;").length < 4096 ∧
    (search_count_statement request).1.length < 3072 ∧
    (search_main_statement request).1.length < 4096 ∧
    (collection_category_ids request).length ≤ 50 ∧
    (collections_statement request).1.length < 2048 := by
  have hn := parse_categories_length (u_map_get request.map_url "category")
  have hm : (collection_category_ids request).length ≤ 50 := by
    unfold collection_category_ids
    exact (List.length_filterMap_le _ _).trans (by simp)
  have hcol := collections_sql_length (collection_category_ids request).length
    (u_map_get request.map_url "search")
  simp only [search_count_statement, search_main_statement, collections_statement]
  rw [full_count_sql_eq _ _ hn, full_main_sql_eq _ _ hn]
  generalize (parse_categories (u_map_get request.map_url "category")).length = n at hn
  have h1 := search_join_clause_length n
  have h2 := search_where_clause_length n (u_map_get request.map_url "search")
  have h3 : count_sql_base.length = 44 := by rfl
  have h4 : ";".length = 1 := by rfl
  have h5 : main_sql_base.length = 225 := by rfl
  have h6 : " ORDER BY t.id DESC LIMIT ? OFFSET ?;".length = 37 := by rfl
  simp only [String.length_append]
  refine ⟨hn, ?_, ?_, ?_, ?_, ?_, ?_, hm, ?_⟩ <;> omega


theorem placeholders_append (a b : String) :
    placeholders (a ++ b) = placeholders a + placeholders b := by
  unfold placeholders
  rw [String.data_append, List.count_append]

theorem or_list_loop_placeholders (remaining : Nat) (where_clause : String) (i : Nat) :
    placeholders (or_list_loop remaining where_clause i)
      = placeholders where_clause + remaining := by
  induction remaining generalizing where_clause i with
  | zero => simp [or_list_loop]
  | succ k ih =>
    simp only [or_list_loop]
    rw [ih]
    have h1 : placeholders " OR " = 0 := by decide
    have h2 : placeholders "c.name = ?" = 1 := by decide
    split
    · simp only [placeholders_append, h1, h2]
      omega
    · simp only [placeholders_append, h2]
      omega

theorem search_where_clause_placeholders (category_count : Nat)
    (search_query_str : Option String) :
    placeholders (search_where_clause category_count search_query_str)
      = category_count + 2 * (if search_given search_query_str = true then 1 else 0) := by
  rw [search_where_clause_of_given]
  have hcat : placeholders (search_where_categories category_count).1 = category_count := by
    unfold search_where_categories
    simp only
    split
    · rename_i h
      simp only [placeholders_append, or_list_loop_placeholders, if_true]
      have h1 : placeholders "" = 0 := by decide
      have h2 : placeholders " WHERE " = 0 := by decide
      have h3 : placeholders "(" = 0 := by decide
      have h4 : placeholders ")" = 0 := by decide
      omega
    · have h1 : placeholders "" = 0 := by decide
      simp only [h1]
      omega
  have h5 : placeholders " WHERE " = 0 := by decide
  have h6 : placeholders " AND " = 0 := by decide
  have h7 : placeholders "(t.name LIKE ? OR t.description LIKE ?)" = 2 := by decide
  have h8 : placeholders "" = 0 := by decide
  rw [placeholders_append, hcat]
  cases search_given search_query_str
  · simp only [Bool.false_eq_true, if_false, h8]
  · simp only [if_true, placeholders_append, h7]
    split
    · rw [h5]
    · rw [h6]

theorem search_pattern_of_given (search_query_str : Option String) :
    (search_pattern search_query_str).isSome = search_given search_query_str := by
  unfold search_pattern search_given
  cases search_query_str with
  | none => rfl
  | some q =>
    by_cases hq : q.length > 0
    · simp [hq]
    · simp [hq]

set_option maxRecDepth 100000 in
theorem placeholders_of_fragments :
    placeholders count_sql_base = 0 ∧ placeholders main_sql_base = 0 ∧
    placeholders " ORDER BY t.id DESC LIMIT ? OFFSET ?;" = 2 ∧
    placeholders ";" = 0 ∧
    placeholders (" JOIN template_categories tc ON t.id = tc.template_id"
      ++ " JOIN categories c ON tc.category_id = c.id") = 0 :=
  ⟨by decide, by decide, by decide, by decide, by decide⟩

/-- C27: for every request, with `n` the number of category tokens and `s` 1 when a search
term is given and 0 otherwise: the count statement has `n + 2 s` placeholders and as many
bound values, the main statement `n + 2 s + 2` placeholders and as many bound values; the
values bound to the count statement are the category tokens in order, then the search
pattern twice; the values bound to the main statement are the same values followed by the
limit and the offset. -/
theorem C27_placeholders_match_bindings (request : Request) :
    placeholders (search_count_statement request).1 =
      (parse_categories (u_map_get request.map_url "category")).length
        + 2 * (if search_given (u_map_get request.map_url "search") = true then 1 else 0) ∧
    (search_count_statement request).2.length =
      (parse_categories (u_map_get request.map_url "category")).length
        + 2 * (if search_given (u_map_get request.map_url "search") = true then 1 else 0) ∧
    placeholders (search_main_statement request).1 =
      (parse_categories (u_map_get request.map_url "category")).length
        + 2 * (if search_given (u_map_get request.map_url "search") = true then 1 else 0)
        + 2 ∧
    (search_main_statement request).2.length =
      (parse_categories (u_map_get request.map_url "category")).length
        + 2 * (if search_given (u_map_get request.map_url "search") = true then 1 else 0)
        + 2 ∧
    (search_count_statement request).2 =
      (parse_categories (u_map_get request.map_url "category")).map
          (fun token => SqlValue.text token)
        ++ List.replicate
            (2 * (if search_given (u_map_get request.map_url "search") = true then 1 else 0))
            (SqlValue.text ((search_pattern (u_map_get request.map_url "search")).getD "")) ∧
    (search_main_statement request).2 =
      (search_count_statement request).2
        ++ [SqlValue.integer (search_limit request),
            SqlValue.integer (search_offset request)] := by
  have hn := parse_categories_length (u_map_get request.map_url "category")
  have hgiven := search_pattern_of_given (u_map_get request.map_url "search")
  have hjoin : ∀ n, placeholders (search_join_clause n) = 0 := by
    intro n
    unfold search_join_clause
    simp only
    split
    · simpa using placeholders_of_fragments.2.2.2.2
    · rfl
  have hbind : search_count_bindings
      (parse_categories (u_map_get request.map_url "category"))
      (u_map_get request.map_url "search") =
      (parse_categories (u_map_get request.map_url "category")).map
          (fun token => SqlValue.text token)
        ++ List.replicate
            (2 * (if search_given (u_map_get request.map_url "search") = true then 1 else 0))
            (SqlValue.text ((search_pattern (u_map_get request.map_url "search")).getD "")) := by
    unfold search_count_bindings
    rw [← hgiven]
    cases search_pattern (u_map_get request.map_url "search") with
    | none => simp
    | some p => simp [List.replicate]
  have hmain : ∀ limit offset : Int, search_main_bindings
      (parse_categories (u_map_get request.map_url "category"))
      (u_map_get request.map_url "search") limit offset =
      search_count_bindings (parse_categories (u_map_get request.map_url "category"))
        (u_map_get request.map_url "search")
        ++ [SqlValue.integer limit, SqlValue.integer offset] := by
    intro limit offset
    rfl
  obtain ⟨h1, h3, h4, h2, _⟩ := placeholders_of_fragments
  simp only [search_count_statement, search_main_statement]
  rw [full_count_sql_eq _ _ hn, full_main_sql_eq _ _ hn, hmain, hbind]
  simp only [placeholders_append, search_where_clause_placeholders, hjoin, h1, h2, h3, h4,
    List.length_append, List.length_map, List.length_replicate, List.length_cons,
    List.length_nil]
  refine ⟨by omega, trivial, by omega, trivial, trivial, trivial⟩


theorem search_where_clause_congr (category_count : Nat) (q1 q2 : Option String)
    (h : search_given q1 = search_given q2) :
    search_where_clause category_count q1 = search_where_clause category_count q2 := by
  rw [search_where_clause_of_given, search_where_clause_of_given, h]

theorem collections_sql_congr (category_count : Nat) (q1 q2 : Option String)
    (h : search_given q1 = search_given q2) :
    collections_sql category_count q1 = collections_sql category_count q2 := by
  have key : ∀ q : Option String, collections_sql category_count q =
      (if category_count > 0 then
        in_list_loop category_count
          ("SELECT DISTINCT c.id, c.rank, c.name, c.description, c.total_views, c.created_at FROM collections c"
            ++ " JOIN collection_categories cc ON c.id = cc.collection_id"
            ++ " WHERE cc.category_id IN (") 0 ++ ")"
       else "SELECT DISTINCT c.id, c.rank, c.name, c.description, c.total_views, c.created_at FROM collections c")
      ++ (if search_given q = true then
            (if category_count > 0 then " AND " else " WHERE ") ++ "c.name LIKE ?"
          else "")
      ++ " ORDER BY c.rank, c.name;" := by
    intro q
    unfold collections_sql search_given
    cases q with
    | none => simp
    | some s =>
      by_cases hs : s.length > 0
      · by_cases hc : category_count > 0
        · simp [hs, hc, String.append_assoc]
        · simp [hs, hc, String.append_assoc]
      · simp [hs]
  rw [key q1, key q2, h]

/-- C24: two requests whose search terms are both given or both not given: when they have
the same number of category tokens, the count statements of the search have the same text
and so have the main statements; when they have the same number of `category[N]`
parameters, the statements of the collection list have the same text. -/
theorem C24_statement_text_depends_on_counts (r1 r2 : Request)
    (hs : search_given (u_map_get r1.map_url "search")
      = search_given (u_map_get r2.map_url "search")) :
    ((parse_categories (u_map_get r1.map_url "category")).length
        = (parse_categories (u_map_get r2.map_url "category")).length →
      (search_count_statement r1).1 = (search_count_statement r2).1 ∧
      (search_main_statement r1).1 = (search_main_statement r2).1) ∧
    ((collection_category_ids r1).length = (collection_category_ids r2).length →
      (collections_statement r1).1 = (collections_statement r2).1) := by
  constructor
  · intro hn
    simp only [search_count_statement, search_main_statement, full_count_sql, full_main_sql]
    rw [hn, search_where_clause_congr _ _ _ hs]
    exact ⟨rfl, rfl⟩
  · intro hm
    simp only [collections_statement]
    rw [hm, collections_sql_congr _ _ _ hs]

theorem C24_witness :
    (search_main_statement
        ⟨[("category", "AI,Sales"), ("search", "x"), ("page", "3")], none⟩).1
      = (search_main_statement
        ⟨[("category", "a b , c"), ("search", "drop table"), ("limit", "7")], none⟩).1 ∧
    (collections_statement ⟨[("category[0]", "3"), ("search", "x")], none⟩).1
      = (collections_statement ⟨[("category[4]", "9"), ("search", "y z")], none⟩).1 :=
  ⟨((C24_statement_text_depends_on_counts
      ⟨[("category", "AI,Sales"), ("search", "x"), ("page", "3")], none⟩
      ⟨[("category", "a b , c"), ("search", "drop table"), ("limit", "7")], none⟩
      (by decide)).1 (by decide)).2,
   (C24_statement_text_depends_on_counts
      ⟨[("category[0]", "3"), ("search", "x")], none⟩
      ⟨[("category[4]", "9"), ("search", "y z")], none⟩
      (by decide)).2 (by decide)⟩


/-! ## Category tokens of the search (C22) -/

/-- The tokens of `strtok` are the non-empty pieces between the commas. -/
theorem strtok_comma_eq_splitOn (l cur : List Char) :
    strtok_comma l cur =
      ((l.splitOn ',').modifyHead (fun piece => cur.reverse ++ piece)).filter
        (fun piece => !piece.isEmpty) := by
  induction l generalizing cur with
  | nil =>
    simp only [strtok_comma, List.splitOn_nil, List.modifyHead, List.append_nil]
    cases cur with
    | nil => rfl
    | cons c cs =>
      have hne : (cs.reverse ++ [c]).isEmpty = false := by cases cs.reverse <;> rfl
      simp [List.filter, hne]
  | cons c cs ih =>
    simp only [strtok_comma, List.splitOn, List.splitOnP_cons]
    by_cases hc : c = ','
    · have hb : (c == ',') = true := by simp [hc]
      simp only [hc, if_true, hb, List.modifyHead, List.append_nil]
      have h0 := ih []
      simp only [List.splitOn, List.reverse_nil, List.nil_append] at h0
      have hid : List.modifyHead (fun piece : List Char => piece)
          (List.splitOnP (fun x => x == ',') cs) = List.splitOnP (fun x => x == ',') cs := by
        cases List.splitOnP (fun x => x == ',') cs <;> rfl
      rw [hid] at h0
      cases cur with
      | nil => simp [h0, List.filter]
      | cons d ds =>
        have hne : (ds.reverse ++ [d]).isEmpty = false := by cases ds.reverse <;> rfl
        simp [h0, List.filter, hne]
    · have hb : (c == ',') = false := by simp [hc]
      simp only [hc, if_false, hb, Bool.false_eq_true]
      rw [ih (c :: cur)]
      simp only [List.splitOn, List.modifyHead_modifyHead, List.reverse_cons,
        List.append_assoc, List.singleton_append]
      rfl

theorem strtok_comma_mem (l cur : List Char) (token : List Char)
    (h : token ∈ strtok_comma l cur) : ∀ c ∈ token, c ∈ l ∨ c ∈ cur := by
  induction l generalizing cur with
  | nil =>
    simp only [strtok_comma] at h
    split at h
    · cases h
    · simp only [List.mem_singleton] at h
      subst h
      intro c hc
      exact Or.inr (List.mem_reverse.mp hc)
  | cons d ds ih =>
    simp only [strtok_comma] at h
    split at h
    · split at h
      · intro c hc
        rcases ih [] h c hc with h1 | h1
        · exact Or.inl (List.mem_cons_of_mem _ h1)
        · cases h1
      · rcases List.mem_cons.mp h with h1 | h1
        · subst h1
          intro c hc
          exact Or.inr (List.mem_reverse.mp hc)
        · intro c hc
          rcases ih [] h1 c hc with h2 | h2
          · exact Or.inl (List.mem_cons_of_mem _ h2)
          · cases h2
    · intro c hc
      rcases ih (d :: cur) h c hc with h1 | h1
      · exact Or.inl (List.mem_cons_of_mem _ h1)
      · rcases List.mem_cons.mp h1 with h2 | h2
        · subst h2
          exact Or.inl (List.mem_cons_self _ _)
        · exact Or.inr h2

theorem dropWhile_congr_mem {p q : Char → Bool} (l : List Char)
    (h : ∀ c ∈ l, p c = q c) : l.dropWhile p = l.dropWhile q := by
  induction l with
  | nil => rfl
  | cons c cs ih =>
    simp only [List.dropWhile_cons]
    rw [h c (List.mem_cons_self _ _), ih (fun d hd => h d (List.mem_cons_of_mem _ hd))]

theorem dropWhile_head_false {p : Char → Bool} (l : List Char) (c : Char) (rest : List Char)
    (h : l.dropWhile p = c :: rest) : p c = false := by
  induction l with
  | nil => cases h
  | cons d ds ih =>
    simp only [List.dropWhile_cons] at h
    split at h
    · exact ih h
    · rename_i hd
      cases h
      simpa using hd

theorem dropWhile_append_singleton {p : Char → Bool} (l : List Char) (c : Char)
    (h : p c = false) : (l ++ [c]).dropWhile p = l.dropWhile p ++ [c] := by
  induction l with
  | nil => simp [List.dropWhile, h]
  | cons d ds ih =>
    simp only [List.cons_append, List.dropWhile_cons]
    split
    · exact ih
    · rfl

theorem dropWhile_subset {p : Char → Bool} (l : List Char) :
    ∀ c ∈ l.dropWhile p, c ∈ l := by
  intro c hc
  exact (List.dropWhile_sublist p).subset hc

/-- The trimming loops of the source, which test for the space character, remove the
surrounding whitespace of a token whose only whitespace characters are spaces. -/
theorem trim_token_eq_strip (token : List Char)
    (h : ∀ c ∈ token, isspace c = true → c = ' ') :
    trim_token token = strip_whitespace token := by
  have hagree : ∀ c ∈ token, isspace c = decide (c = ' ') := by
    intro c hc
    by_cases hsp : c = ' '
    · subst hsp
      rfl
    · have : isspace c = false := by
        cases hi : isspace c with
        | false => rfl
        | true => exact absurd (h c hc hi) hsp
      simp [this, hsp]
  unfold trim_token strip_whitespace
  rw [dropWhile_congr_mem token hagree]
  have hsub : ∀ c ∈ (token.dropWhile (fun c => decide (c = ' '))).reverse,
      isspace c = decide (c = ' ') := by
    intro c hc
    exact hagree c (dropWhile_subset token c (List.mem_reverse.mp hc))
  rw [dropWhile_congr_mem _ hsub]
  cases hd : token.dropWhile (fun c => decide (c = ' ')) with
  | nil => rfl
  | cons c rest =>
    have hc := dropWhile_head_false token c rest hd
    simp only [List.reverse_cons]
    rw [dropWhile_append_singleton _ c hc]
    simp

/-- No token left by the trimming loops begins or ends with a space. -/
theorem trim_token_ends (token : List Char) (c : Char)
    (h : (trim_token token).head? = some c ∨ (trim_token token).getLast? = some c) :
    c ≠ ' ' := by
  unfold trim_token at h
  cases hd : token.dropWhile (fun c => decide (c = ' ')) with
  | nil =>
    rw [hd] at h
    rcases h with h | h <;> cases h
  | cons d rest =>
    rw [hd] at h
    have hdn : d ≠ ' ' := by
      have := dropWhile_head_false token d rest hd
      simpa using this
    simp only [List.head?_cons, Option.some.injEq] at h
    rcases h with h | h
    · exact h ▸ hdn
    · cases hr : rest.reverse.dropWhile (fun c => decide (c = ' ')) with
      | nil =>
        rw [hr] at h
        simp only [List.reverse_nil, List.getLast?_singleton, Option.some.injEq] at h
        exact h ▸ hdn
      | cons e more =>
        rw [hr] at h
        have hen : e ≠ ' ' := by
          have := dropWhile_head_false rest.reverse e more hr
          simpa using this
        have hlast : (d :: (e :: more).reverse).getLast? = some e := by
          simp [List.getLast?_cons, List.getLast?_append]
        rw [hlast] at h
        cases h
        exact hen

theorem trim_token_subset (token : List Char) : ∀ c ∈ trim_token token, c ∈ token := by
  intro c hc
  unfold trim_token at hc
  cases hd : token.dropWhile (fun c => decide (c = ' ')) with
  | nil => rw [hd] at hc; cases hc
  | cons d rest =>
    rw [hd] at hc
    have hsub : ∀ x ∈ d :: rest, x ∈ token := by
      intro x hx
      exact dropWhile_subset token x (hd ▸ hx)
    rcases List.mem_cons.mp hc with h | h
    · exact hsub c (h ▸ List.mem_cons_self _ _)
    · have h1 := dropWhile_subset _ c (List.mem_reverse.mp h)
      exact hsub c (List.mem_cons_of_mem _ (List.mem_reverse.mp h1))

set_option maxRecDepth 100000 in
/-- C22, counterexample: the token bound for the category string made of a tab and `A`
begins with the tab, a whitespace character; and for a category string of 600 letters
`a` the bound token is made of 511 letters, not the piece of 600 letters. -/
theorem C22_counterexample :
    parse_categories (some "\tA") = ["\tA"] ∧ isspace '\t' = true ∧
    parse_categories (some (String.mk (List.replicate 600 'a')))
      = [String.mk (List.replicate 511 'a')] :=
  ⟨by decide, by decide, by decide⟩

/-- C22, amended: for a category string whose only whitespace characters are spaces, the
tokens bound by the search are the non-empty comma-separated pieces of the first 511 bytes
of the string, at most 50 of them, each with its surrounding whitespace removed; no bound
token begins or ends with a whitespace character. -/
theorem C22_category_tokens (category_str : String)
    (hws : ∀ c ∈ category_str.data, isspace c = true → c = ' ') :
    parse_categories (some category_str) = category_tokens category_str ∧
    (parse_categories (some category_str)).length ≤ 50 ∧
    (∀ token ∈ parse_categories (some category_str), ∀ c : Char,
      (token.data.head? = some c ∨ token.data.getLast? = some c) → isspace c = false) := by
  have hmem : ∀ token ∈ (strtok_comma (category_str.data.take 511) []).take 50,
      ∀ c ∈ token, c ∈ category_str.data := by
    intro token ht c hc
    rcases strtok_comma_mem _ _ token (List.mem_of_mem_take ht) c hc with h | h
    · exact List.mem_of_mem_take h
    · cases h
  have hparse : parse_categories (some category_str) =
      ((strtok_comma (category_str.data.take 511) []).take 50).map
        (fun token => String.mk (trim_token token)) := by
    unfold parse_categories
    simp only
    split
    · rfl
    · rename_i hlen
      have hnil : category_str.data = [] := by
        apply List.length_eq_zero.mp
        have : category_str.data.length = category_str.length := rfl
        omega
      rw [hnil]
      rfl
  refine ⟨?_, parse_categories_length _, ?_⟩
  · rw [hparse]
    unfold category_tokens
    rw [strtok_comma_eq_splitOn]
    have hid : List.modifyHead (fun piece : List Char => ([] : List Char).reverse ++ piece)
        ((category_str.data.take 511).splitOn ',') = (category_str.data.take 511).splitOn ',' := by
      cases (category_str.data.take 511).splitOn ',' <;> rfl
    rw [hid]
    apply List.map_congr_left
    intro token ht
    rw [trim_token_eq_strip]
    intro c hc
    apply hws
    rw [← hid, ← strtok_comma_eq_splitOn] at ht
    exact hmem token ht c hc
  · rw [hparse]
    intro token ht c hc
    simp only [List.mem_map] at ht
    obtain ⟨raw, hraw, rfl⟩ := ht
    have hsp : c ≠ ' ' := trim_token_ends raw c hc
    have hin : c ∈ trim_token raw := by
      rcases hc with h | h
      · exact List.mem_of_mem_head? h
      · exact List.mem_of_mem_getLast? h
    have hc2 : c ∈ category_str.data := hmem raw hraw c (trim_token_subset raw c hin)
    cases hi : isspace c with
    | false => rfl
    | true => exact absurd (hws c hc2 hi) hsp

theorem C22_witness :
    parse_categories (some " AI ,, Sales Ops ,Dev") = ["AI", "Sales Ops", "Dev"] ∧
    parse_categories (some " AI ,, Sales Ops ,Dev")
      = category_tokens " AI ,, Sales Ops ,Dev" :=
  ⟨by decide, (C22_category_tokens " AI ,, Sales Ops ,Dev" (by decide)).1⟩


/-! ## The pattern of the search term (C23) -/

theorem search_pattern_of_short (s : String) (hne : s ≠ "") (hlen : s.length ≤ 253) :
    search_pattern (some s) = some ("%" ++ s ++ "%") := by
  have hpos : s.length > 0 := by
    apply Nat.pos_of_ne_zero
    intro h0
    apply hne
    apply String.ext
    exact List.length_eq_zero.mp h0
  unfold search_pattern
  simp only [hpos, if_true, Option.some.injEq]
  apply String.ext
  simp only
  apply List.take_of_length_le
  have h1 : ("%" ++ s ++ "%").data.length = ("%" ++ s ++ "%").length := rfl
  have h2 : "%".length = 1 := by decide
  rw [h1]
  simp only [String.length_append]
  omega

set_option maxRecDepth 100000 in
/-- C23, counterexample: for the search term made of 254 letters `a`, the pattern bound by
the collection list and by both statements of the search is `%` followed by the 254
letters, without the closing `%`. -/
theorem C23_counterexample :
    (collections_statement ⟨[("search", String.mk (List.replicate 254 'a'))], none⟩).2
      = [SqlValue.text (String.mk ('%' :: List.replicate 254 'a'))] ∧
    (search_count_statement ⟨[("search", String.mk (List.replicate 254 'a'))], none⟩).2
      = [SqlValue.text (String.mk ('%' :: List.replicate 254 'a')),
         SqlValue.text (String.mk ('%' :: List.replicate 254 'a'))] ∧
    (search_main_statement ⟨[("search", String.mk (List.replicate 254 'a'))], none⟩).2
      = [SqlValue.text (String.mk ('%' :: List.replicate 254 'a')),
         SqlValue.text (String.mk ('%' :: List.replicate 254 'a')),
         SqlValue.integer 20, SqlValue.integer 0] ∧
    String.mk ('%' :: List.replicate 254 'a')
      ≠ "%" ++ String.mk (List.replicate 254 'a') ++ "%" :=
  ⟨by decide, by decide, by decide, by decide⟩

/-- C23, amended: for a search term `s` that is not empty and has at most 253 bytes, the
pattern bound by the collection list (after the category identifiers) and by the count
and main statements of the search (twice, after the category tokens) is `%`, then `s`,
then `%`; for every search term that is not empty the pattern is the first 255 bytes of
that text. -/
theorem C23_like_pattern (request : Request) (s : String)
    (hs : u_map_get request.map_url "search" = some s) (hne : s ≠ "")
    (hlen : s.length ≤ 253) :
    (collections_statement request).2 =
      (collection_category_ids request).map (fun id => SqlValue.integer id)
        ++ [SqlValue.text ("%" ++ s ++ "%")] ∧
    (search_count_statement request).2 =
      (parse_categories (u_map_get request.map_url "category")).map
          (fun token => SqlValue.text token)
        ++ [SqlValue.text ("%" ++ s ++ "%"), SqlValue.text ("%" ++ s ++ "%")] ∧
    (search_main_statement request).2 =
      (parse_categories (u_map_get request.map_url "category")).map
          (fun token => SqlValue.text token)
        ++ [SqlValue.text ("%" ++ s ++ "%"), SqlValue.text ("%" ++ s ++ "%")]
        ++ [SqlValue.integer (search_limit request),
            SqlValue.integer (search_offset request)] ∧
    (∀ q : String, q ≠ "" →
      search_pattern (some q) = some (String.mk (("%" ++ q ++ "%").data.take 255))) := by
  have hp := search_pattern_of_short s hne hlen
  refine ⟨?_, ?_, ?_, ?_⟩
  · simp only [collections_statement, collections_bindings, hs, hp]
  · simp only [search_count_statement, search_count_bindings, hs, hp]
  · simp only [search_main_statement, search_main_bindings, hs, hp]
  · intro q hq
    have hpos : q.length > 0 := by
      apply Nat.pos_of_ne_zero
      intro h0
      apply hq
      apply String.ext
      exact List.length_eq_zero.mp h0
    unfold search_pattern
    simp only [hpos, if_true]

theorem C23_witness :
    (search_count_statement ⟨[("search", "mail"), ("category", "AI")], none⟩).2 =
      [SqlValue.text "AI", SqlValue.text "%mail%", SqlValue.text "%mail%"] :=
  (C23_like_pattern ⟨[("search", "mail"), ("category", "AI")], none⟩ "mail" rfl
    (by decide) (by decide)).2.1


/-! ## The parent of a category (C25) -/

/-- The parent is resolved only when the member `parent` is an object. -/
theorem resolve_parent_eq (kvs : List (String × Json)) (db : Db) :
    resolve_parent kvs db =
      match lookupKey "parent" kvs with
      | some (.object pkvs) => get_or_create_category_json (.object pkvs) db
      | _ => (db, 0) := by
  induction kvs with
  | nil => rfl
  | cons kv rest ih =>
    obtain ⟨k, v⟩ := kv
    by_cases hk : k = "parent"
    · subst hk
      cases v <;> simp [resolve_parent, lookupKey]
    · simp only [resolve_parent, lookupKey, hk, if_false]
      exact ih

/-- The result of `get_or_create_category` for a name the first select does not find: the
parent is resolved, then the row is inserted with the parent found; when the unique key
rejects the row the second select decides. -/
theorem get_or_create_category_json_new (kvs : List (String × Json)) (db : Db)
    (name : String) (hname : json_string_value (lookupKey "name" kvs) = some name)
    (hne : name ≠ "") (hnew : select_category_id db name = none) :
    get_or_create_category_json (.object kvs) db =
      match insert_category (resolve_parent kvs db).1 name
          ((json_string_value (lookupKey "icon" kvs)).getD "ðŸ·ï¸")
          (if (resolve_parent kvs db).2 > 0 then some (resolve_parent kvs db).2 else none) with
      | some (db2, rowid) => (db2, toInt32 rowid)
      | none =>
        match select_category_id (resolve_parent kvs db).1 name with
        | some id => ((resolve_parent kvs db).1, toInt32 id)
        | none => ((resolve_parent kvs db).1, 0) := by
  have hlen : ¬ name.length = 0 := by
    intro h
    apply hne
    apply String.ext
    exact List.length_eq_zero.mp h
  simp only [get_or_create_category_json, hname, hlen, if_false, hnew]
  rw [if_neg (by decide)]

/-- C25, counterexample: in a store that holds the category `A` and no category `P`, the
document with name `A` and parent `P` resolves to the positive identifier 1 and no row
with the name `P` exists afterwards. -/
theorem C25_counterexample :
    (get_or_create_category unionDb (some (.object
      [("name", .string "A"), ("parent", .object [("name", .string "P")])]))).2 = 1 ∧
    (get_or_create_category unionDb (some (.object
      [("name", .string "A"), ("parent", .object [("name", .string "P")])]))).1.categories.all
      (fun c => c.name ≠ some "P") = true :=
  ⟨by decide, by decide⟩

/-- C25, amended: for a category document with a non-empty name whose `parent` is an
object with a non-empty name: when no row with the name of the document is found, the
parent is resolved first, so that afterwards a row with the name of the parent exists, and
the categories are those left by the resolution of the parent, followed, when the insert
is accepted, by one row with the name of the document that refers to the identifier of the
parent when it is positive; when a row with the name of the document is found under a
positive identifier, that identifier is returned and the store is left as it is. -/
theorem C25_parent_resolved_first (db : Db) (kvs pkvs : List (String × Json))
    (name pname : String)
    (hname : json_string_value (lookupKey "name" kvs) = some name) (hne : name ≠ "")
    (hparent : lookupKey "parent" kvs = some (.object pkvs))
    (hpname : json_string_value (lookupKey "name" pkvs) = some pname) (hpne : pname ≠ "") :
    (select_category_id db name = none →
      (∃ row ∈ (get_or_create_category db (some (.object kvs))).1.categories,
        row.name = some pname) ∧
      ((get_or_create_category db (some (.object kvs))).1.categories
          = (get_or_create_category db (some (.object pkvs))).1.categories ∨
        ∃ row : Category, row.name = some name ∧
          row.parent_id =
            (if (get_or_create_category db (some (.object pkvs))).2 > 0
              then some (get_or_create_category db (some (.object pkvs))).2 else none) ∧
          (get_or_create_category db (some (.object kvs))).1.categories
            = (get_or_create_category db (some (.object pkvs))).1.categories ++ [row])) ∧
    (∀ id : Int, select_category_id db name = some id → 0 < toInt32 id →
      get_or_create_category db (some (.object kvs)) = (db, toInt32 id)) := by
  have hlen : ¬ name.length = 0 := by
    intro h
    apply hne
    apply String.ext
    exact List.length_eq_zero.mp h
  have hres : resolve_parent kvs db = get_or_create_category_json (.object pkvs) db := by
    rw [resolve_parent_eq, hparent]
  simp only [get_or_create_category]
  constructor
  · intro hnew
    obtain ⟨pid, hpsel, _⟩ := get_or_create_category_json_selects pkvs db pname hpname hpne
    obtain ⟨prow, hprow, hpn, _⟩ := select_category_id_mem hpsel
    rw [get_or_create_category_json_new kvs db name hname hne hnew, hres]
    split
    · rename_i db2 rowid hins
      obtain ⟨hcat, _, _⟩ := insert_category_some hins
      simp only []
      refine ⟨⟨prow, ?_, hpn⟩, Or.inr ⟨_, rfl, rfl, hcat⟩⟩
      rw [hcat]
      exact List.mem_append_left _ hprow
    · split
      · exact ⟨⟨prow, hprow, hpn⟩, Or.inl rfl⟩
      · exact ⟨⟨prow, hprow, hpn⟩, Or.inl rfl⟩
  · intro id hsel hpos
    simp only [get_or_create_category_json, hname, hlen, if_false, hsel]
    rw [if_pos hpos]

theorem C25_witness :
    (get_or_create_category unionDb (some (.object
      [("name", .string "N"), ("parent", .object [("name", .string "P")])]))).1.categories
      = unionDb.categories
        ++ [⟨4, some "P", some "ðŸ·ï¸", none⟩, ⟨5, some "N", some "ðŸ·ï¸", some 4⟩] ∧
    (∃ row ∈ (get_or_create_category unionDb (some (.object
      [("name", .string "N"), ("parent", .object [("name", .string "P")])]))).1.categories,
      row.name = some "P") :=
  ⟨by decide, ((C25_parent_resolved_first unionDb
    [("name", .string "N"), ("parent", .object [("name", .string "P")])]
    [("name", .string "P")] "N" "P" rfl (by decide) rfl rfl (by decide)).1 (by decide)).1⟩


/-! ## The forest of categories (C26) -/

theorem parent_edge_append (db db2 : Db) (row : Category)
    (hcat : db2.categories = db.categories ++ [row]) (a b : Int) :
    parent_edge db2 a b ↔ parent_edge db a b ∨ (row.id = a ∧ row.parent_id = some b) := by
  unfold parent_edge
  rw [hcat]
  constructor
  · rintro ⟨c, hc, h1, h2⟩
    rcases List.mem_append.mp hc with h | h
    · exact Or.inl ⟨c, h, h1, h2⟩
    · simp only [List.mem_singleton] at h
      subst h
      exact Or.inr ⟨h1, h2⟩
  · rintro (⟨c, hc, h1, h2⟩ | ⟨h1, h2⟩)
    · exact ⟨c, List.mem_append_left _ hc, h1, h2⟩
    · exact ⟨row, List.mem_append_right _ (List.mem_singleton.mpr rfl), h1, h2⟩

/-- A row appended under an identifier that no row holds and no row refers to, and that is
not its own parent, closes no cycle. -/
theorem acyclic_append (db db2 : Db) (row : Category)
    (hcat : db2.categories = db.categories ++ [row]) (hac : acyclic db)
    (hrefs : ∀ c ∈ db.categories, c.parent_id ≠ some row.id)
    (hself : row.parent_id ≠ some row.id) : acyclic db2 := by
  have htarget : ∀ x y, parent_edge db2 x y → y ≠ row.id := by
    intro x y h hy
    rcases (parent_edge_append db db2 row hcat x y).mp h with ⟨c, hc, _, h2⟩ | ⟨_, h2⟩
    · exact hrefs c hc (hy ▸ h2)
    · exact hself (hy ▸ h2)
  have hsource : ∀ x y, parent_edge db2 x y → x ≠ row.id → parent_edge db x y := by
    intro x y h hx
    rcases (parent_edge_append db db2 row hcat x y).mp h with h1 | ⟨h1, _⟩
    · exact h1
    · exact absurd h1.symm hx
  have hend : ∀ x y, Relation.TransGen (parent_edge db2) x y → y ≠ row.id := by
    intro x y h
    cases h with
    | single h1 => exact htarget _ _ h1
    | tail _ h1 => exact htarget _ _ h1
  have hpath : ∀ x y, Relation.TransGen (parent_edge db2) x y → x ≠ row.id →
      Relation.TransGen (parent_edge db) x y := by
    intro x y h hx
    induction h with
    | single h1 => exact Relation.TransGen.single (hsource _ _ h1 hx)
    | tail h0 h1 ih =>
      exact Relation.TransGen.tail ih (hsource _ _ h1 (hend _ _ h0))
  intro a h
  exact hac a (hpath a a h (hend a a h))

theorem toInt32_le_of_pos (x : Int) (h : 0 < x) : toInt32 x ≤ x := by
  unfold toInt32
  omega

theorem max_category_id_nonneg (db : Db) : 0 ≤ max_category_id db :=
  foldr_max_nonneg _

theorem le_max_category_id (db : Db) (c : Category) (h : c ∈ db.categories) :
    c.id ≤ max_category_id db :=
  le_foldr_max _ _ (List.mem_map.mpr ⟨c, h, rfl⟩)

theorem max_category_id_append (db db2 : Db) (row : Category)
    (hcat : db2.categories = db.categories ++ [row])
    (hrow : row.id = max_category_id db + 1) :
    max_category_id db2 = row.id := by
  apply Int.le_antisymm
  · unfold max_category_id
    apply foldr_max_le
    · have := max_category_id_nonneg db
      omega
    · intro x hx
      rw [hcat] at hx
      simp only [List.map_append, List.map_cons, List.map_nil, List.mem_append,
        List.mem_singleton] at hx
      rcases hx with h | h
      · obtain ⟨c, hc, rfl⟩ := List.mem_map.mp h
        have := le_max_category_id db c hc
        omega
      · omega
  · apply le_max_category_id
    rw [hcat]
    exact List.mem_append_right _ (List.mem_singleton.mpr rfl)

theorem insert_category_rowid {db db2 : Db} {name icon : String} {parent_id : Option Int}
    {rowid : Int} (h : insert_category db name icon parent_id = some (db2, rowid)) :
    rowid = max_category_id db + 1 := by
  unfold insert_category at h
  split at h
  · cases h
  · simp only [Option.some.injEq, Prod.mk.injEq] at h
    exact h.2.symm

theorem select_category_id_le (db : Db) (name : String) (id : Int) (hf : forest db)
    (h : select_category_id db name = some id) : toInt32 id ≤ max_category_id db := by
  obtain ⟨row, hrow, _, hid⟩ := select_category_id_mem h
  have h1 := hf.2.1 row hrow
  have h2 := le_max_category_id db row hrow
  rw [hid] at h1 h2
  have := toInt32_le_of_pos id h1
  omega

/-- An accepted insert of a category whose parent is at most the largest identifier in use
keeps the forest. -/
theorem forest_insert (db db2 : Db) (name icon : String) (parent_id rowid : Int)
    (hf : forest db) (hp : parent_id ≤ max_category_id db)
    (hins : insert_category db name icon (if parent_id > 0 then some parent_id else none)
      = some (db2, rowid)) :
    forest db2 ∧ (∃ extra, db2.categories = db.categories ++ extra) ∧
      toInt32 rowid ≤ max_category_id db2 := by
  obtain ⟨hcat, _, _⟩ := insert_category_some hins
  have hrow := insert_category_rowid hins
  have hnonneg := max_category_id_nonneg db
  have hmax : max_category_id db2 = rowid := max_category_id_append db db2 _ hcat hrow
  obtain ⟨hac, hpos, hrefs⟩ := hf
  refine ⟨⟨?_, ?_, ?_⟩, ⟨_, hcat⟩, ?_⟩
  · apply acyclic_append db db2 _ hcat hac
    · intro c hc heq
      have := hrefs c hc rowid heq
      omega
    · simp only []
      split
      · intro heq
        simp only [Option.some.injEq] at heq
        omega
      · intro heq
        cases heq
  · intro c hc
    rw [hcat] at hc
    rcases List.mem_append.mp hc with h | h
    · exact hpos c h
    · simp only [List.mem_singleton] at h
      subst h
      simp only []
      omega
  · intro c hc p hcp
    rw [hcat] at hc
    rw [hmax]
    rcases List.mem_append.mp hc with h | h
    · have := hrefs c h p hcp
      omega
    · simp only [List.mem_singleton] at h
      subst h
      simp only [] at hcp
      split at hcp
      · simp only [Option.some.injEq] at hcp
        omega
      · cases hcp
  · rw [hmax]
    apply toInt32_le_of_pos
    omega

/-- The forest is kept by `get_or_create_category`, the rows present before the call are
kept in place, and the result is at most the largest identifier in use afterwards. -/
theorem get_or_create_category_json_forest (j : Json) (db : Db) :
    forest db →
      forest (get_or_create_category_json j db).1 ∧
      (∃ extra, (get_or_create_category_json j db).1.categories = db.categories ++ extra) ∧
      (get_or_create_category_json j db).2
        ≤ max_category_id (get_or_create_category_json j db).1 := by
  have hzero : ∀ db : Db, forest db →
      forest db ∧ (∃ extra, db.categories = db.categories ++ extra) ∧
        (0 : Int) ≤ max_category_id db :=
    fun db hf => ⟨hf, ⟨[], (List.append_nil _).symm⟩, max_category_id_nonneg db⟩
  refine get_or_create_category_json.induct
    (fun j db => forest db →
      forest (get_or_create_category_json j db).1 ∧
      (∃ extra, (get_or_create_category_json j db).1.categories = db.categories ++ extra) ∧
      (get_or_create_category_json j db).2
        ≤ max_category_id (get_or_create_category_json j db).1)
    (fun kvs db => forest db →
      forest (resolve_parent kvs db).1 ∧
      (∃ extra, (resolve_parent kvs db).1.categories = db.categories ++ extra) ∧
      (resolve_parent kvs db).2 ≤ max_category_id (resolve_parent kvs db).1)
    ?_ ?_ ?_ ?_ ?_ ?_ ?_ ?_ ?_ ?_ ?_ j db
  · intro kvs db h hdb
    simpa [get_or_create_category_json, h] using hzero db hdb
  · intro kvs db name h hlen hdb
    simpa [get_or_create_category_json, h, hlen] using hzero db hdb
  · intro kvs db name h hlen category_id hpos hdb
    simp only [get_or_create_category_json, h, hlen, if_false]
    rw [if_pos hpos]
    refine ⟨hdb, ⟨[], (List.append_nil _).symm⟩, ?_⟩
    simp only [category_id]
    cases hsel : select_category_id db name with
    | none => exact max_category_id_nonneg db
    | some id => exact select_category_id_le db name id hdb hsel
  · intro kvs db name h hlen category_id hpos r db1 parent_id icon db2 rowid hins ih hdb
    simp only [get_or_create_category_json, h, hlen, if_false]
    rw [if_neg hpos]
    simp only [db1, parent_id, icon, r] at hins
    simp only [hins]
    obtain ⟨hf1, ⟨extra1, he1⟩, hp1⟩ := ih hdb
    obtain ⟨hf2, ⟨extra2, he2⟩, hp2⟩ := forest_insert _ _ _ _ _ _ hf1 hp1 hins
    refine ⟨hf2, ⟨extra1 ++ extra2, ?_⟩, hp2⟩
    rw [he2, he1, List.append_assoc]
  · intro kvs db name h hlen category_id hpos r db1 parent_id icon hins n hsel ih hdb
    simp only [get_or_create_category_json, h, hlen, if_false]
    rw [if_neg hpos]
    simp only [db1, parent_id, icon, r] at hins hsel
    simp only [hins, hsel]
    obtain ⟨hf1, he1, _⟩ := ih hdb
    exact ⟨hf1, he1, select_category_id_le _ name n hf1 hsel⟩
  · intro kvs db name h hlen category_id hpos r db1 parent_id icon hins hsel ih hdb
    simp only [get_or_create_category_json, h, hlen, if_false]
    rw [if_neg hpos]
    simp only [db1, parent_id, icon, r] at hins hsel
    simp only [hins, hsel]
    obtain ⟨hf1, he1, _⟩ := ih hdb
    refine ⟨hf1, he1, ?_⟩
    have := max_category_id_nonneg (resolve_parent kvs db).1
    simp only [category_id] at hpos
    omega
  · intro t db hne hdb
    cases t <;> simp only [get_or_create_category_json] <;> first
      | exact hzero db hdb
      | exact absurd rfl (hne _)
  · intro db hdb
    simpa [resolve_parent] using hzero db hdb
  · intro rest db kvs ih hdb
    simpa [resolve_parent] using ih hdb
  · intro v rest db hne hdb
    cases v <;> simp only [resolve_parent, if_true] <;> first
      | exact hzero db hdb
      | exact absurd rfl (hne _)
  · intro k v rest db hk ih hdb
    simpa [resolve_parent, hk] using ih hdb

/-- C26: from a store whose category references are acyclic, whose category identifiers
are positive and in which no row refers to an identifier above those in use, a call of
`get_or_create_category` on any document (the function is defined by recursion on the
document, so every call returns) leaves the references acyclic, keeps every row that
existed before the call in place with its parent, and leaves a store of the same kind. -/
theorem C26_forest_invariant (db : Db) (category_json : Option Json)
    (hac : acyclic db) (hpos : ∀ c ∈ db.categories, 0 < c.id)
    (hrefs : ∀ c ∈ db.categories, ∀ p : Int, c.parent_id = some p → p ≤ max_category_id db) :
    acyclic (get_or_create_category db category_json).1 ∧
    (∃ extra, (get_or_create_category db category_json).1.categories
      = db.categories ++ extra) ∧
    (∀ c ∈ (get_or_create_category db category_json).1.categories, 0 < c.id) ∧
    (∀ c ∈ (get_or_create_category db category_json).1.categories, ∀ p : Int,
      c.parent_id = some p → p ≤ max_category_id (get_or_create_category db category_json).1) := by
  unfold get_or_create_category
  cases category_json with
  | none => exact ⟨hac, ⟨[], (List.append_nil _).symm⟩, hpos, hrefs⟩
  | some j =>
    obtain ⟨⟨h1, h2, h3⟩, he, _⟩ := get_or_create_category_json_forest j db ⟨hac, hpos, hrefs⟩
    exact ⟨h1, he, h2, h3⟩

theorem C26_witness :
    acyclic (get_or_create_category
      (get_or_create_category emptyDb (some (.object [("name", .string "A"),
        ("parent", .object [("name", .string "B"),
          ("parent", .object [("name", .string "A")])])]))).1
      (some (.object [("name", .string "C"), ("parent", .object [("name", .string "B")])]))).1 ∧
    (get_or_create_category
      (get_or_create_category emptyDb (some (.object [("name", .string "A"),
        ("parent", .object [("name", .string "B"),
          ("parent", .object [("name", .string "A")])])]))).1
      (some (.object [("name", .string "C"),
        ("parent", .object [("name", .string "B")])]))).1.categories.map
      (fun c => (c.id, c.name, c.parent_id))
      = [(1, some "A", none), (2, some "B", some 1), (3, some "C", some 2)] :=
  have first := C26_forest_invariant emptyDb (some (.object [("name", .string "A"),
      ("parent", .object [("name", .string "B"),
        ("parent", .object [("name", .string "A")])])]))
    (fun a h => by
      cases h with
      | single h1 =>
        obtain ⟨c, hc, _⟩ := h1
        simp [emptyDb] at hc
      | tail _ h1 =>
        obtain ⟨c, hc, _⟩ := h1
        simp [emptyDb] at hc)
    (fun c hc => by simp [emptyDb] at hc)
    (fun c hc => by simp [emptyDb] at hc)
  ⟨(C26_forest_invariant _
      (some (.object [("name", .string "C"), ("parent", .object [("name", .string "B")])]))
      first.1 first.2.2.1 first.2.2.2).1, by decide⟩

/-! ## The offset in 32-bit arithmetic (C28) -/

/-- C28: for every request the offset computed in `int` equals the product
`(page - 1) * limit` and is not negative exactly when the product is below 2^31; at
`page=107374184` with the default limit 20 the product is 2147483660 and the offset is
-2147483636. -/
theorem C28_offset_overflows_for_large_page :
    (∀ request : Request,
      (search_offset request = (get_int_param request "page" 1 - 1) * search_limit request ∧
        0 ≤ search_offset request) ↔
      (get_int_param request "page" 1 - 1) * search_limit request < 2147483648) ∧
    get_int_param ⟨[("page", "107374184")], none⟩ "page" 1 = 107374184 ∧
    search_limit ⟨[("page", "107374184")], none⟩ = 20 ∧
    (get_int_param ⟨[("page", "107374184")], none⟩ "page" 1 - 1)
      * search_limit ⟨[("page", "107374184")], none⟩ = 2147483660 ∧
    search_offset ⟨[("page", "107374184")], none⟩ = -2147483636 := by
  refine ⟨?_, by decide, by decide, by decide, by decide⟩
  intro request
  have hpage := get_int_param_pos request "page" 1 (by decide)
  have hb := search_limit_bounds request
  have hnonneg : 0 ≤ (get_int_param request "page" 1 - 1) * search_limit request :=
    Int.mul_nonneg (by omega) (by omega)
  unfold search_offset
  simp only []
  generalize (get_int_param request "page" 1 - 1) * search_limit request = product at hnonneg
  unfold toInt32
  constructor
  · rintro ⟨h1, _⟩
    omega
  · intro h
    constructor <;> omega

/-! ## The reply of a created collection (C30) -/

/-- C30: a collection created with the string `"12"` as `totalViews` is stored with a NULL
`total_views`, which the collection list renders as JSON null, while the 201 reply carries
the integer 0 as `totalViews`; a collection created with the rank 4294967297 is stored,
and listed, with the rank 1, while the 201 reply carries 4294967297. -/
theorem C30_reply_differs_from_stored_values :
    (callback_create_collection emptyDb ⟨[], some (.object [("name", .string "C"),
      ("createdAt", .string "2025-01-01"), ("totalViews", .string "12")])⟩).2.status = 201 ∧
    json_object_get (bodyJson (callback_create_collection emptyDb ⟨[], some (.object
      [("name", .string "C"), ("createdAt", .string "2025-01-01"),
        ("totalViews", .string "12")])⟩).2) "totalViews" = some (.integer 0) ∧
    (callback_create_collection emptyDb ⟨[], some (.object [("name", .string "C"),
      ("createdAt", .string "2025-01-01"), ("totalViews", .string "12")])⟩).1.collections.map
      (fun c => c.total_views) = [none] ∧
    json_object_get (json_array_get (json_object_get (bodyJson
      (callback_get_collections sampleLib
        (callback_create_collection emptyDb ⟨[], some (.object [("name", .string "C"),
          ("createdAt", .string "2025-01-01"), ("totalViews", .string "12")])⟩).1
        ⟨[], none⟩)) "collections") 0) "totalViews" = some .null ∧
    json_object_get (bodyJson (callback_create_collection emptyDb ⟨[], some (.object
      [("name", .string "C"), ("createdAt", .string "2025-01-01"),
        ("rank", .integer 4294967297)])⟩).2) "rank" = some (.integer 4294967297) ∧
    json_object_get (json_array_get (json_object_get (bodyJson
      (callback_get_collections sampleLib
        (callback_create_collection emptyDb ⟨[], some (.object [("name", .string "C"),
          ("createdAt", .string "2025-01-01"), ("rank", .integer 4294967297)])⟩).1
        ⟨[], none⟩)) "collections") 0) "rank" = some (.integer 1) :=
  ⟨by decide, rfl, by decide, rfl, rfl, rfl⟩

end NRest
